import Mathlib

/-!
# Swap-chain lifecycle, frame scheduling, start-up and shutdown of `helloTriangle`

A shallow embedding of `helloTriangle` of `src/HelloVoxel.cpp`: its two lambdas
(`recreateSwapchain` and `render`), its initialisation, its shutdown cleanup and
its exception handlers, with the helpers of `src/VulkanImpl.cpp`,
`src/VulkanImpl.h` and `src/ErrorHandling.cpp` they call, and of the registry of
dispatch tables declared in `src/ExtensionLoader.h`.

* Vulkan handles are natural numbers, `0` being `VK_NULL_HANDLE`.
* The variables the lambdas capture by reference are the fields of `World`.
* Every command sent to the driver is appended to `World.trace`; the driver
  hands out handles from the counter `World.fresh`.
* What the platform answers during one call is an argument of that call
  (`SurfaceReport`, `FrameReport`).
* A C++ `throw` is the outcome `threw`; a failed `assert`, an out-of-range
  vector index and an exhausted recursion budget are the outcome `stopped`.
-/

namespace HelloVoxel

/-! ## Vulkan values -/

abbrev Handle := Nat

abbrev VkResult := Int

def VK_NULL_HANDLE : Handle := 0

def VK_SUCCESS : VkResult := 0
def VK_SUBOPTIMAL_KHR : VkResult := 1000001003
def VK_ERROR_OUT_OF_DATE_KHR : VkResult := -1000001004
def VK_ERROR_DEVICE_LOST : VkResult := -4

def UINT32_MAX : Nat := 4294967295

def VK_COMPOSITE_ALPHA_OPAQUE_BIT_KHR : Nat := 1
def VK_COMPOSITE_ALPHA_PRE_MULTIPLIED_BIT_KHR : Nat := 2
def VK_COMPOSITE_ALPHA_POST_MULTIPLIED_BIT_KHR : Nat := 4
def VK_COMPOSITE_ALPHA_INHERIT_BIT_KHR : Nat := 8

def VK_PRESENT_MODE_FIFO_KHR : Nat := 2

def VK_FENCE_CREATE_SIGNALED_BIT : Nat := 1

def VK_PIPELINE_STAGE_COLOR_ATTACHMENT_OUTPUT_BIT : Nat := 1024
def VK_PIPELINE_STAGE_BOTTOM_OF_PIPE_BIT : Nat := 8192

def VK_SHARING_MODE_EXCLUSIVE : Nat := 0
def VK_SHARING_MODE_CONCURRENT : Nat := 1

/-- The value of `static_cast<uint32_t>( n )`. -/
def toUint32 (n : Nat) : Nat := n % 4294967296

structure VkExtent2D where
  width : Nat
  height : Nat
deriving DecidableEq, Repr

structure VkSurfaceCapabilitiesKHR where
  minImageCount : Nat
  maxImageCount : Nat
  currentExtent : VkExtent2D
  minImageExtent : VkExtent2D
  maxImageExtent : VkExtent2D
  currentTransform : Nat
  supportedCompositeAlpha : Nat
deriving DecidableEq, Repr

structure VkSurfaceFormatKHR where
  format : Nat
  colorSpace : Nat
deriving DecidableEq, Repr

structure VkPhysicalDeviceLimits where
  maxVertexInputBindings : Nat
  maxVertexInputBindingStride : Nat
  maxVertexInputAttributes : Nat
  maxVertexInputAttributeOffset : Nat
deriving DecidableEq, Repr

/-- The fields of `VkSwapchainCreateInfoKHR` that `initSwapchain` computes. -/
structure VkSwapchainCreateInfoKHR where
  minImageCount : Nat
  imageFormat : Nat
  imageColorSpace : Nat
  imageExtent : VkExtent2D
  imageSharingMode : Nat
  preTransform : Nat
  compositeAlpha : Nat
  presentMode : Nat
  oldSwapchain : Handle
deriving DecidableEq, Repr

/-- The type `enum class DebugObjectType` of `src/ErrorHandling.h`. -/
inductive DebugObjectType where
  | debugReport
  | debugUtils
deriving DecidableEq, Repr

/-! ## Commands sent to the driver -/

/-- One entry of the trace: a Vulkan command with the arguments the program
chose and, for a creating command, the handle it gave back; the first three
constructors mark the entry into a function of the program itself, and `call`
stands for a command of the bring-up or the shutdown that is sent once and
carries no decision (its name, then the handles and numbers it is given or
gives back). -/
inductive Event where
  | recreateSwapchain
  | render
  | initSwapchain (capabilities : VkSurfaceCapabilitiesKHR) (oldSwapchain : Handle)
  | vkGetPhysicalDeviceSurfaceCapabilitiesKHR
  | vkGetPhysicalDeviceSurfacePresentModesKHR
  | vkGetSwapchainImagesKHR (swapchain : Handle)
  | vkDeviceWaitIdle
  | vkResetCommandPool
  | vkDestroyFence (fence : Handle)
  | vkDestroySemaphore (semaphore : Handle)
  | vkDestroyPipeline (pipeline : Handle)
  | vkDestroyFramebuffer (framebuffer : Handle)
  | vkDestroyImageView (imageView : Handle)
  | vkDestroySwapchainKHR (swapchain : Handle)
  | vkCreateSwapchainKHR (info : VkSwapchainCreateInfoKHR) (swapchain : Handle)
  | vkCreateImageView (image : Handle) (format : Nat) (imageView : Handle)
  | vkCreateFramebuffer (imageView : Handle) (width height : Nat) (framebuffer : Handle)
  | vkCreateGraphicsPipelines (width height : Nat) (pipeline : Handle)
  | vkAllocateCommandBuffers (count : Nat) (commandBuffers : List Handle)
  | vkFreeCommandBuffers (commandBuffers : List Handle)
  | vkBeginCommandBuffer (commandBuffer : Handle)
  | vkCmdBeginRenderPass (commandBuffer framebuffer : Handle) (width height : Nat)
  | vkCmdBindPipeline (commandBuffer pipeline : Handle)
  | vkCmdBindVertexBuffers (commandBuffer : Handle) (binding : Nat)
  | vkCmdDraw (commandBuffer : Handle) (vertexCount : Nat)
  | vkCmdEndRenderPass (commandBuffer : Handle)
  | vkEndCommandBuffer (commandBuffer : Handle)
  | vkCreateSemaphore (semaphore : Handle)
  | vkCreateFence (flags : Nat) (fence : Handle)
  | vkWaitForFences (fence : Handle)
  | vkResetFences (fence : Handle)
  | vkAcquireNextImageKHR (swapchain semaphore : Handle)
  | vkQueueSubmit (queue : Handle) (waitSemaphores : List Handle) (waitDstStageMask : Nat)
      (commandBuffers : List Handle) (signalSemaphores : List Handle) (fence : Handle)
  | vkQueuePresentKHR (queue : Handle) (waitSemaphores : List Handle) (swapchain : Handle)
      (imageIndex : Nat)
  | vkCreateInstance (pNext : Option DebugObjectType) (enabledLayerCount : Nat)
      (enabledLayerNames : List String) (enabledExtensionCount : Nat)
      (enabledExtensionNames : List String) (vkInstance : Handle)
  | loadInstanceExtensionsCommands (vkInstance : Handle) (extensions : List String)
  | unloadInstanceExtensionsCommands (vkInstance : Handle)
  | vkDestroyInstance (vkInstance : Handle)
  | vkCreateDevice (physicalDevice : Handle) (queueFamilies : List Nat) (enabledLayerCount : Nat)
      (enabledLayerNames : List String) (enabledExtensionCount : Nat)
      (enabledExtensionNames : List String) (device : Handle)
  | loadDeviceExtensionsCommands (device : Handle) (extensions : List String)
  | unloadDeviceExtensionsCommands (device : Handle)
  | vkDestroyDevice (device : Handle)
  | call (name : String) (arguments : List Nat)
deriving DecidableEq, Repr

/-- The commands whose `VkResult` the program hands to `RESULT_HANDLER`. -/
inductive Command where
  | vkGetPhysicalDeviceSurfaceCapabilitiesKHR
  | vkDeviceWaitIdle
  | vkResetCommandPool
  | vkCreateSwapchainKHR
  | vkCreateImageView
  | vkCreateFramebuffer
  | vkCreateGraphicsPipelines
  | vkAllocateCommandBuffers
  | vkBeginCommandBuffer
  | vkEndCommandBuffer
  | vkCreateSemaphore
  | vkCreateFence
  | vkWaitForFences
  | vkResetFences
  | vkAcquireNextImageKHR
  | vkQueueSubmit
  | vkQueuePresentKHR
  | vkCreateInstance
  | vkCreateDebugUtilsMessengerEXT
  | vkCreateDebugReportCallbackEXT
  | vkCreateDevice
  | vkCreateRenderPass
  | vkCreateShaderModule
  | vkCreatePipelineLayout
  | vkCreateBuffer
  | vkAllocateMemory
  | vkBindBufferMemory
  | vkMapMemory
  | vkCreateCommandPool
deriving DecidableEq, Repr

/-! ## The platform -/

/-- Values `helloTriangle` fixes before it builds the two lambdas. The size of
`Vertex2D_ColorF_pack` and the offset of its `color` member come from
`Vertex.h`, which is not part of the sources, and are parameters here. -/
structure Setup where
  limits : VkPhysicalDeviceLimits
  surfaceFormat : VkSurfaceFormatKHR
  graphicsQueueFamily : Nat
  presentQueueFamily : Nat
  graphicsQueue : Handle
  presentQueue : Handle
  vertexBufferStride : Nat
  colorOffset : Nat
deriving DecidableEq, Repr

/-- What the platform answers during one call of `recreateSwapchain`:
the surface capabilities, the size of the window, the present modes, the
images of the swap chain being created, and the status of each command.
`surfaceFormats` is what `vkGetPhysicalDeviceSurfaceFormatsKHR` would answer at
that time; `recreateSwapchain` does not call it. -/
structure SurfaceReport where
  capabilities : VkSurfaceCapabilitiesKHR
  windowWidth : Nat
  windowHeight : Nat
  presentModes : List Nat
  swapchainImages : List Handle
  surfaceFormats : List VkSurfaceFormatKHR
  status : Command → VkResult

/-- What the platform answers during one attempt of `render`: the status of
each command, the image index `vkAcquireNextImageKHR` writes, and the report
for the `recreateSwapchain` call of the recovery path. -/
structure FrameReport where
  status : Command → VkResult
  imageIndex : Nat
  surface : SurfaceReport

/-! ## State, outcomes and sequencing -/

/-- The variables captured by reference by `recreateSwapchain` and `render`
(`unsafeSemaphore` is the local of `render` that its handler reads), the
handle counter of the driver and the trace of commands. -/
structure World where
  swapchain : Handle
  swapchainImageViews : List Handle
  framebuffers : List Handle
  pipeline : Handle
  commandBuffers : List Handle
  imageReadySs : List Handle
  renderDoneSs : List Handle
  submissionNr : Nat
  submissionFences : List Handle
  unsafeSemaphore : Bool
  fresh : Nat
  trace : List Event
deriving DecidableEq, Repr

/-- The state `helloTriangle` builds before the first `recreateSwapchain`. -/
def World.initial : World where
  swapchain := VK_NULL_HANDLE
  swapchainImageViews := []
  framebuffers := []
  pipeline := VK_NULL_HANDLE
  commandBuffers := []
  imageReadySs := []
  renderDoneSs := []
  submissionNr := 0
  submissionFences := []
  unsafeSemaphore := false
  fresh := 0
  trace := []

/-- The values a `throw` can raise, by the handler of `helloTriangle` that
catches them: a `VulkanResultException`, a `const char*`, a `std::string`, a
`std::exception`, or a value of any other type. -/
inductive Exception where
  | VulkanResultException (source : String) (result : VkResult)
  | cString (message : String)
  | string (message : String)
  | exception (what : String)
  | other
deriving DecidableEq, Repr

/-- Ways a run ends without returning or throwing. -/
inductive Stop where
  | assertionFailed
  | indexOutOfRange
  | outOfFuel
deriving DecidableEq, Repr

inductive Outcome (α : Type) where
  | returned (value : α) (world : World)
  | threw (exception : Exception) (world : World)
  | stopped (stop : Stop) (world : World)
deriving DecidableEq, Repr

/-- The state a run ends in. -/
def Outcome.world {α : Type} : Outcome α → World
  | .returned _ w => w
  | .threw _ w => w
  | .stopped _ w => w

/-- A computation over the world. -/
def M (α : Type) : Type := World → Outcome α

def M.pure {α : Type} (a : α) : M α := fun w => .returned a w

/-- Continue a run that returned; a run that threw or stopped stays as it is. -/
def Outcome.andThen {α β : Type} : Outcome α → (α → M β) → Outcome β
  | .returned a w, f => f a w
  | .threw e w, _ => .threw e w
  | .stopped s w, _ => .stopped s w

def M.bind {α β : Type} (m : M α) (f : α → M β) : M β := fun w => (m w).andThen f

instance : Monad M where
  pure := M.pure
  bind := M.bind

def getWorld : M World := fun w => .returned w w

def modifyWorld (f : World → World) : M Unit := fun w => .returned () (f w)

def throwException {α : Type} (e : Exception) : M α := fun w => .threw e w

def stop {α : Type} (s : Stop) : M α := fun w => .stopped s w

/-- Hand a thrown exception to the handler. -/
def Outcome.orCatch {α : Type} : Outcome α → (Exception → M α) → Outcome α
  | .threw e w, handler => handler e w
  | .returned a w, _ => .returned a w
  | .stopped s w, _ => .stopped s w

/-- The C++ `try` block with one handler that sees every exception and
rethrows the ones it does not handle. -/
def tryCatch {α : Type} (body : M α) (handler : Exception → M α) : M α := fun w =>
  (body w).orCatch handler

/-- Append one command to the trace. -/
def emit (e : Event) : M Unit := modifyWorld fun w => { w with trace := w.trace ++ [e] }

/-- The handle a creating command writes: the next handle of the driver when
the command does not fail, `VK_NULL_HANDLE` when it fails. -/
def newHandle (status : VkResult) : M Handle := fun w =>
  .returned (if 0 ≤ status then w.fresh + 1 else VK_NULL_HANDLE) { w with fresh := w.fresh + 1 }

/-- The element `v[i]` of a vector; an index past the end stops the run. -/
def at_ (v : List Handle) (i : Nat) : M Handle :=
  match v.get? i with
  | some h => pure h
  | none => stop .indexOutOfRange

/-- The loop `for( auto x : xs ) body( x )`. -/
def forEach {α : Type} : List α → (α → M Unit) → M Unit
  | [], _ => pure ()
  | x :: xs, body => do body x; forEach xs body

/-- The algorithm `std::generate_n( std::back_inserter( v ), count, gen )` on an
empty `v`. -/
def generate_n {α : Type} : Nat → M α → M (List α)
  | 0, _ => pure []
  | n + 1, gen => do
    let x ← gen
    let xs ← generate_n n gen
    pure (x :: xs)

/-- The loop `for( auto x : xs ) v.push_back( f( x ) )` on an empty `v`. -/
def collect {α β : Type} : List α → (α → M β) → M (List β)
  | [], _ => pure []
  | x :: xs, f => do
    let y ← f x
    let ys ← collect xs f
    pure (y :: ys)

/-! ## `src/ErrorHandling.cpp` -/

/-- The function `void RESULT_HANDLER( VkResult errorCode, const char* source ) {}`:
its body is empty, so it returns for every status. -/
def RESULT_HANDLER (_errorCode : VkResult) (_source : String) : M Unit := pure ()

/-! ## `src/VulkanConfig.h` and the constants of `helloTriangle` -/

def VulkanConfig.presentMode : Nat := VK_PRESENT_MODE_FIFO_KHR

def vertexBufferBinding : Nat := 0

def maxInflightSubmissions : Nat := 2

/-- The value of `triangle.size()`. -/
def triangleVertexCount : Nat := 3

/-! ## `src/VulkanImpl.cpp` -/

def getSurfaceCapabilities (rep : SurfaceReport) : M VkSurfaceCapabilitiesKHR := do
  emit .vkGetPhysicalDeviceSurfaceCapabilitiesKHR
  let errorCode := rep.status .vkGetPhysicalDeviceSurfaceCapabilitiesKHR
  RESULT_HANDLER errorCode "vkGetPhysicalDeviceSurfaceCapabilitiesKHR"
  pure rep.capabilities

/-- The search of `getSurfacePresentMode`: the preferred mode, else FIFO, else
the first mode offered; no mode at all is an error. The global `selectedMode`
only selects log lines and is left out. -/
def getSurfacePresentMode (rep : SurfaceReport) : M Nat := do
  emit .vkGetPhysicalDeviceSurfacePresentModesKHR
  let modes := rep.presentModes
  if modes.any (fun m => m == VulkanConfig.presentMode) then
    pure VulkanConfig.presentMode
  else if modes.any (fun m => m == VK_PRESENT_MODE_FIFO_KHR) then
    pure VK_PRESENT_MODE_FIFO_KHR
  else
    match modes with
    | [] => throwException (.cString "Bugged driver reports no supported present modes.")
    | m :: _ => pure m

def initSwapchain (setup : Setup) (rep : SurfaceReport)
    (capabilities : VkSurfaceCapabilitiesKHR) (oldSwapchain : Handle) : M Handle := do
  emit (.initSwapchain capabilities oldSwapchain)
  let compositeAlphaFlag ←
    if capabilities.supportedCompositeAlpha &&& VK_COMPOSITE_ALPHA_OPAQUE_BIT_KHR ≠ 0 then
      pure VK_COMPOSITE_ALPHA_OPAQUE_BIT_KHR
    else if capabilities.supportedCompositeAlpha &&& VK_COMPOSITE_ALPHA_PRE_MULTIPLIED_BIT_KHR ≠ 0 then
      pure VK_COMPOSITE_ALPHA_PRE_MULTIPLIED_BIT_KHR
    else if capabilities.supportedCompositeAlpha &&& VK_COMPOSITE_ALPHA_POST_MULTIPLIED_BIT_KHR ≠ 0 then
      pure VK_COMPOSITE_ALPHA_POST_MULTIPLIED_BIT_KHR
    else if capabilities.supportedCompositeAlpha &&& VK_COMPOSITE_ALPHA_INHERIT_BIT_KHR ≠ 0 then
      pure VK_COMPOSITE_ALPHA_INHERIT_BIT_KHR
    else throwException (.cString "Unknown composite alpha reported.")
  let myMinImageCount0 := toUint32 (capabilities.minImageCount + 1)
  let myMinImageCount :=
    if capabilities.maxImageCount ≠ 0 then min myMinImageCount0 capabilities.maxImageCount
    else myMinImageCount0
  let presentMode ← getSurfacePresentMode rep
  let swapchainInfo : VkSwapchainCreateInfoKHR :=
    { minImageCount := myMinImageCount
      imageFormat := setup.surfaceFormat.format
      imageColorSpace := setup.surfaceFormat.colorSpace
      imageExtent := capabilities.currentExtent
      imageSharingMode :=
        if setup.graphicsQueueFamily = setup.presentQueueFamily then VK_SHARING_MODE_EXCLUSIVE
        else VK_SHARING_MODE_CONCURRENT
      preTransform := capabilities.currentTransform
      compositeAlpha := compositeAlphaFlag
      presentMode := presentMode
      oldSwapchain := oldSwapchain }
  let errorCode := rep.status .vkCreateSwapchainKHR
  let swapchain ← newHandle errorCode
  emit (.vkCreateSwapchainKHR swapchainInfo swapchain)
  RESULT_HANDLER errorCode "vkCreateSwapchainKHR"
  pure swapchain

def killSwapchain (swapchain : Handle) : M Unit := emit (.vkDestroySwapchainKHR swapchain)

/-- The call `enumerate<VkImage>( device, swapchain )`. `EnumerateScheme.h` is
not part of the sources: the images are the ones the platform reports, and since
`vkGetSwapchainImagesKHR` counts them in a `uint32_t` there are at most
`UINT32_MAX` of them. -/
def enumerateImages (rep : SurfaceReport) (swapchain : Handle) : M (List Handle) := do
  emit (.vkGetSwapchainImagesKHR swapchain)
  pure (rep.swapchainImages.take UINT32_MAX)

def initImageView (rep : SurfaceReport) (image : Handle) (format : Nat) : M Handle := do
  let errorCode := rep.status .vkCreateImageView
  let imageView ← newHandle errorCode
  emit (.vkCreateImageView image format imageView)
  RESULT_HANDLER errorCode "vkCreateImageView"
  pure imageView

def initSwapchainImageViews (rep : SurfaceReport) (images : List Handle) (format : Nat) :
    M (List Handle) :=
  collect images fun image => initImageView rep image format

/-- The vector is passed by reference; the value returned is its new content. -/
def killSwapchainImageViews (imageViews : List Handle) : M (List Handle) := do
  forEach imageViews fun imageView => emit (.vkDestroyImageView imageView)
  pure []

def initFramebuffers (rep : SurfaceReport) (imageViews : List Handle) (width height : Nat) :
    M (List Handle) :=
  collect imageViews fun imageView => do
    let errorCode := rep.status .vkCreateFramebuffer
    let framebuffer ← newHandle errorCode
    emit (.vkCreateFramebuffer imageView width height framebuffer)
    RESULT_HANDLER errorCode "vkCreateFramebuffer"
    pure framebuffer

/-- The vector is passed by reference; the value returned is its new content. -/
def killFramebuffers (framebuffers : List Handle) : M (List Handle) := do
  forEach framebuffers fun framebuffer => emit (.vkDestroyFramebuffer framebuffer)
  pure []

/-- The checks of `initPipeline` against the device limits, then the creation
of the pipeline; the create-info structures carry no decision and only the
viewport size is kept. -/
def initPipeline (setup : Setup) (rep : SurfaceReport) (limits : VkPhysicalDeviceLimits)
    (vertexBufferBinding : Nat) (width height : Nat) : M Handle := do
  let vertexBufferStride := setup.vertexBufferStride
  if vertexBufferBinding > limits.maxVertexInputBindings then
    throwException (.string ("Implementation does not allow enough input bindings. Needed: "
      ++ toString vertexBufferBinding ++ ", max: " ++ toString limits.maxVertexInputBindings))
  if vertexBufferStride > limits.maxVertexInputBindingStride then
    throwException (.string ("Implementation does not allow big enough vertex buffer stride: "
      ++ toString vertexBufferStride ++ ", max: " ++ toString limits.maxVertexInputBindingStride))
  let inputBindingDescriptionsSize := 1
  if inputBindingDescriptionsSize > limits.maxVertexInputBindings then
    throwException (.cString "Implementation does not allow enough input bindings.")
  let colorLocation := 1
  if colorLocation ≥ limits.maxVertexInputAttributes then
    throwException (.cString "Implementation does not allow enough input attributes.")
  if setup.colorOffset > limits.maxVertexInputAttributeOffset then
    throwException (.cString "Implementation does not allow sufficient attribute offset.")
  let errorCode := rep.status .vkCreateGraphicsPipelines
  let pipeline ← newHandle errorCode
  emit (.vkCreateGraphicsPipelines width height pipeline)
  RESULT_HANDLER errorCode "vkCreateGraphicsPipelines"
  pure pipeline

def killPipeline (pipeline : Handle) : M Unit := emit (.vkDestroyPipeline pipeline)

def initSemaphore (rep : SurfaceReport) : M Handle := do
  let errorCode := rep.status .vkCreateSemaphore
  let semaphore ← newHandle errorCode
  emit (.vkCreateSemaphore semaphore)
  RESULT_HANDLER errorCode "vkCreateSemaphore"
  pure semaphore

def initSemaphores (rep : SurfaceReport) (count : Nat) : M (List Handle) :=
  generate_n count (initSemaphore rep)

def killSemaphore (semaphore : Handle) : M Unit := emit (.vkDestroySemaphore semaphore)

/-- The vector is passed by reference; the value returned is its new content. -/
def killSemaphores (semaphores : List Handle) : M (List Handle) := do
  forEach semaphores killSemaphore
  pure []

def initFence (rep : SurfaceReport) (flags : Nat) : M Handle := do
  let errorCode := rep.status .vkCreateFence
  let fence ← newHandle errorCode
  emit (.vkCreateFence flags fence)
  RESULT_HANDLER errorCode "vkCreateFence"
  pure fence

def killFence (fence : Handle) : M Unit := emit (.vkDestroyFence fence)

def initFences (rep : SurfaceReport) (count : Nat) (flags : Nat) : M (List Handle) :=
  generate_n count (initFence rep flags)

/-- The vector is passed by reference; the value returned is its new content. -/
def killFences (fences : List Handle) : M (List Handle) := do
  forEach fences killFence
  pure []

/-- The method `std::vector::resize( n )` on a vector of handles. -/
def resize (v : List Handle) (n : Nat) : List Handle :=
  v.take n ++ List.replicate (n - v.length) VK_NULL_HANDLE

/-- The vector after a command wrote the handles `hs` from position `offset` on. -/
def writeAt (v : List Handle) (offset : Nat) (hs : List Handle) : List Handle :=
  v.take offset ++ hs ++ v.drop (offset + hs.length)

/-- The vector is passed by reference; the value returned is its new content. -/
def acquireCommandBuffers (rep : SurfaceReport) (count : Nat) (commandBuffers : List Handle) :
    M (List Handle) := do
  let oldSize := toUint32 commandBuffers.length
  let grown ←
    if count > oldSize then do
      let resized := resize commandBuffers count
      let errorCode := rep.status .vkAllocateCommandBuffers
      let allocated ← generate_n (count - oldSize) (newHandle errorCode)
      emit (.vkAllocateCommandBuffers (count - oldSize) allocated)
      RESULT_HANDLER errorCode "vkAllocateCommandBuffers"
      pure (writeAt resized oldSize allocated)
    else pure commandBuffers
  if count < oldSize then do
    emit (.vkFreeCommandBuffers ((grown.drop count).take (oldSize - count)))
    pure (resize grown count)
  else pure grown

def beginCommandBuffer (rep : SurfaceReport) (commandBuffer : Handle) : M Unit := do
  emit (.vkBeginCommandBuffer commandBuffer)
  let errorCode := rep.status .vkBeginCommandBuffer
  RESULT_HANDLER errorCode "vkBeginCommandBuffer"

def endCommandBuffer (rep : SurfaceReport) (commandBuffer : Handle) : M Unit := do
  emit (.vkEndCommandBuffer commandBuffer)
  let errorCode := rep.status .vkEndCommandBuffer
  RESULT_HANDLER errorCode "vkEndCommandBuffer"

def recordBeginRenderPass (commandBuffer framebuffer : Handle) (width height : Nat) : M Unit :=
  emit (.vkCmdBeginRenderPass commandBuffer framebuffer width height)

def recordEndRenderPass (commandBuffer : Handle) : M Unit :=
  emit (.vkCmdEndRenderPass commandBuffer)

def recordBindPipeline (commandBuffer pipeline : Handle) : M Unit :=
  emit (.vkCmdBindPipeline commandBuffer pipeline)

def recordBindVertexBuffer (commandBuffer : Handle) (vertexBufferBinding : Nat) : M Unit :=
  emit (.vkCmdBindVertexBuffers commandBuffer vertexBufferBinding)

def recordDraw (commandBuffer : Handle) (vertexCount : Nat) : M Unit :=
  emit (.vkCmdDraw commandBuffer vertexCount)

def getNextImageIndex (rep : FrameReport) (swapchain imageReadyS : Handle) : M Nat := do
  emit (.vkAcquireNextImageKHR swapchain imageReadyS)
  let errorCode := rep.status .vkAcquireNextImageKHR
  RESULT_HANDLER errorCode "vkAcquireNextImageKHR"
  pure rep.imageIndex

def submitToQueue (rep : FrameReport) (queue commandBuffer imageReadyS renderDoneS fence : Handle) :
    M Unit := do
  let psw := VK_PIPELINE_STAGE_COLOR_ATTACHMENT_OUTPUT_BIT
  emit (.vkQueueSubmit queue [imageReadyS] psw [commandBuffer] [renderDoneS] fence)
  let errorCode := rep.status .vkQueueSubmit
  RESULT_HANDLER errorCode "vkQueueSubmit"

def present (rep : FrameReport) (queue swapchain : Handle) (swapchainImageIndex : Nat)
    (renderDoneS : Handle) : M Unit := do
  emit (.vkQueuePresentKHR queue [renderDoneS] swapchain swapchainImageIndex)
  let errorCode := rep.status .vkQueuePresentKHR
  RESULT_HANDLER errorCode "vkQueuePresentKHR"

def cleanupUnsafeSemaphore (rep : FrameReport) (queue semaphore : Handle) : M Unit := do
  let psw := VK_PIPELINE_STAGE_BOTTOM_OF_PIPE_BIT
  emit (.vkQueueSubmit queue [semaphore] psw [] [] VK_NULL_HANDLE)
  let errorCode := rep.status .vkQueueSubmit
  RESULT_HANDLER errorCode "vkQueueSubmit"

/-! ## `src/HelloVoxel.cpp`: `recreateSwapchain` -/

/-- The test `swapchainCreatable` of `recreateSwapchain`. -/
def swapchainCreatable (surfaceSize : VkExtent2D) (capabilities : VkSurfaceCapabilitiesKHR) :
    Bool :=
  decide (surfaceSize.width ≥ capabilities.minImageExtent.width)
    && decide (surfaceSize.width ≤ capabilities.maxImageExtent.width)
    && decide (surfaceSize.width > 0)
    && decide (surfaceSize.height ≥ capabilities.minImageExtent.height)
    && decide (surfaceSize.height ≤ capabilities.maxImageExtent.height)
    && decide (surfaceSize.height > 0)

/-- The block `if( oldSwapchain )` under the comment "cleanup old". -/
def cleanupOld (rep : SurfaceReport) : M Unit := do
  emit .vkDeviceWaitIdle
  RESULT_HANDLER (rep.status .vkDeviceWaitIdle) "vkDeviceWaitIdle"
  let submissionFences ← killFences (← getWorld).submissionFences
  modifyWorld fun w => { w with submissionFences := submissionFences }
  let renderDoneSs ← killSemaphores (← getWorld).renderDoneSs
  modifyWorld fun w => { w with renderDoneSs := renderDoneSs }
  emit .vkResetCommandPool
  RESULT_HANDLER (rep.status .vkResetCommandPool) "vkResetCommandPool"
  killPipeline (← getWorld).pipeline
  let framebuffers ← killFramebuffers (← getWorld).framebuffers
  modifyWorld fun w => { w with framebuffers := framebuffers }
  let swapchainImageViews ← killSwapchainImageViews (← getWorld).swapchainImageViews
  modifyWorld fun w => { w with swapchainImageViews := swapchainImageViews }

/-- The body of the loop that records one command buffer per image. -/
def recordCommandBuffer (rep : SurfaceReport) (surfaceSize : VkExtent2D) (i : Nat) : M Unit := do
  let w ← getWorld
  let commandBuffer ← at_ w.commandBuffers i
  beginCommandBuffer rep commandBuffer
  let framebuffer ← at_ w.framebuffers i
  recordBeginRenderPass commandBuffer framebuffer surfaceSize.width surfaceSize.height
  recordBindPipeline commandBuffer w.pipeline
  recordBindVertexBuffer commandBuffer vertexBufferBinding
  recordDraw commandBuffer triangleVertexCount
  recordEndRenderPass commandBuffer
  endCommandBuffer rep commandBuffer

/-- The block `if( swapchainCreatable )` under the comment "creating new". -/
def creatingNew (setup : Setup) (rep : SurfaceReport) (capabilities : VkSurfaceCapabilitiesKHR)
    (surfaceSize : VkExtent2D) (oldSwapchain : Handle) : M Unit := do
  let swapchain ← initSwapchain setup rep capabilities oldSwapchain
  modifyWorld fun w => { w with swapchain := swapchain }
  let swapchainImages ← enumerateImages rep swapchain
  let swapchainImageViews ←
    initSwapchainImageViews rep swapchainImages setup.surfaceFormat.format
  modifyWorld fun w => { w with swapchainImageViews := swapchainImageViews }
  let framebuffers ←
    initFramebuffers rep swapchainImageViews surfaceSize.width surfaceSize.height
  modifyWorld fun w => { w with framebuffers := framebuffers }
  let pipeline ← initPipeline setup rep setup.limits vertexBufferBinding
    surfaceSize.width surfaceSize.height
  modifyWorld fun w => { w with pipeline := pipeline }
  let commandBuffers ←
    acquireCommandBuffers rep (toUint32 swapchainImages.length) (← getWorld).commandBuffers
  modifyWorld fun w => { w with commandBuffers := commandBuffers }
  forEach (List.range swapchainImages.length) (recordCommandBuffer rep surfaceSize)
  let imageReadySs ← initSemaphores rep maxInflightSubmissions
  modifyWorld fun w => { w with imageReadySs := imageReadySs }
  let renderDoneSs ← initSemaphores rep swapchainImages.length
  modifyWorld fun w => { w with renderDoneSs := renderDoneSs }
  let submissionFences ← initFences rep maxInflightSubmissions VK_FENCE_CREATE_SIGNALED_BIT
  modifyWorld fun w => { w with submissionFences := submissionFences }
  modifyWorld fun w => { w with submissionNr := 0 }

/-- The last block `if( oldSwapchain )` of `recreateSwapchain`. -/
def killOld (oldSwapchain : Handle) (oldImageReadySs : List Handle) : M Unit := do
  killSwapchain oldSwapchain
  let _ ← killSemaphores oldImageReadySs

/-- The lambda `recreateSwapchain` of `helloTriangle`. -/
def recreateSwapchain (setup : Setup) (rep : SurfaceReport) : M Bool := do
  emit .recreateSwapchain
  let oldSwapchain := (← getWorld).swapchain
  modifyWorld fun w => { w with swapchain := VK_NULL_HANDLE }
  let reported ← getSurfaceCapabilities rep
  let capabilities :=
    if reported.currentExtent.width = UINT32_MAX ∧ reported.currentExtent.height = UINT32_MAX
    then { reported with currentExtent := ⟨rep.windowWidth, rep.windowHeight⟩ }
    else reported
  let surfaceSize : VkExtent2D :=
    ⟨capabilities.currentExtent.width, capabilities.currentExtent.height⟩
  let oldImageReadySs := (← getWorld).imageReadySs
  modifyWorld fun w => { w with imageReadySs := [] }
  if oldSwapchain ≠ VK_NULL_HANDLE then
    cleanupOld rep
  if swapchainCreatable surfaceSize capabilities then
    creatingNew setup rep capabilities surfaceSize oldSwapchain
  if oldSwapchain ≠ VK_NULL_HANDLE then
    killOld oldSwapchain oldImageReadySs
  pure (decide ((← getWorld).swapchain ≠ VK_NULL_HANDLE))

/-! ## `src/HelloVoxel.cpp`: `render` -/

/-- The `try` block of `render`. -/
def renderTry (setup : Setup) (rep : FrameReport) : M Unit := do
  let w ← getWorld
  let fence ← at_ w.submissionFences w.submissionNr
  emit (.vkWaitForFences fence)
  RESULT_HANDLER (rep.status .vkWaitForFences) "vkWaitForFences"
  let fence ← at_ w.submissionFences w.submissionNr
  emit (.vkResetFences fence)
  RESULT_HANDLER (rep.status .vkResetFences) "vkResetFences"
  modifyWorld fun w => { w with unsafeSemaphore := true }
  let imageReadyS ← at_ w.imageReadySs w.submissionNr
  let nextSwapchainImageIndex ← getNextImageIndex rep w.swapchain imageReadyS
  modifyWorld fun w => { w with unsafeSemaphore := false }
  let commandBuffer ← at_ w.commandBuffers nextSwapchainImageIndex
  let imageReadyS ← at_ w.imageReadySs w.submissionNr
  let renderDoneS ← at_ w.renderDoneSs nextSwapchainImageIndex
  let fence ← at_ w.submissionFences w.submissionNr
  submitToQueue rep setup.graphicsQueue commandBuffer imageReadyS renderDoneS fence
  let renderDoneS ← at_ w.renderDoneSs nextSwapchainImageIndex
  present rep setup.presentQueue w.swapchain nextSwapchainImageIndex renderDoneS
  modifyWorld fun w => { w with submissionNr := (w.submissionNr + 1) % maxInflightSubmissions }

/-- The handler `catch( VulkanResultException ex )` of `render`; an exception of
another type passes through. `retry` is the nested call `render()`. -/
def renderCatch (setup : Setup) (rep : FrameReport) (retry : M Unit) (ex : Exception) :
    M Unit :=
  match ex with
  | .VulkanResultException _ result =>
    if result = VK_SUBOPTIMAL_KHR ∨ result = VK_ERROR_OUT_OF_DATE_KHR then do
      let w ← getWorld
      if w.unsafeSemaphore = true ∧ result = VK_SUBOPTIMAL_KHR then do
        let imageReadyS ← at_ w.imageReadySs w.submissionNr
        cleanupUnsafeSemaphore rep setup.graphicsQueue imageReadyS
      let _ ← recreateSwapchain setup rep.surface
      retry
    else throwException ex
  | _ => throwException ex

/-- The lambda `render` of `helloTriangle`. It calls itself in its handler, so
the embedding takes the number of nested calls allowed; `reports 0` is what
the platform answers during this attempt, `reports (n + 1)` during the n-th
nested one. -/
def render (setup : Setup) : Nat → (Nat → FrameReport) → M Unit
  | 0, _ => stop .outOfFuel
  | fuel + 1, reports => do
    emit .render
    if (← getWorld).swapchain = VK_NULL_HANDLE then
      stop .assertionFailed
    modifyWorld fun w => { w with unsafeSemaphore := false }
    tryCatch (renderTry setup (reports 0))
      (renderCatch setup (reports 0) (render setup fuel fun n => reports (n + 1)))

/-! ## Closed forms of the runs and vocabulary of the claims -/

/-- The capabilities `recreateSwapchain` works with: an undefined current
extent is replaced by the size of the window. -/
def adjustedCapabilities (rep : SurfaceReport) : VkSurfaceCapabilitiesKHR :=
  if rep.capabilities.currentExtent.width = UINT32_MAX
      ∧ rep.capabilities.currentExtent.height = UINT32_MAX then
    { rep.capabilities with currentExtent := ⟨rep.windowWidth, rep.windowHeight⟩ }
  else rep.capabilities

/-- The handle a creating command writes when the driver counter is `fresh`. -/
def written (status : VkResult) (fresh : Nat) : Handle :=
  if 0 ≤ status then fresh + 1 else VK_NULL_HANDLE

/-- The handles `count` creating commands write one after the other. -/
def writtenFrom (status : VkResult) : Nat → Nat → List Handle
  | _, 0 => []
  | fresh, count + 1 => written status fresh :: writtenFrom status (fresh + 1) count

/-- The state after the block "cleanup old". -/
def cleanedUp (w : World) : World :=
  { w with
    submissionFences := []
    renderDoneSs := []
    framebuffers := []
    swapchainImageViews := []
    trace := w.trace ++ [Event.vkDeviceWaitIdle]
      ++ w.submissionFences.map Event.vkDestroyFence
      ++ w.renderDoneSs.map Event.vkDestroySemaphore
      ++ [Event.vkResetCommandPool, Event.vkDestroyPipeline w.pipeline]
      ++ w.framebuffers.map Event.vkDestroyFramebuffer
      ++ w.swapchainImageViews.map Event.vkDestroyImageView }

/-- The composite-alpha flag `initSwapchain` selects, if there is one. -/
def selectedCompositeAlpha (capabilities : VkSurfaceCapabilitiesKHR) : Option Nat :=
  if capabilities.supportedCompositeAlpha &&& VK_COMPOSITE_ALPHA_OPAQUE_BIT_KHR ≠ 0 then
    some VK_COMPOSITE_ALPHA_OPAQUE_BIT_KHR
  else if capabilities.supportedCompositeAlpha &&& VK_COMPOSITE_ALPHA_PRE_MULTIPLIED_BIT_KHR ≠ 0 then
    some VK_COMPOSITE_ALPHA_PRE_MULTIPLIED_BIT_KHR
  else if capabilities.supportedCompositeAlpha &&& VK_COMPOSITE_ALPHA_POST_MULTIPLIED_BIT_KHR ≠ 0 then
    some VK_COMPOSITE_ALPHA_POST_MULTIPLIED_BIT_KHR
  else if capabilities.supportedCompositeAlpha &&& VK_COMPOSITE_ALPHA_INHERIT_BIT_KHR ≠ 0 then
    some VK_COMPOSITE_ALPHA_INHERIT_BIT_KHR
  else none

/-- The present mode `getSurfacePresentMode` returns, if there is one. -/
def selectedPresentMode (modes : List Nat) : Option Nat :=
  if modes.any (fun m => m == VulkanConfig.presentMode) then some VulkanConfig.presentMode
  else if modes.any (fun m => m == VK_PRESENT_MODE_FIFO_KHR) then some VK_PRESENT_MODE_FIFO_KHR
  else modes.head?

/-- The create-info `initSwapchain` fills in. -/
def swapchainInfoOf (setup : Setup) (capabilities : VkSurfaceCapabilitiesKHR)
    (compositeAlphaFlag presentMode : Nat) (oldSwapchain : Handle) : VkSwapchainCreateInfoKHR :=
  { minImageCount :=
      if capabilities.maxImageCount ≠ 0 then
        min (toUint32 (capabilities.minImageCount + 1)) capabilities.maxImageCount
      else toUint32 (capabilities.minImageCount + 1)
    imageFormat := setup.surfaceFormat.format
    imageColorSpace := setup.surfaceFormat.colorSpace
    imageExtent := capabilities.currentExtent
    imageSharingMode :=
      if setup.graphicsQueueFamily = setup.presentQueueFamily then VK_SHARING_MODE_EXCLUSIVE
      else VK_SHARING_MODE_CONCURRENT
    preTransform := capabilities.currentTransform
    compositeAlpha := compositeAlphaFlag
    presentMode := presentMode
    oldSwapchain := oldSwapchain }

/-- The exception `initPipeline` raises for the given limits, if there is one. -/
def pipelineError (setup : Setup) (limits : VkPhysicalDeviceLimits) (vertexBufferBinding : Nat) :
    Option Exception :=
  if vertexBufferBinding > limits.maxVertexInputBindings then
    some (.string ("Implementation does not allow enough input bindings. Needed: "
      ++ toString vertexBufferBinding ++ ", max: " ++ toString limits.maxVertexInputBindings))
  else if setup.vertexBufferStride > limits.maxVertexInputBindingStride then
    some (.string ("Implementation does not allow big enough vertex buffer stride: "
      ++ toString setup.vertexBufferStride ++ ", max: "
      ++ toString limits.maxVertexInputBindingStride))
  else if 1 > limits.maxVertexInputBindings then
    some (.cString "Implementation does not allow enough input bindings.")
  else if 1 ≥ limits.maxVertexInputAttributes then
    some (.cString "Implementation does not allow enough input attributes.")
  else if setup.colorOffset > limits.maxVertexInputAttributeOffset then
    some (.cString "Implementation does not allow sufficient attribute offset.")
  else none

/-- The content of `commandBuffers` after `acquireCommandBuffers`. -/
def acquiredCommandBuffers (status : VkResult) (count : Nat) (commandBuffers : List Handle)
    (fresh : Nat) : List Handle :=
  if count > toUint32 commandBuffers.length then
    writeAt (resize commandBuffers count) (toUint32 commandBuffers.length)
      (writtenFrom status fresh (count - toUint32 commandBuffers.length))
  else if count < toUint32 commandBuffers.length then resize commandBuffers count
  else commandBuffers

/-- The commands `acquireCommandBuffers` sends. -/
def acquireEvents (status : VkResult) (count : Nat) (commandBuffers : List Handle)
    (fresh : Nat) : List Event :=
  if count > toUint32 commandBuffers.length then
    [Event.vkAllocateCommandBuffers (count - toUint32 commandBuffers.length)
      (writtenFrom status fresh (count - toUint32 commandBuffers.length))]
  else if count < toUint32 commandBuffers.length then
    [Event.vkFreeCommandBuffers
      ((commandBuffers.drop count).take (toUint32 commandBuffers.length - count))]
  else []

/-- The commands recorded into one command buffer. -/
def recordedEvents (surfaceSize : VkExtent2D) (pipeline commandBuffer framebuffer : Handle) :
    List Event :=
  [ Event.vkBeginCommandBuffer commandBuffer,
    Event.vkCmdBeginRenderPass commandBuffer framebuffer surfaceSize.width surfaceSize.height,
    Event.vkCmdBindPipeline commandBuffer pipeline,
    Event.vkCmdBindVertexBuffers commandBuffer vertexBufferBinding,
    Event.vkCmdDraw commandBuffer triangleVertexCount,
    Event.vkCmdEndRenderPass commandBuffer,
    Event.vkEndCommandBuffer commandBuffer ]

/-- The number of images of the swap chain `recreateSwapchain` creates. -/
def imageCount (rep : SurfaceReport) : Nat := (rep.swapchainImages.take UINT32_MAX).length

/-- The state of `recreateSwapchain` once the swap chain, its image views and the
framebuffers exist (just before `initPipeline`), for the selected composite
alpha `a` and present mode `m`. -/
def framebuffersReady (setup : Setup) (rep : SurfaceReport)
    (capabilities : VkSurfaceCapabilitiesKHR) (surfaceSize : VkExtent2D) (oldSwapchain : Handle)
    (a m : Nat) (w : World) : World :=
  let n := imageCount rep
  let swapchain := written (rep.status .vkCreateSwapchainKHR) w.fresh
  let imageViews := writtenFrom (rep.status .vkCreateImageView) (w.fresh + 1) n
  let framebuffers := writtenFrom (rep.status .vkCreateFramebuffer) (w.fresh + 1 + n) n
  { w with
    swapchain := swapchain
    swapchainImageViews := imageViews
    framebuffers := framebuffers
    fresh := w.fresh + 1 + n + n
    trace := w.trace
      ++ [Event.initSwapchain capabilities oldSwapchain,
          Event.vkGetPhysicalDeviceSurfacePresentModesKHR,
          Event.vkCreateSwapchainKHR (swapchainInfoOf setup capabilities a m oldSwapchain) swapchain,
          Event.vkGetSwapchainImagesKHR swapchain]
      ++ List.zipWith (fun image => Event.vkCreateImageView image setup.surfaceFormat.format)
          (rep.swapchainImages.take UINT32_MAX) imageViews
      ++ List.zipWith
          (fun imageView => Event.vkCreateFramebuffer imageView surfaceSize.width surfaceSize.height)
          imageViews framebuffers }

/-- The state at the end of the block "creating new", starting from the state
`v` reached just before `initPipeline`. -/
def generationReady (rep : SurfaceReport) (surfaceSize : VkExtent2D) (v : World) : World :=
  let n := imageCount rep
  let pipeline := written (rep.status .vkCreateGraphicsPipelines) v.fresh
  let commandBuffers :=
    acquiredCommandBuffers (rep.status .vkAllocateCommandBuffers) n v.commandBuffers (v.fresh + 1)
  let fresh := v.fresh + 1 + (n - toUint32 v.commandBuffers.length)
  let imageReadySs := writtenFrom (rep.status .vkCreateSemaphore) fresh maxInflightSubmissions
  let renderDoneSs :=
    writtenFrom (rep.status .vkCreateSemaphore) (fresh + maxInflightSubmissions) n
  let submissionFences :=
    writtenFrom (rep.status .vkCreateFence) (fresh + maxInflightSubmissions + n)
      maxInflightSubmissions
  { v with
    pipeline := pipeline
    commandBuffers := commandBuffers
    imageReadySs := imageReadySs
    renderDoneSs := renderDoneSs
    submissionNr := 0
    submissionFences := submissionFences
    fresh := fresh + maxInflightSubmissions + n + maxInflightSubmissions
    trace := v.trace
      ++ [Event.vkCreateGraphicsPipelines surfaceSize.width surfaceSize.height pipeline]
      ++ acquireEvents (rep.status .vkAllocateCommandBuffers) n v.commandBuffers (v.fresh + 1)
      ++ (List.range n).flatMap (fun i =>
          recordedEvents surfaceSize pipeline (commandBuffers.getD i VK_NULL_HANDLE)
            (v.framebuffers.getD i VK_NULL_HANDLE))
      ++ imageReadySs.map Event.vkCreateSemaphore
      ++ renderDoneSs.map Event.vkCreateSemaphore
      ++ submissionFences.map (Event.vkCreateFence VK_FENCE_CREATE_SIGNALED_BIT) }

/-- The state of `recreateSwapchain` when the block "creating new" is reached. -/
def prepared (w : World) : World :=
  if w.swapchain ≠ VK_NULL_HANDLE then
    cleanedUp
      { w with
        swapchain := VK_NULL_HANDLE
        imageReadySs := []
        trace := w.trace
          ++ [Event.recreateSwapchain, Event.vkGetPhysicalDeviceSurfaceCapabilitiesKHR] }
  else
    { w with
      swapchain := VK_NULL_HANDLE
      imageReadySs := []
      trace := w.trace
        ++ [Event.recreateSwapchain, Event.vkGetPhysicalDeviceSurfaceCapabilitiesKHR] }

/-- The effect of the last block of `recreateSwapchain` on the state `v`, for a
call that started in the state `w`. -/
def oldKilled (w v : World) : World :=
  if w.swapchain ≠ VK_NULL_HANDLE then
    { v with
      trace := v.trace
        ++ Event.vkDestroySwapchainKHR w.swapchain
          :: w.imageReadySs.map Event.vkDestroySemaphore }
  else v

/-- The commands a run that started in `w` added to the trace. -/
def Outcome.added {α : Type} (o : Outcome α) (w : World) : List Event :=
  o.world.trace.drop w.trace.length

/-- The trace entries that mark a call of `initSwapchain`. -/
def Event.isInitSwapchain : Event → Bool
  | .initSwapchain _ _ => true
  | _ => false

/-- Width and height of the current extent are both nonzero and both within
the minimal and maximal image extent. -/
def VkSurfaceCapabilitiesKHR.extentInRange (c : VkSurfaceCapabilitiesKHR) : Prop :=
  (0 < c.currentExtent.width ∧ 0 < c.currentExtent.height)
    ∧ (c.minImageExtent.width ≤ c.currentExtent.width
      ∧ c.currentExtent.width ≤ c.maxImageExtent.width)
    ∧ (c.minImageExtent.height ≤ c.currentExtent.height
      ∧ c.currentExtent.height ≤ c.maxImageExtent.height)

instance (c : VkSurfaceCapabilitiesKHR) : Decidable c.extentInRange := by
  unfold VkSurfaceCapabilitiesKHR.extentInRange
  infer_instance

/-- A sequence of `recreateSwapchain` calls, one per report. -/
def recreateSwapchains (setup : Setup) : List SurfaceReport → M Unit
  | [] => pure ()
  | rep :: reps => do
    let _ ← recreateSwapchain setup rep
    recreateSwapchains setup reps

/-- The value a run returned, if it returned. -/
def Outcome.value? {α : Type} : Outcome α → Option α
  | .returned a _ => some a
  | _ => none

/-- The commands that create a swap chain, an image view, a framebuffer, a
pipeline, a semaphore or a fence. -/
def Event.isCreation : Event → Bool
  | .vkCreateSwapchainKHR _ _ => true
  | .vkCreateImageView _ _ _ => true
  | .vkCreateFramebuffer _ _ _ _ => true
  | .vkCreateGraphicsPipelines _ _ _ => true
  | .vkCreateSemaphore _ => true
  | .vkCreateFence _ _ => true
  | _ => false

/-- The platform lets the block "creating new" run to its end with a swap
chain: the surface supports one of the four composite-alpha modes, it offers a
present mode, the device limits admit the vertex input of `initPipeline`, and
`vkCreateSwapchainKHR` does not fail. -/
def creationSucceeds (setup : Setup) (rep : SurfaceReport) : Prop :=
  (rep.capabilities.supportedCompositeAlpha &&& VK_COMPOSITE_ALPHA_OPAQUE_BIT_KHR ≠ 0
    ∨ rep.capabilities.supportedCompositeAlpha &&& VK_COMPOSITE_ALPHA_PRE_MULTIPLIED_BIT_KHR ≠ 0
    ∨ rep.capabilities.supportedCompositeAlpha &&& VK_COMPOSITE_ALPHA_POST_MULTIPLIED_BIT_KHR ≠ 0
    ∨ rep.capabilities.supportedCompositeAlpha &&& VK_COMPOSITE_ALPHA_INHERIT_BIT_KHR ≠ 0)
  ∧ rep.presentModes ≠ []
  ∧ (1 ≤ setup.limits.maxVertexInputBindings
    ∧ setup.vertexBufferStride ≤ setup.limits.maxVertexInputBindingStride
    ∧ 1 < setup.limits.maxVertexInputAttributes
    ∧ setup.colorOffset ≤ setup.limits.maxVertexInputAttributeOffset)
  ∧ 0 ≤ rep.status .vkCreateSwapchainKHR

instance (setup : Setup) (rep : SurfaceReport) : Decidable (creationSucceeds setup rep) := by
  unfold creationSucceeds
  infer_instance

/-- A device whose limits admit the vertex input of the triangle. -/
def exampleSetup : Setup where
  limits := ⟨16, 2048, 16, 2047⟩
  surfaceFormat := ⟨44, 0⟩
  graphicsQueueFamily := 0
  presentQueueFamily := 0
  graphicsQueue := 7
  presentQueue := 7
  vertexBufferStride := 20
  colorOffset := 8

/-- A platform that reports the extent `width` x `height`, admits extents from
1 x 1 to 4096 x 4096, gives three images, offers the format
`VK_FORMAT_B8G8R8A8_UNORM` and fails no command. -/
def exampleReport (width height : Nat) : SurfaceReport where
  capabilities :=
    { minImageCount := 2
      maxImageCount := 8
      currentExtent := ⟨width, height⟩
      minImageExtent := ⟨1, 1⟩
      maxImageExtent := ⟨4096, 4096⟩
      currentTransform := 1
      supportedCompositeAlpha := 1 }
  windowWidth := width
  windowHeight := height
  presentModes := [VK_PRESENT_MODE_FIFO_KHR]
  swapchainImages := [100, 101, 102]
  surfaceFormats := [⟨44, 0⟩]
  status := fun _ => VK_SUCCESS

/-- The example platform with a driver that reports no present mode. -/
def exampleNoPresentMode (width height : Nat) : SurfaceReport :=
  { exampleReport width height with presentModes := [] }

/-- The commands of one frame that runs to its end in the state `w`. -/
def frameEvents (setup : Setup) (rep : FrameReport) (w : World) : List Event :=
  [ Event.vkWaitForFences (w.submissionFences.getD w.submissionNr VK_NULL_HANDLE),
    Event.vkResetFences (w.submissionFences.getD w.submissionNr VK_NULL_HANDLE),
    Event.vkAcquireNextImageKHR w.swapchain (w.imageReadySs.getD w.submissionNr VK_NULL_HANDLE),
    Event.vkQueueSubmit setup.graphicsQueue
      [w.imageReadySs.getD w.submissionNr VK_NULL_HANDLE]
      VK_PIPELINE_STAGE_COLOR_ATTACHMENT_OUTPUT_BIT
      [w.commandBuffers.getD rep.imageIndex VK_NULL_HANDLE]
      [w.renderDoneSs.getD rep.imageIndex VK_NULL_HANDLE]
      (w.submissionFences.getD w.submissionNr VK_NULL_HANDLE),
    Event.vkQueuePresentKHR setup.presentQueue
      [w.renderDoneSs.getD rep.imageIndex VK_NULL_HANDLE] w.swapchain rep.imageIndex ]

/-- The state in which the `try` block of `render` starts. -/
def renderEntered (w : World) : World :=
  { w with unsafeSemaphore := false, trace := w.trace ++ [Event.render] }

/-- The trace entries that mark a call of `render`, one per attempted frame. -/
def Event.isRender : Event → Bool
  | .render => true
  | _ => false

/-- The trace entries that mark a call of `recreateSwapchain`. -/
def Event.isRecreateSwapchain : Event → Bool
  | .recreateSwapchain => true
  | _ => false

/-- The submission `cleanupUnsafeSemaphore` makes: it waits on one semaphore at
the bottom of the pipe, runs no command buffer, signals nothing and has no fence. -/
def Event.isDrain : Event → Bool
  | .vkQueueSubmit _ [_] stage [] [] fence =>
    decide (stage = VK_PIPELINE_STAGE_BOTTOM_OF_PIPE_BIT) && decide (fence = VK_NULL_HANDLE)
  | _ => false

/-- The commands that create a fence. -/
def Event.isFenceCreation : Event → Bool
  | .vkCreateFence _ _ => true
  | _ => false

/-- One call made by the event pump: the size handler or the paint handler. -/
inductive Action where
  | recreateSwapchain (rep : SurfaceReport)
  | render (fuel : Nat) (reports : Nat → FrameReport)

def Action.perform (setup : Setup) : Action → M Unit
  | .recreateSwapchain rep => do
    let _ ← HelloVoxel.recreateSwapchain setup rep
    pure ()
  | .render fuel reports => HelloVoxel.render setup fuel reports

/-- The handler calls in the order given; a call that throws or stops ends the run. -/
def performAll (setup : Setup) : List Action → M Unit
  | [] => pure ()
  | a :: rest => do
    a.perform setup
    performAll setup rest

/-- The state after the first `recreateSwapchain` on an 800 x 800 window. -/
def exampleActive : World :=
  (recreateSwapchain exampleSetup (exampleReport 800 800) World.initial).world

/-- Frames in which the command `failing` returns `status` during the first
attempt and every other command succeeds; image 0 is acquired. -/
def exampleFrames (failing : Command) (status : VkResult) : Nat → FrameReport := fun n =>
  { status := fun c => if n = 0 ∧ c = failing then status else VK_SUCCESS
    imageIndex := 0
    surface := exampleReport 800 800 }

/-- The commands that destroy a swap chain. -/
def Event.isSwapchainDestroy : Event → Bool
  | .vkDestroySwapchainKHR _ => true
  | _ => false

/-- The commands that destroy a semaphore. -/
def Event.isSemaphoreDestroy : Event → Bool
  | .vkDestroySemaphore _ => true
  | _ => false

/-- The commands that create a swap chain. -/
def Event.isSwapchainCreation : Event → Bool
  | .vkCreateSwapchainKHR _ _ => true
  | _ => false

/-- The extent in the words of the specification: the size of the window when
the platform reports the undefined extent (both components `UINT32_MAX`), the
reported extent otherwise. -/
def usedExtent (rep : SurfaceReport) : VkExtent2D :=
  if rep.capabilities.currentExtent = ⟨UINT32_MAX, UINT32_MAX⟩ then
    ⟨rep.windowWidth, rep.windowHeight⟩
  else rep.capabilities.currentExtent

/-- The extent a trace entry carries, for the entries that carry one. -/
def Event.extent? : Event → Option VkExtent2D
  | .initSwapchain capabilities _ => some capabilities.currentExtent
  | .vkCreateSwapchainKHR info _ => some info.imageExtent
  | .vkCreateFramebuffer _ width height _ => some ⟨width, height⟩
  | .vkCreateGraphicsPipelines width height _ => some ⟨width, height⟩
  | .vkCmdBeginRenderPass _ _ width height => some ⟨width, height⟩
  | _ => none

/-- The entry carries no extent or carries the extent `x`. -/
def Event.usesExtent (x : VkExtent2D) (e : Event) : Bool :=
  match e.extent? with
  | some y => decide (y = x)
  | none => true

/-- The state after a second recreation, on a window resized to 640 x 480. -/
def exampleResized : World :=
  (recreateSwapchain exampleSetup (exampleReport 640 480) exampleActive).world

/-! ## `src/VulkanImpl.cpp`: layers, extensions, instance and device -/

def VK_KHR_SURFACE_EXTENSION_NAME : String := "VK_KHR_surface"
def VK_KHR_SWAPCHAIN_EXTENSION_NAME : String := "VK_KHR_swapchain"
def VK_KHR_GET_PHYSICAL_DEVICE_PROPERTIES_2_EXTENSION_NAME : String :=
  "VK_KHR_get_physical_device_properties2"
def VK_KHR_PORTABILITY_ENUMERATION_EXTENSION_NAME : String := "VK_KHR_portability_enumeration"
def VK_EXT_DEBUG_UTILS_EXTENSION_NAME : String := "VK_EXT_debug_utils"
def VK_EXT_DEBUG_REPORT_EXTENSION_NAME : String := "VK_EXT_debug_report"

def VK_TRUE : Nat := 1
def VK_QUEUE_GRAPHICS_BIT : Nat := 1
def VK_QUEUE_FAMILY_IGNORED : Nat := 4294967295
def VK_PHYSICAL_DEVICE_TYPE_DISCRETE_GPU : Nat := 2
def VK_FORMAT_UNDEFINED : Nat := 0
def VK_FORMAT_B8G8R8A8_UNORM : Nat := 44
def VK_FORMAT_B8G8R8A8_SRGB : Nat := 50
def VK_MEMORY_PROPERTY_DEVICE_LOCAL_BIT : Nat := 1
def VK_MEMORY_PROPERTY_HOST_VISIBLE_BIT : Nat := 2
def VK_MEMORY_PROPERTY_HOST_COHERENT_BIT : Nat := 4

def EXIT_SUCCESS : Int := 0
def EXIT_FAILURE : Int := 1

def VulkanConfig.useAssistantLayer : Bool := false
def VulkanConfig.fpsCounter : Bool := true
def VulkanConfig.forceSeparatePresentQueue : Bool := false

structure VkLayerProperties where
  layerName : String
deriving DecidableEq, Repr

structure VkExtensionProperties where
  extensionName : String
deriving DecidableEq, Repr

structure VkQueueFamilyProperties where
  queueFlags : Nat
deriving DecidableEq, Repr

structure VkMemoryRequirements where
  size : Nat
  memoryTypeBits : Nat
deriving DecidableEq, Repr

/-- What the driver answers about one physical device: its handle, type and
limits, its queue families, the `VkBool32` that
`vkGetPhysicalDeviceSurfaceSupportKHR` writes for a queue family, the property
flags of `memoryTypes[i]`, the surface formats, and the queue
`vkGetDeviceQueue` gives for a family. -/
structure PhysicalDevice where
  handle : Handle
  deviceType : Nat
  limits : VkPhysicalDeviceLimits
  queueFamilyProperties : List VkQueueFamilyProperties
  surfaceSupport : Nat → Nat
  memoryTypes : Nat → Nat
  surfaceFormats : List VkSurfaceFormatKHR
  queue : Nat → Handle

/-- What the platform answers while `helloTriangle` initialises and shuts
down. `validation` is the value of the macro `VULKAN_VALIDATION` and `apple`
tells whether `__APPLE__` is defined (`VulkanEnvironment.h` is not part of the
sources); the window, the surface and the name of the platform surface
extension come from `Wsi.h`, the size of a vertex and the offset of its colour
from `Vertex.h`, which are not part of the sources either. -/
structure Startup where
  validation : Bool
  apple : Bool
  supportedLayers : List VkLayerProperties
  instanceExtensions : List VkExtensionProperties
  layerExtensions : String → List VkExtensionProperties
  platformSurfaceExtension : String
  window : Handle
  surface : Handle
  physicalDevices : List PhysicalDevice
  memoryRequirements : VkMemoryRequirements
  vertexSize : Nat
  colorOffset : Nat
  status : Command → VkResult

/-- The test `std::strcmp( layer, prop.layerName ) == 0` on any supported layer. -/
def isLayerSupported (layer : String) (supportedLayers : List VkLayerProperties) : Bool :=
  supportedLayers.any fun prop => layer == prop.layerName

def isExtensionSupported (extension : String)
    (supportedExtensions : List VkExtensionProperties) : Bool :=
  supportedExtensions.any fun prop => extension == prop.extensionName

/-- The loop of `checkInstanceLayerSupport`; the warning it logs for a layer it
leaves out is not modelled. -/
def checkInstanceLayerSupport (requestedLayers : List String)
    (supportedLayers : List VkLayerProperties) : List String :=
  requestedLayers.foldl
    (fun compiledLayerList layer =>
      if isLayerSupported layer supportedLayers then compiledLayerList ++ [layer]
      else compiledLayerList)
    []

def getSupportedInstanceExtensions (st : Startup) (providingLayers : List String) :
    List VkExtensionProperties :=
  providingLayers.foldl
    (fun supportedExtensions pl => supportedExtensions ++ st.layerExtensions pl)
    st.instanceExtensions

/-- The loop of `checkExtensionSupport`; the warning it logs is not modelled. -/
def checkExtensionSupport (extensions : List String)
    (supportedExtensions : List VkExtensionProperties) : Bool :=
  extensions.foldl
    (fun allSupported extension =>
      if !isExtensionSupported extension supportedExtensions then false else allSupported)
    true

/-- The function `initInstance`. The body of `loadInstanceExtensionsCommands`
(`ExtensionLoader.cpp`) is not part of the sources; the call is an entry of the
trace. -/
def initInstance (st : Startup) (layers extensions : List String) : M Handle := do
  let debugpNext ←
    if st.validation then do
      let debugUtils := extensions.any fun e => e == VK_EXT_DEBUG_UTILS_EXTENSION_NAME
      let debugReport := extensions.any fun e => e == VK_EXT_DEBUG_REPORT_EXTENSION_NAME
      if !debugUtils && !debugReport then
        throwException (.cString ("VULKAN_VALIDATION is enabled but neither VK_EXT_debug_utils "
          ++ "nor VK_EXT_debug_report extension is being enabled!"))
      pure (some (if debugUtils then DebugObjectType.debugUtils else DebugObjectType.debugReport))
    else pure none
  let errorCode := st.status .vkCreateInstance
  let vkInstance ← newHandle errorCode
  emit (.vkCreateInstance debugpNext (toUint32 layers.length) layers
    (toUint32 extensions.length) extensions vkInstance)
  RESULT_HANDLER errorCode "vkCreateInstance"
  emit (.loadInstanceExtensionsCommands vkInstance extensions)
  pure vkInstance

def killInstance (vkInstance : Handle) : M Unit := do
  emit (.unloadInstanceExtensionsCommands vkInstance)
  emit (.vkDestroyInstance vkInstance)

def getQueueFamilyProperties (device : PhysicalDevice) : List VkQueueFamilyProperties :=
  device.queueFamilyProperties.take UINT32_MAX

/-- The overload of `isPresentationSupported` for one queue family; the status
of the query goes to `RESULT_HANDLER`, whose body is empty. -/
def isPresentationSupported (physDevice : PhysicalDevice) (queueFamily : Nat) : Bool :=
  physDevice.surfaceSupport queueFamily == VK_TRUE

/-- The overload of `isPresentationSupported` for a whole device. -/
def isPresentationSupportedDevice (physDevice : PhysicalDevice) : Bool :=
  (List.range (getQueueFamilyProperties physDevice).length).any fun qf =>
    isPresentationSupported physDevice qf

def getPhysicalDevice (st : Startup) (vkInstance surface : Handle) : M PhysicalDevice := do
  let devices := st.physicalDevices
  let devices :=
    if surface ≠ VK_NULL_HANDLE then devices.filter fun pd => isPresentationSupportedDevice pd
    else devices
  match devices with
  | [] =>
    throwException (.string ("ERROR: No Physical Devices (GPUs) "
      ++ (if surface ≠ VK_NULL_HANDLE then "with presentation support " else "") ++ "detected!"))
  | [pd] => pure pd
  | first :: _ =>
    match devices.find? fun pd => pd.deviceType == VK_PHYSICAL_DEVICE_TYPE_DISCRETE_GPU with
    | some pd => do
      if st.validation then emit (.call "vkDebugReportMessageEXT" [vkInstance])
      pure pd
    | none => do
      if st.validation then emit (.call "vkDebugReportMessageEXT" [vkInstance])
      pure first

/-- The lambda `findQueueFamilyThat` of `getQueueFamilies`, from family `qf` on. -/
def findQueueFamilyFrom (predicate : VkQueueFamilyProperties → Nat → Bool) :
    Nat → List VkQueueFamilyProperties → Nat
  | _, [] => VK_QUEUE_FAMILY_IGNORED
  | qf, props :: rest =>
    if predicate props qf then qf else findQueueFamilyFrom predicate (qf + 1) rest

def findQueueFamilyThat (qfps : List VkQueueFamilyProperties)
    (predicate : VkQueueFamilyProperties → Nat → Bool) : Nat :=
  findQueueFamilyFrom predicate 0 qfps

def getQueueFamilies (physDevice : PhysicalDevice) : M (Nat × Nat) := do
  let notFound := VK_QUEUE_FAMILY_IGNORED
  let qfps := getQueueFamilyProperties physDevice
  let isGraphics := fun (props : VkQueueFamilyProperties) (_ : Nat) =>
    decide (props.queueFlags &&& VK_QUEUE_GRAPHICS_BIT ≠ 0)
  let isPresent := fun (_ : VkQueueFamilyProperties) (queueFamily : Nat) =>
    isPresentationSupported physDevice queueFamily
  let isFusedGraphicsAndPresent := fun (props : VkQueueFamilyProperties) (queueFamily : Nat) =>
    isGraphics props queueFamily && isPresent props queueFamily
  let families : Nat × Nat :=
    if VulkanConfig.forceSeparatePresentQueue then
      let graphicsQueueFamily := findQueueFamilyThat qfps isGraphics
      let isSeparatePresent := fun (props : VkQueueFamilyProperties) (queueFamily : Nat) =>
        decide (queueFamily ≠ graphicsQueueFamily) && isPresent props queueFamily
      (graphicsQueueFamily, findQueueFamilyThat qfps isSeparatePresent)
    else
      let fused := findQueueFamilyThat qfps isFusedGraphicsAndPresent
      if fused = notFound ∨ fused = notFound then
        (findQueueFamilyThat qfps isGraphics, findQueueFamilyThat qfps isPresent)
      else (fused, fused)
  if families.1 = notFound then
    throwException (.cString "Cannot find a graphics queue family!")
  if families.2 = notFound then
    throwException (.cString "Cannot find a presentation queue family!")
  pure families

/-- The function `initDevice`; `checkDeviceExtensionSupport` only logs and its
result is not used. The body of `loadDeviceExtensionsCommands` is not part of
the sources; the call is an entry of the trace. -/
def initDevice (st : Startup) (physDevice : PhysicalDevice)
    (graphicsQueueFamily presentQueueFamily : Nat) (layers extensions : List String) :
    M Handle := do
  let queues :=
    if presentQueueFamily ≠ graphicsQueueFamily then [graphicsQueueFamily, presentQueueFamily]
    else [graphicsQueueFamily]
  let errorCode := st.status .vkCreateDevice
  let device ← newHandle errorCode
  emit (.vkCreateDevice physDevice.handle queues (toUint32 layers.length) layers
    (toUint32 extensions.length) extensions device)
  RESULT_HANDLER errorCode "vkCreateDevice"
  emit (.loadDeviceExtensionsCommands device extensions)
  pure device

def killDevice (device : Handle) : M Unit := do
  emit (.unloadDeviceExtensionsCommands device)
  emit (.vkDestroyDevice device)

def getQueue (physDevice : PhysicalDevice) (queueFamily : Nat) : Handle :=
  physDevice.queue queueFamily

/-- The loop of `getSurfaceFormat` over the offered formats: it stops at the
first entry with the first preferred format and remembers the latest entry with
the second preferred format seen until then. -/
def chooseFormats :
    List VkSurfaceFormatKHR → VkSurfaceFormatKHR × VkSurfaceFormatKHR
      → VkSurfaceFormatKHR × VkSurfaceFormatKHR
  | [], chosen => chosen
  | f :: rest, (chosenFormat1, chosenFormat2) =>
    if f.format = VK_FORMAT_B8G8R8A8_UNORM then (f, chosenFormat2)
    else if f.format = VK_FORMAT_B8G8R8A8_SRGB then chooseFormats rest (chosenFormat1, f)
    else chooseFormats rest (chosenFormat1, chosenFormat2)

def getSurfaceFormat (physicalDevice : PhysicalDevice) : M VkSurfaceFormatKHR := do
  let formats := physicalDevice.surfaceFormats
  match formats with
  | [] => throwException (.cString "No surface formats offered by Vulkan!")
  | first :: others =>
    let formats :=
      if others.length = 0 ∧ first.format = VK_FORMAT_UNDEFINED then
        [{ first with format := VK_FORMAT_B8G8R8A8_UNORM }]
      else formats
    let chosen := chooseFormats formats (⟨VK_FORMAT_UNDEFINED, 0⟩, ⟨VK_FORMAT_UNDEFINED, 0⟩)
    if chosen.1.format ≠ 0 then pure chosen.1
    else if chosen.2.format ≠ 0 then pure chosen.2
    else pure (formats.headD first)

/-- A creating command of the bring-up that carries no decision. -/
def create (st : Startup) (command : Command) (name : String) (arguments : List Nat) :
    M Handle := do
  let errorCode := st.status command
  let handle ← newHandle errorCode
  emit (.call name (arguments ++ [handle]))
  RESULT_HANDLER errorCode name
  pure handle

def initRenderPass (st : Startup) (device : Handle) (surfaceFormat : VkSurfaceFormatKHR) :
    M Handle :=
  create st .vkCreateRenderPass "vkCreateRenderPass" [device, surfaceFormat.format]

def initShaderModule (st : Startup) (device : Handle) : M Handle :=
  create st .vkCreateShaderModule "vkCreateShaderModule" [device]

def initPipelineLayout (st : Startup) (device : Handle) : M Handle :=
  create st .vkCreatePipelineLayout "vkCreatePipelineLayout" [device]

def initBuffer (st : Startup) (device : Handle) (size : Nat) : M Handle :=
  create st .vkCreateBuffer "vkCreateBuffer" [device, size]

def initCommandPool (st : Startup) (device : Handle) (queueFamily : Nat) : M Handle :=
  create st .vkCreateCommandPool "vkCreateCommandPool" [device, queueFamily]

/-! ## `src/VulkanImpl.h`: `initMemory` -/

/-- The lambda `indexToBit` of `initMemory`. -/
def indexToBit (index : Nat) : Nat := 1 <<< index

/-- The two nested loops of `initMemory`: the inner one runs while no memory
type is found and `i` is below 32. -/
def findMemoryType (memoryTypeBits : Nat) (memoryTypes : Nat → Nat)
    (memoryTypePriority : List Nat) : Nat :=
  memoryTypePriority.foldl
    (fun memoryType desiredMemoryType =>
      (List.range 32).foldl
        (fun memoryType i =>
          if memoryType = UINT32_MAX ∧ memoryTypeBits &&& indexToBit i ≠ 0
              ∧ memoryTypes i &&& desiredMemoryType = desiredMemoryType then i
          else memoryType)
        memoryType)
    UINT32_MAX

def initMemory (st : Startup) (device : Handle) (physicalDevice : PhysicalDevice)
    (resource : Handle) (memoryTypePriority : List Nat) : M Handle := do
  let memoryRequirements := st.memoryRequirements
  let memoryType :=
    findMemoryType memoryRequirements.memoryTypeBits physicalDevice.memoryTypes memoryTypePriority
  if memoryType = UINT32_MAX then
    throwException (.cString "Can't find compatible mappable memory for the resource")
  let memory ←
    create st .vkAllocateMemory "vkAllocateMemory" [device, memoryRequirements.size, memoryType]
  emit (.call "vkBindBufferMemory" [device, resource, memory, 0])
  RESULT_HANDLER (st.status .vkBindBufferMemory) "vkBindBufferMemory"
  pure memory

def setMemoryData (st : Startup) (device memory : Handle) (size : Nat) : M Unit := do
  emit (.call "vkMapMemory" [device, memory])
  RESULT_HANDLER (st.status .vkMapMemory) "vkMapMemory"
  emit (.call "memcpy" [size])
  emit (.call "vkUnmapMemory" [device, memory])

/-! ## `src/ErrorHandling.cpp`: `initDebug` and `killDebug` -/

/-- The struct `DebugObjectVariant`: the tag and the handle of the union. -/
structure DebugObjectVariant where
  tag : DebugObjectType
  handle : Handle
deriving DecidableEq, Repr

/-- The function `initDebug`; its last branch, for a tag that is neither of the
two enumerators, has no counterpart here. -/
def initDebug (st : Startup) (vkInstance : Handle) (debugExtension : DebugObjectType) :
    M DebugObjectVariant :=
  match debugExtension with
  | .debugUtils => do
    let messenger ← create st .vkCreateDebugUtilsMessengerEXT "vkCreateDebugUtilsMessengerEXT"
      [vkInstance]
    pure ⟨debugExtension, messenger⟩
  | .debugReport => do
    let callback ← create st .vkCreateDebugReportCallbackEXT "vkCreateDebugReportCallbackEXT"
      [vkInstance]
    pure ⟨debugExtension, callback⟩

def killDebug (vkInstance : Handle) (debug : DebugObjectVariant) : M Unit :=
  match debug.tag with
  | .debugUtils => emit (.call "vkDestroyDebugUtilsMessengerEXT" [vkInstance, debug.handle])
  | .debugReport => emit (.call "vkDestroyDebugReportCallbackEXT" [vkInstance, debug.handle])

/-! ## `src/VulkanValidation.cpp` and `src/HelloVoxel.cpp`: `helloTriangle` -/

/-- The block of `helloTriangle` and of `VulkanManager::VulkanManager` that
selects the debug extension; it is compiled when `VULKAN_VALIDATION` is set.
The value is the tag and the list of requested instance extensions after the
`push_back`. -/
def selectDebugExtension (supportedInstanceExtensions : List VkExtensionProperties)
    (requestedInstanceExtensions : List String) : M (DebugObjectType × List String) :=
  if isExtensionSupported VK_EXT_DEBUG_UTILS_EXTENSION_NAME supportedInstanceExtensions then
    pure (.debugUtils, requestedInstanceExtensions ++ [VK_EXT_DEBUG_UTILS_EXTENSION_NAME])
  else if isExtensionSupported VK_EXT_DEBUG_REPORT_EXTENSION_NAME supportedInstanceExtensions then
    pure (.debugReport, requestedInstanceExtensions ++ [VK_EXT_DEBUG_REPORT_EXTENSION_NAME])
  else
    throwException (.cString ("VULKAN_VALIDATION is enabled but neither VK_EXT_debug_utils "
      ++ "nor VK_EXT_debug_report extension is supported!"))

/-- The members of `VulkanManager`, which are also the first locals of
`helloTriangle`; `m_debugHandle` is set only when `VULKAN_VALIDATION` is. -/
structure VulkanManager where
  m_requestedLayers : List String
  m_vkInstance : Handle
  m_debugHandle : Option DebugObjectVariant
deriving DecidableEq, Repr

/-- The constructor `VulkanManager::VulkanManager`; `helloTriangle` begins with
the same statements, from the enumeration of the layers to the intro message. -/
def VulkanManager.construct (st : Startup) : M VulkanManager := do
  let supportedLayers := st.supportedLayers
  let requestedLayers : List String := []
  let requestedLayers ←
    if st.validation then
      if isLayerSupported "VK_LAYER_KHRONOS_validation" supportedLayers then
        pure (requestedLayers ++ ["VK_LAYER_KHRONOS_validation"])
      else
        throwException (.cString ("VULKAN_VALIDATION is enabled but "
          ++ "VK_LAYER_KHRONOS_validation layers are not supported!"))
    else pure requestedLayers
  let requestedLayers ←
    if st.validation ∧ VulkanConfig.useAssistantLayer = true then
      if isLayerSupported "VK_LAYER_LUNARG_assistant_layer" supportedLayers then
        pure (requestedLayers ++ ["VK_LAYER_LUNARG_assistant_layer"])
      else
        throwException (.cString ("VULKAN_VALIDATION is enabled but "
          ++ "VK_LAYER_LUNARG_assistant_layer layer is not supported!"))
    else pure requestedLayers
  let requestedLayers :=
    if VulkanConfig.fpsCounter then requestedLayers ++ ["VK_LAYER_LUNARG_monitor"]
    else requestedLayers
  let requestedLayers := checkInstanceLayerSupport requestedLayers supportedLayers
  let supportedInstanceExtensions := getSupportedInstanceExtensions st requestedLayers
  let platformSurfaceExtension := st.platformSurfaceExtension
  let requestedInstanceExtensions :=
    [VK_KHR_SURFACE_EXTENSION_NAME, platformSurfaceExtension]
      ++ (if st.apple then
            [VK_KHR_GET_PHYSICAL_DEVICE_PROPERTIES_2_EXTENSION_NAME,
             VK_KHR_PORTABILITY_ENUMERATION_EXTENSION_NAME]
          else [])
  let selected ←
    if st.validation then do
      let chosen ← selectDebugExtension supportedInstanceExtensions requestedInstanceExtensions
      pure (some chosen.1, chosen.2)
    else pure (none, requestedInstanceExtensions)
  let debugExtensionTag := selected.1
  let requestedInstanceExtensions := selected.2
  let _allSupported := checkExtensionSupport requestedInstanceExtensions supportedInstanceExtensions
  let vkInstance ← initInstance st requestedLayers requestedInstanceExtensions
  let debugHandle ←
    match debugExtensionTag with
    | some tag => do
      let debug ← initDebug st vkInstance tag
      match tag with
      | .debugUtils => emit (.call "vkSubmitDebugUtilsMessageEXT" [vkInstance])
      | .debugReport => emit (.call "vkDebugReportMessageEXT" [vkInstance])
      pure (some debug)
    | none => pure none
  pure ⟨requestedLayers, vkInstance, debugHandle⟩

/-- The locals of `helloTriangle` that outlive its initialisation. -/
structure Locals where
  manager : VulkanManager
  window : Handle
  surface : Handle
  device : Handle
  renderPass : Handle
  vertexShader : Handle
  fragmentShader : Handle
  pipelineLayout : Handle
  vertexBuffer : Handle
  vertexBufferMemory : Handle
  commandPool : Handle
  setup : Setup
deriving DecidableEq, Repr

/-- The statements of `helloTriangle` up to the two lambdas: the instance, the
window and the surface, the device, the render pass, the shaders, the vertex
buffer and the command pool, then the place-holders of the objects that depend
on the swap chain. `initWindow` and `initSurface` belong to `Wsi.h`; they give
the window and the surface of the platform. -/
def initialise (st : Startup) : M Locals := do
  let manager ← VulkanManager.construct st
  let vkInstance := manager.m_vkInstance
  let requestedLayers := manager.m_requestedLayers
  emit (.call "initWindow" [st.window])
  let window := st.window
  emit (.call "initSurface" [vkInstance, window, st.surface])
  let surface := st.surface
  let physicalDevice ← getPhysicalDevice st vkInstance surface
  let limits := physicalDevice.limits
  let families ← getQueueFamilies physicalDevice
  let graphicsQueueFamily := families.1
  let presentQueueFamily := families.2
  let deviceExtensions :=
    if st.apple then [VK_KHR_SWAPCHAIN_EXTENSION_NAME, "VK_KHR_portability_subset"]
    else [VK_KHR_SWAPCHAIN_EXTENSION_NAME]
  let device ← initDevice st physicalDevice graphicsQueueFamily presentQueueFamily
    requestedLayers deviceExtensions
  let graphicsQueue := getQueue physicalDevice graphicsQueueFamily
  let presentQueue := getQueue physicalDevice presentQueueFamily
  let surfaceFormat ← getSurfaceFormat physicalDevice
  let renderPass ← initRenderPass st device surfaceFormat
  let vertexShader ← initShaderModule st device
  let fragmentShader ← initShaderModule st device
  let pipelineLayout ← initPipelineLayout st device
  let vertexBuffer ← initBuffer st device (st.vertexSize * triangleVertexCount)
  let memoryTypePriority :=
    [ VK_MEMORY_PROPERTY_DEVICE_LOCAL_BIT ||| VK_MEMORY_PROPERTY_HOST_VISIBLE_BIT
        ||| VK_MEMORY_PROPERTY_HOST_COHERENT_BIT,
      VK_MEMORY_PROPERTY_HOST_VISIBLE_BIT ||| VK_MEMORY_PROPERTY_HOST_COHERENT_BIT ]
  let vertexBufferMemory ← initMemory st device physicalDevice vertexBuffer memoryTypePriority
  setMemoryData st device vertexBufferMemory (st.vertexSize * triangleVertexCount)
  let commandPool ← initCommandPool st device graphicsQueueFamily
  modifyWorld fun w =>
    { w with
      swapchain := VK_NULL_HANDLE
      swapchainImageViews := []
      framebuffers := []
      pipeline := VK_NULL_HANDLE
      commandBuffers := []
      imageReadySs := []
      renderDoneSs := []
      submissionNr := 0
      submissionFences := [] }
  pure
    { manager := manager
      window := window
      surface := surface
      device := device
      renderPass := renderPass
      vertexShader := vertexShader
      fragmentShader := fragmentShader
      pipelineLayout := pipelineLayout
      vertexBuffer := vertexBuffer
      vertexBufferMemory := vertexBufferMemory
      commandPool := commandPool
      setup :=
        { limits := limits
          surfaceFormat := surfaceFormat
          graphicsQueueFamily := graphicsQueueFamily
          presentQueueFamily := presentQueueFamily
          graphicsQueue := graphicsQueue
          presentQueue := presentQueue
          vertexBufferStride := st.vertexSize
          colorOffset := st.colorOffset } }

/-- Modelled from the spec: `messageLoop` belongs to the windowing layer
(`Wsi.h`), which is not part of the sources. The specification says that it
"invokes these callbacks and returns an exit code on close": it makes the calls of
the size handler and of the paint handler the platform asks for, in their order,
and returns the exit code of the platform. -/
def messageLoop (setup : Setup) (actions : List Action) (exitCode : Int) : M Int := do
  performAll setup actions
  pure exitCode

/-- The statements of `helloTriangle` after `messageLoop`, from the comment
"proper Vulkan cleanup" to `killInstance`. -/
def cleanup (st : Startup) (loc : Locals) : M Unit := do
  emit .vkDeviceWaitIdle
  RESULT_HANDLER (st.status .vkDeviceWaitIdle) "vkDeviceWaitIdle"
  let renderDoneSs ← killSemaphores (← getWorld).renderDoneSs
  modifyWorld fun w => { w with renderDoneSs := renderDoneSs }
  killPipeline (← getWorld).pipeline
  let framebuffers ← killFramebuffers (← getWorld).framebuffers
  modifyWorld fun w => { w with framebuffers := framebuffers }
  let swapchainImageViews ← killSwapchainImageViews (← getWorld).swapchainImageViews
  modifyWorld fun w => { w with swapchainImageViews := swapchainImageViews }
  killSwapchain (← getWorld).swapchain
  let imageReadySs ← killSemaphores (← getWorld).imageReadySs
  modifyWorld fun w => { w with imageReadySs := imageReadySs }
  let submissionFences ← killFences (← getWorld).submissionFences
  modifyWorld fun w => { w with submissionFences := submissionFences }
  emit (.call "vkDestroyCommandPool" [loc.device, loc.commandPool])
  emit (.call "vkFreeMemory" [loc.device, loc.vertexBufferMemory])
  emit (.call "vkDestroyBuffer" [loc.device, loc.vertexBuffer])
  emit (.call "vkDestroyPipelineLayout" [loc.device, loc.pipelineLayout])
  emit (.call "vkDestroyShaderModule" [loc.device, loc.fragmentShader])
  emit (.call "vkDestroyShaderModule" [loc.device, loc.vertexShader])
  emit (.call "vkDestroyRenderPass" [loc.device, loc.renderPass])
  killDevice loc.device
  emit (.call "vkDestroySurfaceKHR" [loc.manager.m_vkInstance, loc.surface])
  emit (.call "killWindow" [loc.window])
  match loc.manager.m_debugHandle with
  | some debugHandle => killDebug loc.manager.m_vkInstance debugHandle
  | none => pure ()
  killInstance loc.manager.m_vkInstance

/-- The `try` block of `helloTriangle`. `setSizeEventHandler` and
`setPaintEventHandler` hand the two lambdas to the windowing layer, which calls
them from `messageLoop`. -/
def helloTriangleBody (st : Startup) (actions : List Action) (exitCode : Int) : M Int := do
  let loc ← initialise st
  emit (.call "showWindow" [loc.window])
  let exitStatus ← messageLoop loc.setup actions exitCode
  cleanup st loc
  pure exitStatus

/-- The function `helloTriangle`: its function-try-block has one handler for
each kind of exception, and every handler returns `EXIT_FAILURE`. -/
def helloTriangle (st : Startup) (actions : List Action) (exitCode : Int) : M Int :=
  tryCatch (helloTriangleBody st actions exitCode) fun e =>
    match e with
    | .VulkanResultException _ _ => pure EXIT_FAILURE
    | .cString _ => pure EXIT_FAILURE
    | .string _ => pure EXIT_FAILURE
    | .exception _ => pure EXIT_FAILURE
    | .other => pure EXIT_FAILURE

/-- A platform for `helloTriangle`: validation is on, the validation layer and
both debug extensions are supported, there is one device with one queue family
that draws and presents, one surface format and host-visible memory. -/
def exampleStartup : Startup where
  validation := true
  apple := false
  supportedLayers := [⟨"VK_LAYER_KHRONOS_validation"⟩]
  instanceExtensions :=
    [⟨"VK_KHR_surface"⟩, ⟨"VK_KHR_xcb_surface"⟩, ⟨"VK_EXT_debug_report"⟩, ⟨"VK_EXT_debug_utils"⟩]
  layerExtensions := fun _ => []
  platformSurfaceExtension := "VK_KHR_xcb_surface"
  window := 1000
  surface := 1001
  physicalDevices :=
    [ { handle := 1002
        deviceType := VK_PHYSICAL_DEVICE_TYPE_DISCRETE_GPU
        limits := ⟨16, 2048, 16, 2047⟩
        queueFamilyProperties := [⟨1⟩]
        surfaceSupport := fun _ => VK_TRUE
        memoryTypes := fun _ => 7
        surfaceFormats := [⟨44, 0⟩]
        queue := fun _ => 7 } ]
  memoryRequirements := ⟨60, 1⟩
  vertexSize := 20
  colorOffset := 8
  status := fun _ => VK_SUCCESS

/-! ## `src/ExtensionLoader.h`: the registry of dispatch tables -/

/-- The commands of an instance extension that have a dispatch table in
`ExtensionLoader.h`. -/
def instanceCommandsOf (extension : String) : List String :=
  if extension = VK_KHR_GET_PHYSICAL_DEVICE_PROPERTIES_2_EXTENSION_NAME then
    [ "vkGetPhysicalDeviceFeatures2KHR", "vkGetPhysicalDeviceProperties2KHR",
      "vkGetPhysicalDeviceFormatProperties2KHR", "vkGetPhysicalDeviceImageFormatProperties2KHR",
      "vkGetPhysicalDeviceQueueFamilyProperties2KHR", "vkGetPhysicalDeviceMemoryProperties2KHR",
      "vkGetPhysicalDeviceSparseImageFormatProperties2KHR" ]
  else if extension = VK_EXT_DEBUG_REPORT_EXTENSION_NAME then
    ["vkCreateDebugReportCallbackEXT", "vkDestroyDebugReportCallbackEXT", "vkDebugReportMessageEXT"]
  else if extension = VK_EXT_DEBUG_UTILS_EXTENSION_NAME then
    ["vkCreateDebugUtilsMessengerEXT", "vkDestroyDebugUtilsMessengerEXT",
      "vkSubmitDebugUtilsMessageEXT"]
  else if extension = "VK_KHR_external_memory_capabilities" then
    ["vkGetPhysicalDeviceExternalBufferPropertiesKHR"]
  else []

/-- The commands of a device extension that have a dispatch table in
`ExtensionLoader.h`. -/
def deviceCommandsOf (extension : String) : List String :=
  if extension = "VK_KHR_external_memory_win32" then
    ["vkGetMemoryWin32HandleKHR", "vkGetMemoryWin32HandlePropertiesKHR"]
  else []

/-- The static maps of `ExtensionLoader.h`: for instances and for devices, the
map from the owner to its enabled extensions and, for each command, the map
from the owner to the resolved address. -/
structure Registry where
  instanceExtensionsMap : Handle → Option (List String)
  instanceDispatchTable : String → Handle → Option Nat
  deviceExtensionsMap : Handle → Option (List String)
  deviceDispatchTable : String → Handle → Option Nat

/-- The registry before any owner is loaded. -/
def Registry.empty : Registry where
  instanceExtensionsMap := fun _ => none
  instanceDispatchTable := fun _ _ => none
  deviceExtensionsMap := fun _ => none
  deviceDispatchTable := fun _ _ => none

/-- Modelled from the spec: the body of `loadInstanceExtensionsCommands` is in
`ExtensionLoader.cpp`, which is not part of the sources. The specification says
that `load(owner, enabledExtensionNames)` "for each command belonging to a
requested, enabled extension, resolves its address through the owner's
address-resolution entrypoint and stores it in the owner's table", and that a
null address is a fatal configuration error. `resolve` is the entry point of
the owner. -/
def Registry.loadInstanceExtensionsCommands (resolve : String → Nat) (vkInstance : Handle)
    (instanceExtensions : List String) (r : Registry) : Option Registry :=
  let commands := instanceExtensions.flatMap instanceCommandsOf
  if commands.any (fun c => resolve c == 0) then none
  else
    some
      { r with
        instanceExtensionsMap := fun owner =>
          if owner = vkInstance then some instanceExtensions else r.instanceExtensionsMap owner
        instanceDispatchTable := fun c owner =>
          if owner = vkInstance ∧ c ∈ commands then some (resolve c)
          else r.instanceDispatchTable c owner }

/-- Modelled from the spec: the body of `unloadInstanceExtensionsCommands` is in
`ExtensionLoader.cpp`, which is not part of the sources. The specification says
that `unload(owner)` "removes the owner's table" and that "calling it on an owner
with no table is a safe no-op". -/
def Registry.unloadInstanceExtensionsCommands (vkInstance : Handle) (r : Registry) : Registry :=
  { r with
    instanceExtensionsMap := fun owner =>
      if owner = vkInstance then none else r.instanceExtensionsMap owner
    instanceDispatchTable := fun c owner =>
      if owner = vkInstance then none else r.instanceDispatchTable c owner }

/-- Modelled from the spec: the body of `loadDeviceExtensionsCommands` is in
`ExtensionLoader.cpp`, which is not part of the sources; it is `load(owner,
enabledExtensionNames)` of the specification for a device. -/
def Registry.loadDeviceExtensionsCommands (resolve : String → Nat) (device : Handle)
    (deviceExtensions : List String) (r : Registry) : Option Registry :=
  let commands := deviceExtensions.flatMap deviceCommandsOf
  if commands.any (fun c => resolve c == 0) then none
  else
    some
      { r with
        deviceExtensionsMap := fun owner =>
          if owner = device then some deviceExtensions else r.deviceExtensionsMap owner
        deviceDispatchTable := fun c owner =>
          if owner = device ∧ c ∈ commands then some (resolve c)
          else r.deviceDispatchTable c owner }

/-- Modelled from the spec: the body of `unloadDeviceExtensionsCommands` is in
`ExtensionLoader.cpp`, which is not part of the sources; it is `unload(owner)`
of the specification for a device. -/
def Registry.unloadDeviceExtensionsCommands (device : Handle) (r : Registry) : Registry :=
  { r with
    deviceExtensionsMap := fun owner =>
      if owner = device then none else r.deviceExtensionsMap owner
    deviceDispatchTable := fun c owner =>
      if owner = device then none else r.deviceDispatchTable c owner }

/-- The owner has no table among the instance tables. -/
def Registry.instanceNeverLoaded (r : Registry) (vkInstance : Handle) : Prop :=
  r.instanceExtensionsMap vkInstance = none ∧ ∀ c, r.instanceDispatchTable c vkInstance = none

/-- The owner has no table among the device tables. -/
def Registry.deviceNeverLoaded (r : Registry) (device : Handle) : Prop :=
  r.deviceExtensionsMap device = none ∧ ∀ c, r.deviceDispatchTable c device = none

/-- A registry in which the instance 1 is loaded with `VK_EXT_debug_utils`, every
command resolving to the address 4096. -/
def exampleRegistry : Registry :=
  (Registry.empty.loadInstanceExtensionsCommands (fun _ => 4096) 1
    [VK_EXT_DEBUG_UTILS_EXTENSION_NAME]).getD Registry.empty

/-! ## Vocabulary of the start-up claims -/

/-- The extension has an entry among the supported ones. -/
def Supports (supported : List VkExtensionProperties) (extension : String) : Prop :=
  ∃ prop ∈ supported, prop.extensionName = extension

instance (supported : List VkExtensionProperties) (extension : String) :
    Decidable (Supports supported extension) := by
  unfold Supports
  infer_instance

/-- The layers `helloTriangle` asks for once its own layer checks have passed. -/
def requestedLayersOf (st : Startup) : List String :=
  checkInstanceLayerSupport
    ((if st.validation then ["VK_LAYER_KHRONOS_validation"] else []) ++ ["VK_LAYER_LUNARG_monitor"])
    st.supportedLayers

/-- The instance extensions `helloTriangle` asks for before it selects a debug
extension. -/
def baseInstanceExtensions (st : Startup) : List String :=
  [VK_KHR_SURFACE_EXTENSION_NAME, st.platformSurfaceExtension]
    ++ (if st.apple then
          [VK_KHR_GET_PHYSICAL_DEVICE_PROPERTIES_2_EXTENSION_NAME,
           VK_KHR_PORTABILITY_ENUMERATION_EXTENSION_NAME]
        else [])

/-- The extension list names the extension: the `std::find_if` of `initInstance`. -/
def enables (extensions : List String) (name : String) : Bool :=
  extensions.any fun e => e == name

/-- The value `initInstance` passes as `pNext` of the create-info. -/
def debugpNextOf (st : Startup) (extensions : List String) : Option DebugObjectType :=
  if st.validation then
    some (if enables extensions VK_EXT_DEBUG_UTILS_EXTENSION_NAME then DebugObjectType.debugUtils
      else DebugObjectType.debugReport)
  else none

/-- A run of `m` adds no entry that marks a call of `render`, however it ends. -/
structure Quiet {α : Type} (m : M α) : Prop where
  filter_eq : ∀ w, (m w).world.trace.filter Event.isRender = w.trace.filter Event.isRender

/-- The commands that create a pipeline. -/
def Event.isPipelineCreation : Event → Bool
  | .vkCreateGraphicsPipelines _ _ _ => true
  | _ => false

/-- The window is opened at 800 x 800, then minimised, then closed. -/
def exampleMinimised : List Action :=
  [.recreateSwapchain (exampleReport 800 800), .recreateSwapchain (exampleReport 0 0)]

/-- The example platform without any debug extension. -/
def exampleNoDebug : Startup :=
  { exampleStartup with instanceExtensions := [⟨"VK_KHR_surface"⟩, ⟨"VK_KHR_xcb_surface"⟩] }

/-- The example platform without the validation layer. -/
def exampleNoLayer : Startup := { exampleStartup with supportedLayers := [] }

/-! ## `src/ErrorHandling.cpp`: `translateFlags` -/

def VK_DEBUG_UTILS_MESSAGE_SEVERITY_VERBOSE_BIT_EXT : Nat := 0x00000001
def VK_DEBUG_UTILS_MESSAGE_SEVERITY_INFO_BIT_EXT : Nat := 0x00000010
def VK_DEBUG_UTILS_MESSAGE_SEVERITY_WARNING_BIT_EXT : Nat := 0x00000100
def VK_DEBUG_UTILS_MESSAGE_SEVERITY_ERROR_BIT_EXT : Nat := 0x00001000

def VK_DEBUG_UTILS_MESSAGE_TYPE_GENERAL_BIT_EXT : Nat := 0x00000001
def VK_DEBUG_UTILS_MESSAGE_TYPE_VALIDATION_BIT_EXT : Nat := 0x00000002
def VK_DEBUG_UTILS_MESSAGE_TYPE_PERFORMANCE_BIT_EXT : Nat := 0x00000004

def VK_DEBUG_REPORT_INFORMATION_BIT_EXT : Nat := 0x00000001
def VK_DEBUG_REPORT_WARNING_BIT_EXT : Nat := 0x00000002
def VK_DEBUG_REPORT_PERFORMANCE_WARNING_BIT_EXT : Nat := 0x00000004
def VK_DEBUG_REPORT_ERROR_BIT_EXT : Nat := 0x00000008
def VK_DEBUG_REPORT_DEBUG_BIT_EXT : Nat := 0x00000010

/-- The function `translateFlags`; a mask used as a condition is true when it is
not zero. -/
def translateFlags (debugSeverity debugType : Nat) : Nat :=
  let flags := 0
  if debugType &&& VK_DEBUG_UTILS_MESSAGE_TYPE_GENERAL_BIT_EXT ≠ 0
      ∨ debugType &&& VK_DEBUG_UTILS_MESSAGE_TYPE_VALIDATION_BIT_EXT ≠ 0 then
    let flags :=
      if debugSeverity &&& VK_DEBUG_UTILS_MESSAGE_SEVERITY_ERROR_BIT_EXT ≠ 0 then
        flags ||| VK_DEBUG_REPORT_ERROR_BIT_EXT
      else flags
    let flags :=
      if debugSeverity &&& VK_DEBUG_UTILS_MESSAGE_SEVERITY_WARNING_BIT_EXT ≠ 0 then
        flags ||| VK_DEBUG_REPORT_WARNING_BIT_EXT
      else flags
    let flags :=
      if debugSeverity &&& VK_DEBUG_UTILS_MESSAGE_SEVERITY_WARNING_BIT_EXT ≠ 0
          ∧ debugType &&& VK_DEBUG_UTILS_MESSAGE_TYPE_PERFORMANCE_BIT_EXT ≠ 0 then
        flags ||| VK_DEBUG_REPORT_PERFORMANCE_WARNING_BIT_EXT
      else flags
    let flags :=
      if debugSeverity &&& VK_DEBUG_UTILS_MESSAGE_SEVERITY_INFO_BIT_EXT ≠ 0 then
        flags ||| VK_DEBUG_REPORT_INFORMATION_BIT_EXT
      else flags
    let flags :=
      if debugSeverity &&& VK_DEBUG_UTILS_MESSAGE_SEVERITY_VERBOSE_BIT_EXT ≠ 0 then
        flags ||| VK_DEBUG_REPORT_DEBUG_BIT_EXT
      else flags
    flags
  else flags

/-- The mask has the bit `flag` (for a one-bit value `flag`). -/
def hasFlag (mask flag : Nat) : Bool := decide (mask &&& flag = flag)

/-- The reference of the specification for `translateFlags`, bit by bit: whether
the result has the bit `2 ^ k`. -/
def translateFlagsReference (severity type k : Nat) : Bool :=
  if hasFlag type VK_DEBUG_UTILS_MESSAGE_TYPE_GENERAL_BIT_EXT = false
      ∧ hasFlag type VK_DEBUG_UTILS_MESSAGE_TYPE_VALIDATION_BIT_EXT = false then false
  else if 2 ^ k = VK_DEBUG_REPORT_ERROR_BIT_EXT then
    hasFlag severity VK_DEBUG_UTILS_MESSAGE_SEVERITY_ERROR_BIT_EXT
  else if 2 ^ k = VK_DEBUG_REPORT_WARNING_BIT_EXT then
    hasFlag severity VK_DEBUG_UTILS_MESSAGE_SEVERITY_WARNING_BIT_EXT
  else if 2 ^ k = VK_DEBUG_REPORT_PERFORMANCE_WARNING_BIT_EXT then
    hasFlag severity VK_DEBUG_UTILS_MESSAGE_SEVERITY_WARNING_BIT_EXT
      && hasFlag type VK_DEBUG_UTILS_MESSAGE_TYPE_PERFORMANCE_BIT_EXT
  else if 2 ^ k = VK_DEBUG_REPORT_INFORMATION_BIT_EXT then
    hasFlag severity VK_DEBUG_UTILS_MESSAGE_SEVERITY_INFO_BIT_EXT
  else if 2 ^ k = VK_DEBUG_REPORT_DEBUG_BIT_EXT then
    hasFlag severity VK_DEBUG_UTILS_MESSAGE_SEVERITY_VERBOSE_BIT_EXT
  else false

/-! ## Vocabulary of the claims about single functions -/

/-- Capabilities whose minimal image count is the largest 32-bit value and that
name no maximal image count. -/
def exampleWrapped : VkSurfaceCapabilitiesKHR :=
  { (exampleReport 800 800).capabilities with minImageCount := UINT32_MAX, maxImageCount := 0 }

/-- The format `getSurfaceFormat` returns for a nonempty list of offered formats. -/
def selectedSurfaceFormat (first : VkSurfaceFormatKHR) (others : List VkSurfaceFormatKHR) :
    VkSurfaceFormatKHR :=
  let formats :=
    if others.length = 0 ∧ first.format = VK_FORMAT_UNDEFINED then
      [{ first with format := VK_FORMAT_B8G8R8A8_UNORM }]
    else first :: others
  let chosen := chooseFormats formats (⟨VK_FORMAT_UNDEFINED, 0⟩, ⟨VK_FORMAT_UNDEFINED, 0⟩)
  if chosen.1.format ≠ 0 then chosen.1
  else if chosen.2.format ≠ 0 then chosen.2
  else formats.headD first

/-- A device whose surface offers the single entry `VK_FORMAT_UNDEFINED`: any
format may be used. -/
def exampleUndefinedFormat : PhysicalDevice where
  handle := 1002
  deviceType := VK_PHYSICAL_DEVICE_TYPE_DISCRETE_GPU
  limits := ⟨16, 2048, 16, 2047⟩
  queueFamilyProperties := [⟨1⟩]
  surfaceSupport := fun _ => VK_TRUE
  memoryTypes := fun _ => 7
  surfaceFormats := [⟨VK_FORMAT_UNDEFINED, 0⟩]
  queue := fun _ => 7

/-- The predicate of a search holds for the family number `i` of the list, the
families being numbered from `qf` on. -/
def holdsFrom (predicate : VkQueueFamilyProperties → Nat → Bool) (qf : Nat)
    (qfps : List VkQueueFamilyProperties) (i : Nat) : Bool :=
  match qfps[i]? with
  | some props => predicate props (qf + i)
  | none => false

/-- Family `i` of the device has the graphics bit. -/
def hasGraphics (physDevice : PhysicalDevice) (i : Nat) : Bool :=
  match (getQueueFamilyProperties physDevice)[i]? with
  | some props => decide (props.queueFlags &&& VK_QUEUE_GRAPHICS_BIT ≠ 0)
  | none => false

/-- Family `i` of the device supports presentation to the surface. -/
def presents (physDevice : PhysicalDevice) (i : Nat) : Bool :=
  decide (i < (getQueueFamilyProperties physDevice).length)
    && decide (physDevice.surfaceSupport i = VK_TRUE)

/-- Index `i` is compatible with the desired flags `d`: it is below 32, bit `i`
is set in `memoryTypeBits`, and the property flags of memory type `i` contain
every bit of `d`. -/
def compatible (memoryTypeBits : Nat) (memoryTypes : Nat → Nat) (i d : Nat) : Bool :=
  decide (i < 32) && memoryTypeBits.testBit i && decide (memoryTypes i &&& d = d)

/-- The inner loop of `initMemory` for one desired flag set. -/
def findMemoryTypeFor (memoryTypeBits : Nat) (memoryTypes : Nat → Nat) (memoryType d : Nat)
    (count : Nat) : Nat :=
  (List.range count).foldl
    (fun memoryType i =>
      if memoryType = UINT32_MAX ∧ memoryTypeBits &&& indexToBit i ≠ 0
          ∧ memoryTypes i &&& d = d then i
      else memoryType)
    memoryType

/-! ## Vocabulary of the claims about teardown and frames -/

/-- The commands of the block "cleanup old" for the state `w`, in the order of
the specification: idle-wait, fences, render-done semaphores, reset of the
command pool, pipeline, framebuffers, image views. -/
def teardownEvents (w : World) : List Event :=
  [Event.vkDeviceWaitIdle]
    ++ w.submissionFences.map Event.vkDestroyFence
    ++ w.renderDoneSs.map Event.vkDestroySemaphore
    ++ [Event.vkResetCommandPool]
    ++ [Event.vkDestroyPipeline w.pipeline]
    ++ w.framebuffers.map Event.vkDestroyFramebuffer
    ++ w.swapchainImageViews.map Event.vkDestroyImageView

/-- The idle-wait, the reset of the command pool and every command that
destroys an object. -/
def Event.isTeardown : Event → Bool
  | .vkDeviceWaitIdle => true
  | .vkResetCommandPool => true
  | .vkDestroyFence _ => true
  | .vkDestroySemaphore _ => true
  | .vkDestroyPipeline _ => true
  | .vkDestroyFramebuffer _ => true
  | .vkDestroyImageView _ => true
  | .vkDestroySwapchainKHR _ => true
  | _ => false

/-- The vectors `render` indexes are long enough for a swap chain of `n` images. -/
structure FrameReady (n : Nat) (w : World) : Prop where
  swapchain_live : w.swapchain ≠ VK_NULL_HANDLE
  slot_fence : w.submissionNr < w.submissionFences.length
  slot_semaphore : w.submissionNr < w.imageReadySs.length
  fences : w.submissionFences.length = maxInflightSubmissions
  imageReady : w.imageReadySs.length = maxInflightSubmissions
  commandBuffers : w.commandBuffers.length = n
  renderDone : w.renderDoneSs.length = n

/-- The first recreation on the example platform followed by two frames. -/
def exampleTwoFrames : World :=
  (performAll exampleSetup
    [Action.render 1 (exampleFrames .vkQueueSubmit VK_SUCCESS),
     Action.render 1 (exampleFrames .vkQueueSubmit VK_SUCCESS)] exampleActive).world

/-- A frame during which the window is minimised: the surface reports the
extent 0 x 0. -/
def exampleMinimisedFrame : FrameReport :=
  { status := fun _ => VK_SUCCESS
    imageIndex := 0
    surface := exampleReport 0 0 }

/-- The surface format `getSurfaceFormat` would select from the formats the
platform offers during the call of `recreateSwapchain`. -/
def reportedSurfaceFormat (rep : SurfaceReport) : Option VkSurfaceFormatKHR :=
  match rep.surfaceFormats with
  | [] => none
  | first :: others => some (selectedSurfaceFormat first others)

/-- The example platform after the surface has changed its formats: it now
offers `VK_FORMAT_B8G8R8A8_SRGB` only. -/
def exampleReformatted : SurfaceReport :=
  { exampleReport 800 800 with surfaceFormats := [⟨VK_FORMAT_B8G8R8A8_SRGB, 0⟩] }

/-! ## Evaluation rules -/

section rules
variable {α β : Type}

@[simp]
theorem bind_apply (m : M α) (f : α → M β) (w : World) :
    (m >>= f) w = (m w).andThen f := rfl

@[simp]
theorem pure_apply (a : α) (w : World) : (pure a : M α) w = .returned a w := rfl

@[simp]
theorem andThen_returned (a : α) (w : World) (f : α → M β) :
    (Outcome.returned a w).andThen f = f a w := rfl

@[simp]
theorem andThen_threw (e : Exception) (w : World) (f : α → M β) :
    (Outcome.threw e w : Outcome α).andThen f = .threw e w := rfl

@[simp]
theorem andThen_stopped (s : Stop) (w : World) (f : α → M β) :
    (Outcome.stopped s w : Outcome α).andThen f = .stopped s w := rfl

@[simp]
theorem getWorld_apply (w : World) : getWorld w = .returned w w := rfl

@[simp]
theorem modifyWorld_apply (f : World → World) (w : World) :
    modifyWorld f w = .returned () (f w) := rfl

@[simp]
theorem emit_apply (e : Event) (w : World) :
    emit e w = .returned () { w with trace := w.trace ++ [e] } := rfl

@[simp]
theorem throwException_apply (e : Exception) (w : World) :
    (throwException e : M α) w = .threw e w := rfl

@[simp]
theorem stop_apply (s : Stop) (w : World) : (stop s : M α) w = .stopped s w := rfl

@[simp]
theorem tryCatch_apply (body : M α) (handler : Exception → M α) (w : World) :
    tryCatch body handler w = (body w).orCatch handler := rfl

@[simp]
theorem RESULT_HANDLER_apply (errorCode : VkResult) (source : String) (w : World) :
    RESULT_HANDLER errorCode source w = .returned () w := rfl

end rules

@[simp]
theorem newHandle_apply (status : VkResult) (w : World) :
    newHandle status w = .returned (written status w.fresh) { w with fresh := w.fresh + 1 } := rfl

@[simp]
theorem writtenFrom_length (status : VkResult) (fresh count : Nat) :
    (writtenFrom status fresh count).length = count := by
  induction count generalizing fresh with
  | zero => rfl
  | succ n ih => simp [writtenFrom, ih]

theorem forEach_emit {α : Type} (xs : List α) (f : α → Event) (w : World) :
    forEach xs (fun x => emit (f x)) w = .returned () { w with trace := w.trace ++ xs.map f } := by
  induction xs generalizing w with
  | nil => simp [forEach]
  | cons x xs ih => simp [forEach, ih]

theorem forEach_killFence (xs : List Handle) (w : World) :
    forEach xs killFence w
      = .returned () { w with trace := w.trace ++ xs.map Event.vkDestroyFence } :=
  forEach_emit xs Event.vkDestroyFence w

theorem forEach_killSemaphore (xs : List Handle) (w : World) :
    forEach xs killSemaphore w
      = .returned () { w with trace := w.trace ++ xs.map Event.vkDestroySemaphore } :=
  forEach_emit xs Event.vkDestroySemaphore w

theorem cleanupOld_apply (rep : SurfaceReport) (w : World) :
    cleanupOld rep w = .returned () (cleanedUp w) := by
  simp [cleanupOld, killFences, killSemaphores, killFramebuffers, killSwapchainImageViews,
    killPipeline, forEach_killFence, forEach_killSemaphore, forEach_emit, cleanedUp]

theorem generate_n_create (status : VkResult) (ev : Handle → Event) (gen : M Handle)
    (hgen : ∀ w, gen w = .returned (written status w.fresh)
      { w with fresh := w.fresh + 1, trace := w.trace ++ [ev (written status w.fresh)] })
    (count : Nat) (w : World) :
    generate_n count gen w = .returned (writtenFrom status w.fresh count)
      { w with
        fresh := w.fresh + count
        trace := w.trace ++ (writtenFrom status w.fresh count).map ev } := by
  induction count generalizing w with
  | zero => simp [generate_n, writtenFrom]
  | succ n ih => simp [generate_n, writtenFrom, hgen, ih, Nat.add_assoc, Nat.add_comm 1 n]

theorem generate_n_newHandle (status : VkResult) (count : Nat) (w : World) :
    generate_n count (newHandle status) w = .returned (writtenFrom status w.fresh count)
      { w with fresh := w.fresh + count } := by
  induction count generalizing w with
  | zero => simp [generate_n, writtenFrom]
  | succ n ih => simp [generate_n, writtenFrom, ih, Nat.add_assoc, Nat.add_comm 1 n]

theorem collect_create {α : Type} (status : VkResult) (ev : α → Handle → Event) (f : α → M Handle)
    (hf : ∀ x w, f x w = .returned (written status w.fresh)
      { w with fresh := w.fresh + 1, trace := w.trace ++ [ev x (written status w.fresh)] })
    (xs : List α) (w : World) :
    collect xs f w = .returned (writtenFrom status w.fresh xs.length)
      { w with
        fresh := w.fresh + xs.length
        trace := w.trace ++ List.zipWith ev xs (writtenFrom status w.fresh xs.length) } := by
  induction xs generalizing w with
  | nil => simp [collect, writtenFrom]
  | cons x xs ih =>
    simp [collect, writtenFrom, hf, ih, Nat.add_assoc, Nat.add_comm 1 xs.length]

theorem initSemaphores_apply (rep : SurfaceReport) (count : Nat) (w : World) :
    initSemaphores rep count w
      = .returned (writtenFrom (rep.status .vkCreateSemaphore) w.fresh count)
        { w with
          fresh := w.fresh + count
          trace := w.trace
            ++ (writtenFrom (rep.status .vkCreateSemaphore) w.fresh count).map
              Event.vkCreateSemaphore } :=
  generate_n_create _ _ _ (fun w => by simp [initSemaphore]) count w

theorem initFences_apply (rep : SurfaceReport) (count flags : Nat) (w : World) :
    initFences rep count flags w
      = .returned (writtenFrom (rep.status .vkCreateFence) w.fresh count)
        { w with
          fresh := w.fresh + count
          trace := w.trace
            ++ (writtenFrom (rep.status .vkCreateFence) w.fresh count).map
              (Event.vkCreateFence flags) } :=
  generate_n_create _ _ _ (fun w => by simp [initFence]) count w

theorem initSwapchainImageViews_apply (rep : SurfaceReport) (images : List Handle) (format : Nat)
    (w : World) :
    initSwapchainImageViews rep images format w
      = .returned (writtenFrom (rep.status .vkCreateImageView) w.fresh images.length)
        { w with
          fresh := w.fresh + images.length
          trace := w.trace ++ List.zipWith (fun image => Event.vkCreateImageView image format)
            images (writtenFrom (rep.status .vkCreateImageView) w.fresh images.length) } :=
  collect_create _ _ _ (fun x w => by simp [initImageView]) images w

theorem initFramebuffers_apply (rep : SurfaceReport) (imageViews : List Handle)
    (width height : Nat) (w : World) :
    initFramebuffers rep imageViews width height w
      = .returned (writtenFrom (rep.status .vkCreateFramebuffer) w.fresh imageViews.length)
        { w with
          fresh := w.fresh + imageViews.length
          trace := w.trace
            ++ List.zipWith (fun imageView => Event.vkCreateFramebuffer imageView width height)
              imageViews
              (writtenFrom (rep.status .vkCreateFramebuffer) w.fresh imageViews.length) } :=
  collect_create _ _ _ (fun x w => by simp) imageViews w

theorem getSurfacePresentMode_apply (rep : SurfaceReport) (w : World) :
    getSurfacePresentMode rep w =
      match selectedPresentMode rep.presentModes with
      | some m => .returned m
          { w with trace := w.trace ++ [Event.vkGetPhysicalDeviceSurfacePresentModesKHR] }
      | none => .threw (.cString "Bugged driver reports no supported present modes.")
          { w with trace := w.trace ++ [Event.vkGetPhysicalDeviceSurfacePresentModesKHR] } := by
  unfold getSurfacePresentMode selectedPresentMode
  simp only [bind_apply, emit_apply, andThen_returned]
  split_ifs with h1 h2
  · simp
  · simp
  · cases h : rep.presentModes <;> simp

theorem initSwapchain_apply (setup : Setup) (rep : SurfaceReport)
    (capabilities : VkSurfaceCapabilitiesKHR) (oldSwapchain : Handle) (w : World) :
    initSwapchain setup rep capabilities oldSwapchain w =
      match selectedCompositeAlpha capabilities with
      | none => .threw (.cString "Unknown composite alpha reported.")
          { w with trace := w.trace ++ [Event.initSwapchain capabilities oldSwapchain] }
      | some flag =>
        match selectedPresentMode rep.presentModes with
        | none => .threw (.cString "Bugged driver reports no supported present modes.")
            { w with trace := w.trace ++ [Event.initSwapchain capabilities oldSwapchain,
                Event.vkGetPhysicalDeviceSurfacePresentModesKHR] }
        | some m => .returned (written (rep.status .vkCreateSwapchainKHR) w.fresh)
            { w with
              fresh := w.fresh + 1
              trace := w.trace ++ [Event.initSwapchain capabilities oldSwapchain,
                Event.vkGetPhysicalDeviceSurfacePresentModesKHR,
                Event.vkCreateSwapchainKHR
                  (swapchainInfoOf setup capabilities flag m oldSwapchain)
                  (written (rep.status .vkCreateSwapchainKHR) w.fresh)] } := by
  unfold initSwapchain selectedCompositeAlpha
  simp only [bind_apply, emit_apply, andThen_returned]
  split_ifs <;>
    (simp only [pure_apply, andThen_returned, throwException_apply, andThen_threw,
      getSurfacePresentMode_apply, bind_apply]
     try (cases selectedPresentMode rep.presentModes <;> simp [swapchainInfoOf, *]))

theorem initPipeline_apply (setup : Setup) (rep : SurfaceReport) (limits : VkPhysicalDeviceLimits)
    (binding width height : Nat) (w : World) :
    initPipeline setup rep limits binding width height w =
      match pipelineError setup limits binding with
      | some e => .threw e w
      | none => .returned (written (rep.status .vkCreateGraphicsPipelines) w.fresh)
          { w with
            fresh := w.fresh + 1
            trace := w.trace ++ [Event.vkCreateGraphicsPipelines width height
              (written (rep.status .vkCreateGraphicsPipelines) w.fresh)] } := by
  unfold initPipeline pipelineError
  simp only [bind_apply, ite_apply]
  split_ifs <;> simp

theorem acquireCommandBuffers_apply (rep : SurfaceReport) (count : Nat)
    (commandBuffers : List Handle) (w : World) :
    acquireCommandBuffers rep count commandBuffers w
      = .returned
        (acquiredCommandBuffers (rep.status .vkAllocateCommandBuffers) count commandBuffers w.fresh)
        { w with
          fresh := w.fresh + (count - toUint32 commandBuffers.length)
          trace := w.trace
            ++ acquireEvents (rep.status .vkAllocateCommandBuffers) count commandBuffers w.fresh } := by
  unfold acquireCommandBuffers acquiredCommandBuffers acquireEvents
  simp only [bind_apply, ite_apply]
  by_cases h1 : count > toUint32 commandBuffers.length
  · have h2 : ¬ count < toUint32 commandBuffers.length := by omega
    simp [h1, h2, generate_n_newHandle]
  · by_cases h2 : count < toUint32 commandBuffers.length
    · have h3 : count - toUint32 commandBuffers.length = 0 := by omega
      simp [h1, h2, h3]
    · have h3 : count - toUint32 commandBuffers.length = 0 := by omega
      simp [h1, h2, h3]

theorem acquiredCommandBuffers_length (status : VkResult) (count : Nat)
    (commandBuffers : List Handle) (fresh : Nat) :
    count ≤ (acquiredCommandBuffers status count commandBuffers fresh).length := by
  unfold acquiredCommandBuffers
  have hmod : toUint32 commandBuffers.length ≤ commandBuffers.length := Nat.mod_le _ _
  split_ifs with h1 h2
  · simp [writeAt, resize]; omega
  · simp [resize]; omega
  · omega

theorem at_apply_of_lt (v : List Handle) (i : Nat) (h : i < v.length) (w : World) :
    at_ v i w = .returned (v.getD i VK_NULL_HANDLE) w := by
  simp [at_, List.getD, List.getElem?_eq_getElem h]

theorem at_apply_of_le (v : List Handle) (i : Nat) (h : v.length ≤ i) (w : World) :
    at_ v i w = .stopped .indexOutOfRange w := by
  have : v[i]? = none := by simp; omega
  simp [at_, this]

theorem forEach_record (rep : SurfaceReport) (surfaceSize : VkExtent2D) (indices : List Nat)
    (w : World)
    (h : ∀ i ∈ indices, i < w.commandBuffers.length ∧ i < w.framebuffers.length) :
    forEach indices (recordCommandBuffer rep surfaceSize) w = .returned ()
      { w with
        trace := w.trace ++ indices.flatMap fun i =>
          recordedEvents surfaceSize w.pipeline (w.commandBuffers.getD i VK_NULL_HANDLE)
            (w.framebuffers.getD i VK_NULL_HANDLE) } := by
  induction indices generalizing w with
  | nil => simp [forEach]
  | cons i rest ih =>
    have hi := h i (List.mem_cons_self _ _)
    have hrest : ∀ j ∈ rest, j < w.commandBuffers.length ∧ j < w.framebuffers.length :=
      fun j hj => h j (List.mem_cons_of_mem _ hj)
    simp only [forEach, bind_apply]
    have hstep : recordCommandBuffer rep surfaceSize i w = .returned ()
        { w with
          trace := w.trace ++ recordedEvents surfaceSize w.pipeline
            (w.commandBuffers.getD i VK_NULL_HANDLE) (w.framebuffers.getD i VK_NULL_HANDLE) } := by
      simp [recordCommandBuffer, at_apply_of_lt _ _ hi.1, at_apply_of_lt _ _ hi.2,
        beginCommandBuffer, endCommandBuffer, recordBeginRenderPass, recordBindPipeline,
        recordBindVertexBuffer, recordDraw, recordEndRenderPass, recordedEvents]
    rw [hstep, andThen_returned, ih]
    · simp [List.flatMap_cons]
    · simpa using hrest

theorem toUint32_imageCount (rep : SurfaceReport) : toUint32 (imageCount rep) = imageCount rep := by
  unfold toUint32 imageCount
  apply Nat.mod_eq_of_lt
  have : (rep.swapchainImages.take UINT32_MAX).length ≤ UINT32_MAX := by
    simp [List.length_take]
  simp only [UINT32_MAX] at this ⊢
  omega

theorem creatingNew_apply (setup : Setup) (rep : SurfaceReport)
    (capabilities : VkSurfaceCapabilitiesKHR) (surfaceSize : VkExtent2D) (oldSwapchain : Handle)
    (w : World) :
    creatingNew setup rep capabilities surfaceSize oldSwapchain w =
      match selectedCompositeAlpha capabilities with
      | none => .threw (.cString "Unknown composite alpha reported.")
          { w with trace := w.trace ++ [Event.initSwapchain capabilities oldSwapchain] }
      | some a =>
        match selectedPresentMode rep.presentModes with
        | none => .threw (.cString "Bugged driver reports no supported present modes.")
            { w with trace := w.trace ++ [Event.initSwapchain capabilities oldSwapchain,
                Event.vkGetPhysicalDeviceSurfacePresentModesKHR] }
        | some m =>
          match pipelineError setup setup.limits vertexBufferBinding with
          | some e => .threw e
              (framebuffersReady setup rep capabilities surfaceSize oldSwapchain a m w)
          | none => .returned ()
              (generationReady rep surfaceSize
                (framebuffersReady setup rep capabilities surfaceSize oldSwapchain a m w)) := by
  cases ha : selectedCompositeAlpha capabilities with
  | none => simp [creatingNew, initSwapchain_apply, ha]
  | some a =>
    cases hm : selectedPresentMode rep.presentModes with
    | none => simp [creatingNew, initSwapchain_apply, ha, hm]
    | some m =>
      cases hp : pipelineError setup setup.limits vertexBufferBinding with
      | some e =>
        have hn : (rep.swapchainImages.take UINT32_MAX).length = imageCount rep := rfl
        simp only [creatingNew, bind_apply, initSwapchain_apply, ha, hm, hp, andThen_returned,
          modifyWorld_apply, enumerateImages, emit_apply, pure_apply,
          initSwapchainImageViews_apply, initFramebuffers_apply, initPipeline_apply,
          writtenFrom_length, hn, andThen_threw]
        simp [framebuffersReady, Nat.add_assoc]
      | none =>
        have hn : (rep.swapchainImages.take UINT32_MAX).length = imageCount rep := rfl
        simp only [creatingNew, bind_apply, initSwapchain_apply, ha, hm, hp, andThen_returned,
          modifyWorld_apply, enumerateImages, emit_apply, pure_apply,
          initSwapchainImageViews_apply, initFramebuffers_apply, initPipeline_apply,
          getWorld_apply, acquireCommandBuffers_apply, writtenFrom_length, hn,
          toUint32_imageCount]
        rw [forEach_record]
        · simp [initSemaphores_apply, initFences_apply, generationReady, framebuffersReady,
            Nat.add_assoc]
        · intro i hi
          have hi2 : i < imageCount rep := by simpa using hi
          have := acquiredCommandBuffers_length (rep.status .vkAllocateCommandBuffers)
            (imageCount rep) w.commandBuffers (w.fresh + 1 + imageCount rep + imageCount rep + 1)
          simp only [writtenFrom_length]
          exact ⟨by omega, hi2⟩

theorem killOld_apply (oldSwapchain : Handle) (oldImageReadySs : List Handle) (w : World) :
    killOld oldSwapchain oldImageReadySs w = .returned ()
      { w with
        trace := w.trace
          ++ Event.vkDestroySwapchainKHR oldSwapchain
            :: oldImageReadySs.map Event.vkDestroySemaphore } := by
  simp [killOld, killSwapchain, killSemaphores, forEach_killSemaphore]

theorem recreateSwapchain_apply (setup : Setup) (rep : SurfaceReport) (w : World) :
    recreateSwapchain setup rep w =
      if swapchainCreatable (adjustedCapabilities rep).currentExtent (adjustedCapabilities rep)
          = true then
        (creatingNew setup rep (adjustedCapabilities rep) (adjustedCapabilities rep).currentExtent
          w.swapchain (prepared w)).andThen
          fun _ v => .returned (decide (v.swapchain ≠ VK_NULL_HANDLE)) (oldKilled w v)
      else .returned false (oldKilled w (prepared w)) := by
  have hsize : VkExtent2D.mk (adjustedCapabilities rep).currentExtent.width
      (adjustedCapabilities rep).currentExtent.height
      = (adjustedCapabilities rep).currentExtent := rfl
  have hadj : (if rep.capabilities.currentExtent.width = UINT32_MAX
        ∧ rep.capabilities.currentExtent.height = UINT32_MAX then
      { rep.capabilities with currentExtent := ⟨rep.windowWidth, rep.windowHeight⟩ }
    else rep.capabilities) = adjustedCapabilities rep := rfl
  unfold recreateSwapchain
  simp only [bind_apply, emit_apply, andThen_returned, getWorld_apply, modifyWorld_apply,
    getSurfaceCapabilities, RESULT_HANDLER_apply, pure_apply, ite_apply, hadj, hsize]
  by_cases hold : w.swapchain = VK_NULL_HANDLE <;>
  by_cases hc : swapchainCreatable (adjustedCapabilities rep).currentExtent
        (adjustedCapabilities rep) = true <;>
  simp [hold, hc, cleanupOld_apply, prepared, oldKilled, killOld_apply]
  · congr 1
  · congr 1
    funext _ v
    simp [killOld_apply]
  · simp [cleanedUp, VK_NULL_HANDLE]

theorem swapchainCreatable_iff (c : VkSurfaceCapabilitiesKHR) :
    swapchainCreatable c.currentExtent c = true ↔ c.extentInRange := by
  simp only [swapchainCreatable, VkSurfaceCapabilitiesKHR.extentInRange, Bool.and_eq_true,
    decide_eq_true_eq]
  constructor
  · rintro ⟨⟨⟨⟨⟨h1, h2⟩, h3⟩, h4⟩, h5⟩, h6⟩
    exact ⟨⟨h3, h6⟩, ⟨h1, h2⟩, ⟨h4, h5⟩⟩
  · rintro ⟨⟨h3, h6⟩, ⟨h1, h2⟩, ⟨h4, h5⟩⟩
    exact ⟨⟨⟨⟨⟨h1, h2⟩, h3⟩, h4⟩, h5⟩, h6⟩

theorem filter_map_eq_nil {α : Type} (p : Event → Bool) (f : α → Event)
    (h : ∀ x, p (f x) = false) (xs : List α) : (xs.map f).filter p = [] := by
  induction xs with
  | nil => rfl
  | cons x xs ih => simp [List.filter, h, ih]

theorem filter_zipWith_eq_nil {α β : Type} (p : Event → Bool) (f : α → β → Event)
    (h : ∀ x y, p (f x y) = false) (xs : List α) (ys : List β) :
    (List.zipWith f xs ys).filter p = [] := by
  induction xs generalizing ys with
  | nil => simp
  | cons x xs ih =>
    cases ys with
    | nil => simp
    | cons y ys => simp [List.filter, h, ih]

theorem filter_flatMap_eq_nil {α : Type} (p : Event → Bool) (f : α → List Event)
    (h : ∀ x, (f x).filter p = []) (xs : List α) : (xs.flatMap f).filter p = [] := by
  induction xs with
  | nil => rfl
  | cons x xs ih => simp [List.flatMap_cons, h, ih]

theorem filter_acquireEvents_eq_nil (p : Event → Bool)
    (h1 : ∀ n hs, p (Event.vkAllocateCommandBuffers n hs) = false)
    (h2 : ∀ hs, p (Event.vkFreeCommandBuffers hs) = false)
    (status : VkResult) (count : Nat) (commandBuffers : List Handle) (fresh : Nat) :
    (acquireEvents status count commandBuffers fresh).filter p = [] := by
  unfold acquireEvents
  split_ifs <;> simp [List.filter, h1, h2]

theorem recreateSwapchain_initSwapchain_calls (setup : Setup) (rep : SurfaceReport) (w : World) :
    ((recreateSwapchain setup rep w).added w).filter Event.isInitSwapchain
      = if (adjustedCapabilities rep).extentInRange then
          [Event.initSwapchain (adjustedCapabilities rep) w.swapchain]
        else [] := by
  rw [recreateSwapchain_apply, creatingNew_apply]
  by_cases hc : swapchainCreatable (adjustedCapabilities rep).currentExtent
      (adjustedCapabilities rep) = true
  · have hr := (swapchainCreatable_iff _).1 hc
    rw [if_pos hc, if_pos hr]
    cases selectedCompositeAlpha (adjustedCapabilities rep) with
    | none =>
      by_cases hold : w.swapchain = VK_NULL_HANDLE <;>
        simp [Outcome.added, Outcome.world, prepared, cleanedUp, hold, List.filter,
          Event.isInitSwapchain, filter_map_eq_nil]
    | some a =>
      cases selectedPresentMode rep.presentModes with
      | none =>
        by_cases hold : w.swapchain = VK_NULL_HANDLE <;>
          simp [Outcome.added, Outcome.world, prepared, cleanedUp, hold, List.filter,
            Event.isInitSwapchain, filter_map_eq_nil]
      | some m =>
        cases pipelineError setup setup.limits vertexBufferBinding with
        | some e =>
          by_cases hold : w.swapchain = VK_NULL_HANDLE <;>
            simp [Outcome.added, Outcome.world, prepared, cleanedUp, hold, List.filter,
              Event.isInitSwapchain, filter_map_eq_nil, framebuffersReady,
              filter_zipWith_eq_nil]
        | none =>
          by_cases hold : w.swapchain = VK_NULL_HANDLE <;>
            simp [Outcome.added, Outcome.world, prepared, cleanedUp, oldKilled, hold,
              List.filter, Event.isInitSwapchain, filter_map_eq_nil, framebuffersReady,
              generationReady, filter_zipWith_eq_nil, filter_flatMap_eq_nil,
              filter_acquireEvents_eq_nil, recordedEvents]
  · have hr := (not_congr (swapchainCreatable_iff _)).1 hc
    rw [if_neg hc, if_neg hr]
    by_cases hold : w.swapchain = VK_NULL_HANDLE <;>
      simp [Outcome.added, Outcome.world, prepared, cleanedUp, oldKilled, hold, List.filter,
        Event.isInitSwapchain, filter_map_eq_nil]

theorem recreateSwapchain_trace (setup : Setup) (rep : SurfaceReport) (w : World) :
    (recreateSwapchain setup rep w).world.trace
      = w.trace ++ (recreateSwapchain setup rep w).added w := by
  rw [recreateSwapchain_apply, creatingNew_apply]
  by_cases hc : swapchainCreatable (adjustedCapabilities rep).currentExtent
      (adjustedCapabilities rep) = true
  · rw [if_pos hc]
    cases selectedCompositeAlpha (adjustedCapabilities rep) with
    | none =>
      by_cases hold : w.swapchain = VK_NULL_HANDLE <;>
        simp [Outcome.added, Outcome.world, prepared, cleanedUp, hold]
    | some a =>
      cases selectedPresentMode rep.presentModes with
      | none =>
        by_cases hold : w.swapchain = VK_NULL_HANDLE <;>
          simp [Outcome.added, Outcome.world, prepared, cleanedUp, hold]
      | some m =>
        cases pipelineError setup setup.limits vertexBufferBinding with
        | some e =>
          by_cases hold : w.swapchain = VK_NULL_HANDLE <;>
            simp [Outcome.added, Outcome.world, prepared, cleanedUp, hold, framebuffersReady]
        | none =>
          by_cases hold : w.swapchain = VK_NULL_HANDLE <;>
            simp [Outcome.added, Outcome.world, prepared, cleanedUp, oldKilled, hold,
              framebuffersReady, generationReady]
  · rw [if_neg hc]
    by_cases hold : w.swapchain = VK_NULL_HANDLE <;>
      simp [Outcome.added, Outcome.world, prepared, cleanedUp, oldKilled, hold]

theorem added_of_trace_eq {α : Type} (o : Outcome α) (w : World) (seg : List Event)
    (h : o.world.trace = w.trace ++ seg) : o.added w = seg := by
  simp [Outcome.added, h]

theorem recreateSwapchain_initSwapchain_inRange (setup : Setup) (rep : SurfaceReport) (w : World)
    (c : VkSurfaceCapabilitiesKHR) (old : Handle)
    (h : Event.initSwapchain c old ∈ (recreateSwapchain setup rep w).added w) :
    c.extentInRange := by
  have hmem : Event.initSwapchain c old
      ∈ ((recreateSwapchain setup rep w).added w).filter Event.isInitSwapchain :=
    List.mem_filter.2 ⟨h, rfl⟩
  rw [recreateSwapchain_initSwapchain_calls] at hmem
  by_cases hr : (adjustedCapabilities rep).extentInRange
  · rw [if_pos hr] at hmem
    have heq := List.mem_singleton.1 hmem
    injection heq with h1 h2
    rw [h1]
    exact hr
  · rw [if_neg hr] at hmem
    cases hmem

theorem recreateSwapchains_segment (setup : Setup) (reps : List SurfaceReport) (w : World) :
    ∃ seg, (recreateSwapchains setup reps w).world.trace = w.trace ++ seg
      ∧ ∀ c old, Event.initSwapchain c old ∈ seg → c.extentInRange := by
  induction reps generalizing w with
  | nil => exact ⟨[], by simp [recreateSwapchains, Outcome.world], by simp⟩
  | cons rep reps ih =>
    have htr := recreateSwapchain_trace setup rep w
    have hin := recreateSwapchain_initSwapchain_inRange setup rep w
    simp only [recreateSwapchains, bind_apply]
    cases hrun : recreateSwapchain setup rep w with
    | returned b w1 =>
      rw [hrun] at htr hin
      obtain ⟨seg, hseg, hok⟩ := ih w1
      refine ⟨(Outcome.returned b w1).added w ++ seg, ?_, ?_⟩
      · rw [andThen_returned, hseg]
        simp only [Outcome.world] at htr
        rw [htr]
        simp [Outcome.added, Outcome.world]
      · intro c old hmem
        rcases List.mem_append.1 hmem with h | h
        · exact hin c old h
        · exact hok c old h
    | threw e w1 =>
      rw [hrun] at htr hin
      exact ⟨(Outcome.threw e w1 : Outcome Bool).added w, by simpa [Outcome.world] using htr,
        fun c old h => hin c old h⟩
    | stopped s w1 =>
      rw [hrun] at htr hin
      exact ⟨(Outcome.stopped s w1 : Outcome Bool).added w, by simpa [Outcome.world] using htr,
        fun c old h => hin c old h⟩

/-- C1: one call of `recreateSwapchain` calls `initSwapchain` exactly when the
extent it computed is nonzero and within the reported range (then once, with
that extent and the previous swap chain), and over any sequence of calls every
call of `initSwapchain` has such an extent. -/
theorem C1_initSwapchain_iff_extent_in_range (setup : Setup) :
    (∀ (rep : SurfaceReport) (w : World),
      ((recreateSwapchain setup rep w).added w).filter Event.isInitSwapchain
        = if (adjustedCapabilities rep).extentInRange then
            [Event.initSwapchain (adjustedCapabilities rep) w.swapchain]
          else [])
    ∧ (∀ (reps : List SurfaceReport) (w : World) (c : VkSurfaceCapabilitiesKHR) (old : Handle),
      Event.initSwapchain c old ∈ (recreateSwapchains setup reps w).added w →
        c.extentInRange) := by
  refine ⟨recreateSwapchain_initSwapchain_calls setup, ?_⟩
  intro reps w c old h
  obtain ⟨seg, hseg, hok⟩ := recreateSwapchains_segment setup reps w
  rw [added_of_trace_eq _ _ _ hseg] at h
  exact hok c old h

/-! ### Fields of the closed forms -/

section projections
variable (setup : Setup) (rep : SurfaceReport) (capabilities : VkSurfaceCapabilitiesKHR)
  (surfaceSize : VkExtent2D) (oldSwapchain : Handle) (a m : Nat) (w v : World)

@[simp]
theorem oldKilled_swapchain : (oldKilled w v).swapchain = v.swapchain := by
  unfold oldKilled; split_ifs <;> rfl
@[simp]
theorem oldKilled_swapchainImageViews :
    (oldKilled w v).swapchainImageViews = v.swapchainImageViews := by
  unfold oldKilled; split_ifs <;> rfl
@[simp]
theorem oldKilled_framebuffers : (oldKilled w v).framebuffers = v.framebuffers := by
  unfold oldKilled; split_ifs <;> rfl
@[simp]
theorem oldKilled_pipeline : (oldKilled w v).pipeline = v.pipeline := by
  unfold oldKilled; split_ifs <;> rfl
@[simp]
theorem oldKilled_commandBuffers : (oldKilled w v).commandBuffers = v.commandBuffers := by
  unfold oldKilled; split_ifs <;> rfl
@[simp]
theorem oldKilled_imageReadySs : (oldKilled w v).imageReadySs = v.imageReadySs := by
  unfold oldKilled; split_ifs <;> rfl
@[simp]
theorem oldKilled_renderDoneSs : (oldKilled w v).renderDoneSs = v.renderDoneSs := by
  unfold oldKilled; split_ifs <;> rfl
@[simp]
theorem oldKilled_submissionNr : (oldKilled w v).submissionNr = v.submissionNr := by
  unfold oldKilled; split_ifs <;> rfl
@[simp]
theorem oldKilled_submissionFences :
    (oldKilled w v).submissionFences = v.submissionFences := by
  unfold oldKilled; split_ifs <;> rfl
@[simp]
theorem oldKilled_fresh : (oldKilled w v).fresh = v.fresh := by
  unfold oldKilled; split_ifs <;> rfl

@[simp]
theorem prepared_swapchain : (prepared w).swapchain = VK_NULL_HANDLE := by
  unfold prepared cleanedUp; split_ifs <;> rfl
@[simp]
theorem prepared_imageReadySs : (prepared w).imageReadySs = [] := by
  unfold prepared cleanedUp; split_ifs <;> rfl
@[simp]
theorem prepared_pipeline : (prepared w).pipeline = w.pipeline := by
  unfold prepared cleanedUp; split_ifs <;> rfl
@[simp]
theorem prepared_commandBuffers : (prepared w).commandBuffers = w.commandBuffers := by
  unfold prepared cleanedUp; split_ifs <;> rfl
@[simp]
theorem prepared_submissionNr : (prepared w).submissionNr = w.submissionNr := by
  unfold prepared cleanedUp; split_ifs <;> rfl
@[simp]
theorem prepared_fresh : (prepared w).fresh = w.fresh := by
  unfold prepared cleanedUp; split_ifs <;> rfl
theorem prepared_submissionFences :
    (prepared w).submissionFences
      = if w.swapchain ≠ VK_NULL_HANDLE then [] else w.submissionFences := by
  unfold prepared cleanedUp; split_ifs <;> rfl
theorem prepared_renderDoneSs :
    (prepared w).renderDoneSs = if w.swapchain ≠ VK_NULL_HANDLE then [] else w.renderDoneSs := by
  unfold prepared cleanedUp; split_ifs <;> rfl
theorem prepared_framebuffers :
    (prepared w).framebuffers = if w.swapchain ≠ VK_NULL_HANDLE then [] else w.framebuffers := by
  unfold prepared cleanedUp; split_ifs <;> rfl
theorem prepared_swapchainImageViews :
    (prepared w).swapchainImageViews
      = if w.swapchain ≠ VK_NULL_HANDLE then [] else w.swapchainImageViews := by
  unfold prepared cleanedUp; split_ifs <;> rfl

@[simp]
theorem framebuffersReady_swapchain :
    (framebuffersReady setup rep capabilities surfaceSize oldSwapchain a m w).swapchain
      = written (rep.status .vkCreateSwapchainKHR) w.fresh := rfl
@[simp]
theorem framebuffersReady_submissionNr :
    (framebuffersReady setup rep capabilities surfaceSize oldSwapchain a m w).submissionNr
      = w.submissionNr := rfl
@[simp]
theorem framebuffersReady_submissionFences :
    (framebuffersReady setup rep capabilities surfaceSize oldSwapchain a m w).submissionFences
      = w.submissionFences := rfl
@[simp]
theorem framebuffersReady_imageReadySs :
    (framebuffersReady setup rep capabilities surfaceSize oldSwapchain a m w).imageReadySs
      = w.imageReadySs := rfl
@[simp]
theorem framebuffersReady_renderDoneSs :
    (framebuffersReady setup rep capabilities surfaceSize oldSwapchain a m w).renderDoneSs
      = w.renderDoneSs := rfl
@[simp]
theorem framebuffersReady_commandBuffers :
    (framebuffersReady setup rep capabilities surfaceSize oldSwapchain a m w).commandBuffers
      = w.commandBuffers := rfl
@[simp]
theorem framebuffersReady_framebuffers_length :
    (framebuffersReady setup rep capabilities surfaceSize oldSwapchain a m w).framebuffers.length
      = imageCount rep := by
  simp [framebuffersReady]
@[simp]
theorem framebuffersReady_swapchainImageViews_length :
    (framebuffersReady setup rep capabilities surfaceSize oldSwapchain a m
      w).swapchainImageViews.length = imageCount rep := by
  simp [framebuffersReady]

@[simp]
theorem generationReady_swapchain :
    (generationReady rep surfaceSize v).swapchain = v.swapchain := rfl
@[simp]
theorem generationReady_submissionNr :
    (generationReady rep surfaceSize v).submissionNr = 0 := rfl
@[simp]
theorem generationReady_framebuffers :
    (generationReady rep surfaceSize v).framebuffers = v.framebuffers := rfl
@[simp]
theorem generationReady_swapchainImageViews :
    (generationReady rep surfaceSize v).swapchainImageViews = v.swapchainImageViews := rfl
@[simp]
theorem generationReady_imageReadySs :
    (generationReady rep surfaceSize v).imageReadySs
      = writtenFrom (rep.status .vkCreateSemaphore)
          (v.fresh + 1 + (imageCount rep - toUint32 v.commandBuffers.length))
          maxInflightSubmissions := rfl
@[simp]
theorem generationReady_renderDoneSs :
    (generationReady rep surfaceSize v).renderDoneSs
      = writtenFrom (rep.status .vkCreateSemaphore)
          (v.fresh + 1 + (imageCount rep - toUint32 v.commandBuffers.length)
            + maxInflightSubmissions) (imageCount rep) := rfl
@[simp]
theorem generationReady_submissionFences :
    (generationReady rep surfaceSize v).submissionFences
      = writtenFrom (rep.status .vkCreateFence)
          (v.fresh + 1 + (imageCount rep - toUint32 v.commandBuffers.length)
            + maxInflightSubmissions + imageCount rep) maxInflightSubmissions := rfl
@[simp]
theorem generationReady_commandBuffers :
    (generationReady rep surfaceSize v).commandBuffers
      = acquiredCommandBuffers (rep.status .vkAllocateCommandBuffers) (imageCount rep)
          v.commandBuffers (v.fresh + 1) := rfl

end projections

theorem adjustedCapabilities_supportedCompositeAlpha (rep : SurfaceReport) :
    (adjustedCapabilities rep).supportedCompositeAlpha
      = rep.capabilities.supportedCompositeAlpha := by
  unfold adjustedCapabilities
  split_ifs <;> rfl

theorem creationSucceeds_selected (setup : Setup) (rep : SurfaceReport)
    (h : creationSucceeds setup rep) :
    (∃ a, selectedCompositeAlpha (adjustedCapabilities rep) = some a)
      ∧ (∃ m, selectedPresentMode rep.presentModes = some m)
      ∧ pipelineError setup setup.limits vertexBufferBinding = none
      ∧ ∀ fresh, written (rep.status .vkCreateSwapchainKHR) fresh = fresh + 1 := by
  obtain ⟨halpha, hmodes, ⟨hl1, hl2, hl3, hl4⟩, hst⟩ := h
  refine ⟨?_, ?_, ?_, ?_⟩
  · unfold selectedCompositeAlpha
    rw [adjustedCapabilities_supportedCompositeAlpha]
    split_ifs with h1 h2 h3 h4
    · exact ⟨_, rfl⟩
    · exact ⟨_, rfl⟩
    · exact ⟨_, rfl⟩
    · exact ⟨_, rfl⟩
    · rcases halpha with h | h | h | h <;> contradiction
  · unfold selectedPresentMode
    split_ifs
    · exact ⟨_, rfl⟩
    · exact ⟨_, rfl⟩
    · cases hm : rep.presentModes with
      | nil => exact absurd hm hmodes
      | cons m ms => exact ⟨m, rfl⟩
  · unfold pipelineError
    simp only [vertexBufferBinding]
    split_ifs <;> first | rfl | omega
  · intro fresh
    simp [written, hst]

theorem recreateSwapchain_of_not_inRange (setup : Setup) (rep : SurfaceReport) (w : World)
    (h : ¬ (adjustedCapabilities rep).extentInRange) :
    recreateSwapchain setup rep w = .returned false (oldKilled w (prepared w)) := by
  rw [recreateSwapchain_apply, if_neg ((not_congr (swapchainCreatable_iff _)).2 h)]

theorem recreateSwapchain_of_creationSucceeds (setup : Setup) (rep : SurfaceReport) (w : World)
    (h : (adjustedCapabilities rep).extentInRange) (hs : creationSucceeds setup rep) :
    ∃ a m, recreateSwapchain setup rep w = .returned true
      (oldKilled w (generationReady rep (adjustedCapabilities rep).currentExtent
        (framebuffersReady setup rep (adjustedCapabilities rep)
          (adjustedCapabilities rep).currentExtent w.swapchain a m (prepared w)))) := by
  obtain ⟨⟨a, ha⟩, ⟨m, hm⟩, hp, hw⟩ := creationSucceeds_selected setup rep hs
  refine ⟨a, m, ?_⟩
  rw [recreateSwapchain_apply, if_pos ((swapchainCreatable_iff _).2 h), creatingNew_apply, ha, hm,
    hp]
  simp [generationReady, framebuffersReady, hw, VK_NULL_HANDLE]

theorem recreateSwapchain_not_creatable (setup : Setup) (rep : SurfaceReport) (w : World)
    (h : ¬ (adjustedCapabilities rep).extentInRange) :
    ∃ w1, recreateSwapchain setup rep w = .returned false w1
      ∧ w1.swapchain = VK_NULL_HANDLE
      ∧ ((recreateSwapchain setup rep w).added w).filter Event.isCreation = [] := by
  refine ⟨_, recreateSwapchain_of_not_inRange setup rep w h, ?_, ?_⟩
  · simp
  · rw [recreateSwapchain_of_not_inRange setup rep w h]
    by_cases hold : w.swapchain = VK_NULL_HANDLE <;>
      simp [Outcome.added, Outcome.world, prepared, cleanedUp, oldKilled, hold, List.filter,
        Event.isCreation, filter_map_eq_nil]

theorem recreateSwapchain_creatable (setup : Setup) (rep : SurfaceReport) (w : World)
    (h : (adjustedCapabilities rep).extentInRange) (hs : creationSucceeds setup rep) :
    ∃ w1, recreateSwapchain setup rep w = .returned true w1
      ∧ w1.swapchain ≠ VK_NULL_HANDLE
      ∧ ∃ info, Event.vkCreateSwapchainKHR info w1.swapchain
          ∈ (recreateSwapchain setup rep w).added w := by
  obtain ⟨a, m, hrun⟩ := recreateSwapchain_of_creationSucceeds setup rep w h hs
  have hw := (creationSucceeds_selected setup rep hs).2.2.2
  refine ⟨_, hrun, ?_, swapchainInfoOf setup (adjustedCapabilities rep) a m w.swapchain, ?_⟩
  · simp [hw, VK_NULL_HANDLE]
  · rw [hrun]
    by_cases hold : w.swapchain = VK_NULL_HANDLE <;>
      simp [Outcome.added, Outcome.world, oldKilled, generationReady, framebuffersReady,
        prepared, cleanedUp, hold, hw]

theorem renderTry_apply (setup : Setup) (rep : FrameReport) (w : World) :
    renderTry setup rep w =
      if w.submissionNr < w.submissionFences.length then
        if w.submissionNr < w.imageReadySs.length then
          if rep.imageIndex < w.commandBuffers.length ∧ rep.imageIndex < w.renderDoneSs.length then
            .returned ()
              { w with
                unsafeSemaphore := false
                submissionNr := (w.submissionNr + 1) % maxInflightSubmissions
                trace := w.trace ++ frameEvents setup rep w }
          else
            .stopped .indexOutOfRange
              { w with
                unsafeSemaphore := false
                trace := w.trace ++ (frameEvents setup rep w).take 3 }
        else
          .stopped .indexOutOfRange
            { w with
              unsafeSemaphore := true
              trace := w.trace ++ (frameEvents setup rep w).take 2 }
      else .stopped .indexOutOfRange w := by
  unfold renderTry
  simp only [bind_apply, getWorld_apply, andThen_returned]
  by_cases h1 : w.submissionNr < w.submissionFences.length
  · rw [if_pos h1]
    simp only [at_apply_of_lt _ _ h1, andThen_returned, emit_apply, RESULT_HANDLER_apply,
      modifyWorld_apply, bind_apply]
    by_cases h2 : w.submissionNr < w.imageReadySs.length
    · rw [if_pos h2]
      simp only [at_apply_of_lt _ _ h2, andThen_returned, getNextImageIndex, bind_apply,
        emit_apply, RESULT_HANDLER_apply, pure_apply, modifyWorld_apply]
      by_cases h3 : rep.imageIndex < w.commandBuffers.length
      · simp only [at_apply_of_lt _ _ h3, andThen_returned, bind_apply]
        by_cases h4 : rep.imageIndex < w.renderDoneSs.length
        · rw [if_pos ⟨h3, h4⟩]
          simp [at_apply_of_lt _ _ h4, at_apply_of_lt _ _ h1, at_apply_of_lt _ _ h2,
            submitToQueue, present, frameEvents]
        · rw [if_neg (fun h => h4 h.2)]
          simp [at_apply_of_le _ _ (Nat.le_of_not_lt h4), at_apply_of_lt _ _ h1,
            at_apply_of_lt _ _ h2, frameEvents]
      · rw [if_neg (fun h => h3 h.1)]
        simp [at_apply_of_le _ _ (Nat.le_of_not_lt h3), frameEvents]
    · rw [if_neg h2]
      simp [at_apply_of_le _ _ (Nat.le_of_not_lt h2), frameEvents]
  · rw [if_neg h1]
    simp [at_apply_of_le _ _ (Nat.le_of_not_lt h1)]

theorem renderTry_orCatch (setup : Setup) (rep : FrameReport) (w : World)
    (handler : Exception → M Unit) :
    (renderTry setup rep w).orCatch handler = renderTry setup rep w := by
  rw [renderTry_apply]
  split_ifs <;> rfl

theorem render_apply (setup : Setup) (fuel : Nat) (reports : Nat → FrameReport) (w : World) :
    render setup (fuel + 1) reports w =
      if w.swapchain = VK_NULL_HANDLE then
        .stopped .assertionFailed { w with trace := w.trace ++ [Event.render] }
      else renderTry setup (reports 0) (renderEntered w) := by
  unfold render
  simp only [bind_apply, emit_apply, andThen_returned, getWorld_apply, ite_apply, stop_apply,
    pure_apply, modifyWorld_apply]
  split_ifs <;> simp [renderEntered, renderTry_orCatch]

theorem filter_map_eq_self {α : Type} (p : Event → Bool) (f : α → Event)
    (h : ∀ x, p (f x) = true) (xs : List α) : (xs.map f).filter p = xs.map f := by
  induction xs with
  | nil => rfl
  | cons x xs ih => simp [List.filter, h, ih]

theorem adjustedCapabilities_of_width_ne (rep : SurfaceReport)
    (h : rep.capabilities.currentExtent.width ≠ UINT32_MAX) :
    adjustedCapabilities rep = rep.capabilities := by
  unfold adjustedCapabilities
  rw [if_neg (fun hh => h hh.1)]

theorem recreateSwapchain_returned_true (setup : Setup) (rep : SurfaceReport) (w w1 : World)
    (h : recreateSwapchain setup rep w = .returned true w1) :
    ∃ a m, w1 = oldKilled w (generationReady rep (adjustedCapabilities rep).currentExtent
      (framebuffersReady setup rep (adjustedCapabilities rep)
        (adjustedCapabilities rep).currentExtent w.swapchain a m (prepared w))) := by
  rw [recreateSwapchain_apply, creatingNew_apply] at h
  split_ifs at h
  · cases ha : selectedCompositeAlpha (adjustedCapabilities rep) with
    | none => rw [ha] at h; cases h
    | some a =>
      cases hm : selectedPresentMode rep.presentModes with
      | none => rw [ha, hm] at h; cases h
      | some m =>
        cases hp : pipelineError setup setup.limits vertexBufferBinding with
        | some e => rw [ha, hm, hp] at h; cases h
        | none =>
          rw [ha, hm, hp] at h
          simp only [andThen_returned] at h
          injection h with _ h2
          exact ⟨a, m, h2.symm⟩
  · injection h with h1 _
    cases h1

/-- C3 (amended): from a state without swap chain, three calls of `recreateSwapchain` on
extents 800 x 800, 0 x 0 and 640 x 480 (the first and the last admitted by the
reported limits, the platform letting creation succeed) return true, false and
true; `swapchain` is non-null after the first, null after the second and
non-null after the third, and the third call calls `initSwapchain` once. -/
theorem C3_resize_to_zero_and_back (setup : Setup) (r1 r2 r3 : SurfaceReport) (w0 : World)
    (hw : w0.swapchain = VK_NULL_HANDLE)
    (h1 : r1.capabilities.currentExtent = ⟨800, 800⟩)
    (h2 : r2.capabilities.currentExtent = ⟨0, 0⟩)
    (h3 : r3.capabilities.currentExtent = ⟨640, 480⟩)
    (hr1 : r1.capabilities.extentInRange) (hr3 : r3.capabilities.extentInRange)
    (hs1 : creationSucceeds setup r1) (hs3 : creationSucceeds setup r3) :
    ∃ w1 w2 w3,
      recreateSwapchain setup r1 w0 = .returned true w1 ∧ w1.swapchain ≠ VK_NULL_HANDLE
      ∧ recreateSwapchain setup r2 w1 = .returned false w2 ∧ w2.swapchain = VK_NULL_HANDLE
      ∧ recreateSwapchain setup r3 w2 = .returned true w3 ∧ w3.swapchain ≠ VK_NULL_HANDLE
      ∧ ((recreateSwapchain setup r1 w0).added w0).filter Event.isInitSwapchain
          = [Event.initSwapchain r1.capabilities VK_NULL_HANDLE]
      ∧ ((recreateSwapchain setup r2 w1).added w1).filter Event.isInitSwapchain = []
      ∧ ((recreateSwapchain setup r3 w2).added w2).filter Event.isInitSwapchain
          = [Event.initSwapchain r3.capabilities VK_NULL_HANDLE] := by
  have e1 : adjustedCapabilities r1 = r1.capabilities :=
    adjustedCapabilities_of_width_ne r1 (by rw [h1]; decide)
  have e2 : adjustedCapabilities r2 = r2.capabilities :=
    adjustedCapabilities_of_width_ne r2 (by rw [h2]; decide)
  have e3 : adjustedCapabilities r3 = r3.capabilities :=
    adjustedCapabilities_of_width_ne r3 (by rw [h3]; decide)
  have n2 : ¬ (adjustedCapabilities r2).extentInRange := by
    rw [e2]
    intro h
    have := h.1.1
    rw [h2] at this
    exact Nat.lt_irrefl 0 this
  obtain ⟨w1, hrun1, hsc1, -⟩ :=
    recreateSwapchain_creatable setup r1 w0 (by rw [e1]; exact hr1) hs1
  obtain ⟨w2, hrun2, hsc2, -⟩ := recreateSwapchain_not_creatable setup r2 w1 n2
  obtain ⟨w3, hrun3, hsc3, -⟩ :=
    recreateSwapchain_creatable setup r3 w2 (by rw [e3]; exact hr3) hs3
  refine ⟨w1, w2, w3, hrun1, hsc1, hrun2, hsc2, hrun3, hsc3, ?_, ?_, ?_⟩
  · rw [recreateSwapchain_initSwapchain_calls, e1, if_pos hr1, hw]
  · rw [recreateSwapchain_initSwapchain_calls, if_neg n2]
  · rw [recreateSwapchain_initSwapchain_calls, e3, if_pos hr3, hsc2]

/-- The scenario of C3 on the example platform, started from the initial state. -/
theorem C3_resize_to_zero_and_back_witness :
    ∃ w1 w2 w3,
      recreateSwapchain exampleSetup (exampleReport 800 800) World.initial = .returned true w1
      ∧ w1.swapchain ≠ VK_NULL_HANDLE
      ∧ recreateSwapchain exampleSetup (exampleReport 0 0) w1 = .returned false w2
      ∧ w2.swapchain = VK_NULL_HANDLE
      ∧ recreateSwapchain exampleSetup (exampleReport 640 480) w2 = .returned true w3
      ∧ w3.swapchain ≠ VK_NULL_HANDLE
      ∧ ((recreateSwapchain exampleSetup (exampleReport 800 800) World.initial).added
            World.initial).filter Event.isInitSwapchain
          = [Event.initSwapchain (exampleReport 800 800).capabilities VK_NULL_HANDLE]
      ∧ ((recreateSwapchain exampleSetup (exampleReport 0 0) w1).added w1).filter
            Event.isInitSwapchain = []
      ∧ ((recreateSwapchain exampleSetup (exampleReport 640 480) w2).added w2).filter
            Event.isInitSwapchain
          = [Event.initSwapchain (exampleReport 640 480).capabilities VK_NULL_HANDLE] :=
  C3_resize_to_zero_and_back exampleSetup (exampleReport 800 800) (exampleReport 0 0)
    (exampleReport 640 480) World.initial rfl rfl rfl rfl (by decide) (by decide) (by decide)
    (by decide)

/-- C3 fails as stated. With extents 800 x 800, 0 x 0 and 640 x 480, the first
and the last within the reported limits, and a driver that reports no present
mode, the first call does not return true: `getSurfacePresentMode` throws. -/
theorem C3_scenario_creation_throws :
    (exampleNoPresentMode 800 800).capabilities.currentExtent = ⟨800, 800⟩
      ∧ (exampleNoPresentMode 0 0).capabilities.currentExtent = ⟨0, 0⟩
      ∧ (exampleNoPresentMode 640 480).capabilities.currentExtent = ⟨640, 480⟩
      ∧ (exampleNoPresentMode 800 800).capabilities.extentInRange
      ∧ (exampleNoPresentMode 640 480).capabilities.extentInRange
      ∧ World.initial.swapchain = VK_NULL_HANDLE
      ∧ ∃ w1, recreateSwapchain exampleSetup (exampleNoPresentMode 800 800) World.initial
          = .threw (.cString "Bugged driver reports no supported present modes.") w1 :=
  ⟨rfl, rfl, rfl, by decide, by decide, rfl,
    (recreateSwapchain exampleSetup (exampleNoPresentMode 800 800) World.initial).world,
    by decide!⟩

/-- A sequence of C1 with one call, on a window of 640 x 480. -/
theorem C1_initSwapchain_iff_extent_in_range_witness :
    Event.initSwapchain (exampleReport 640 480).capabilities VK_NULL_HANDLE
        ∈ (recreateSwapchains exampleSetup [exampleReport 640 480] World.initial).added
            World.initial
      ∧ (exampleReport 640 480).capabilities.extentInRange :=
  ⟨by decide!,
    (C1_initSwapchain_iff_extent_in_range exampleSetup).2 [exampleReport 640 480] World.initial
      (exampleReport 640 480).capabilities VK_NULL_HANDLE (by decide!)⟩

theorem recreateSwapchain_fences_created (setup : Setup) (rep : SurfaceReport) (w w1 : World)
    (h : recreateSwapchain setup rep w = .returned true w1) :
    ((recreateSwapchain setup rep w).added w).filter Event.isFenceCreation
      = w1.submissionFences.map (Event.vkCreateFence VK_FENCE_CREATE_SIGNALED_BIT) := by
  obtain ⟨a, m, hw1⟩ := recreateSwapchain_returned_true setup rep w w1 h
  rw [h, hw1]
  by_cases hold : w.swapchain = VK_NULL_HANDLE <;>
    simp [Outcome.added, Outcome.world, oldKilled, generationReady, framebuffersReady, prepared,
      cleanedUp, hold, List.filter, Event.isFenceCreation, filter_map_eq_nil,
      filter_zipWith_eq_nil, filter_flatMap_eq_nil, filter_acquireEvents_eq_nil, recordedEvents,
      filter_map_eq_self, writtenFrom, maxInflightSubmissions]

/-- C4: after a call of `recreateSwapchain` that returns true, `renderDoneSs`
has one semaphore per image of the new swap chain (as many as there are image
views), `imageReadySs` and `submissionFences` have `maxInflightSubmissions` = 2
elements each, and the fences created during the call are exactly the ones in
`submissionFences`, each created with `VK_FENCE_CREATE_SIGNALED_BIT`. -/
theorem C4_sync_objects_after_recreation (setup : Setup) (rep : SurfaceReport) (w w1 : World)
    (h : recreateSwapchain setup rep w = .returned true w1) :
    w1.renderDoneSs.length = imageCount rep
      ∧ w1.renderDoneSs.length = w1.swapchainImageViews.length
      ∧ w1.imageReadySs.length = maxInflightSubmissions
      ∧ w1.submissionFences.length = maxInflightSubmissions
      ∧ maxInflightSubmissions = 2
      ∧ ((recreateSwapchain setup rep w).added w).filter Event.isFenceCreation
          = w1.submissionFences.map (Event.vkCreateFence VK_FENCE_CREATE_SIGNALED_BIT) := by
  refine ⟨?_, ?_, ?_, ?_, rfl, recreateSwapchain_fences_created setup rep w w1 h⟩ <;>
    (obtain ⟨a, m, hw1⟩ := recreateSwapchain_returned_true setup rep w w1 h
     rw [hw1]
     simp)

/-- The first recreation of C4 on the example platform. -/
theorem C4_sync_objects_after_recreation_witness :
    exampleActive.renderDoneSs.length = imageCount (exampleReport 800 800)
      ∧ exampleActive.renderDoneSs.length = exampleActive.swapchainImageViews.length
      ∧ exampleActive.imageReadySs.length = maxInflightSubmissions
      ∧ exampleActive.submissionFences.length = maxInflightSubmissions
      ∧ maxInflightSubmissions = 2
      ∧ ((recreateSwapchain exampleSetup (exampleReport 800 800) World.initial).added
            World.initial).filter Event.isFenceCreation
          = exampleActive.submissionFences.map
              (Event.vkCreateFence VK_FENCE_CREATE_SIGNALED_BIT) :=
  C4_sync_objects_after_recreation exampleSetup (exampleReport 800 800) World.initial
    exampleActive (by decide!)

/-! ### The frame slot -/

theorem recreateSwapchain_slot (setup : Setup) (rep : SurfaceReport) (w : World)
    (h : w.submissionNr < 2 ∧ w.submissionFences.length ≤ 2) :
    (recreateSwapchain setup rep w).world.submissionNr < 2
      ∧ (recreateSwapchain setup rep w).world.submissionFences.length ≤ 2 := by
  have hf : (prepared w).submissionFences.length ≤ 2 := by
    rw [prepared_submissionFences]
    split_ifs
    · simp
    · exact h.2
  rw [recreateSwapchain_apply, creatingNew_apply]
  split_ifs
  · cases selectedCompositeAlpha (adjustedCapabilities rep) with
    | none => exact ⟨by simpa [Outcome.world] using h.1, by simpa [Outcome.world] using hf⟩
    | some a =>
      cases selectedPresentMode rep.presentModes with
      | none => exact ⟨by simpa [Outcome.world] using h.1, by simpa [Outcome.world] using hf⟩
      | some m =>
        cases pipelineError setup setup.limits vertexBufferBinding with
        | some e => exact ⟨by simpa [Outcome.world] using h.1, by simpa [Outcome.world] using hf⟩
        | none => simp [Outcome.world, maxInflightSubmissions]
  · exact ⟨by simpa [Outcome.world] using h.1, by simpa [Outcome.world] using hf⟩

theorem render_slot (setup : Setup) (fuel : Nat) (reports : Nat → FrameReport) (w : World)
    (h : w.submissionNr < 2 ∧ w.submissionFences.length ≤ 2) :
    (render setup fuel reports w).world.submissionNr < 2
      ∧ (render setup fuel reports w).world.submissionFences.length ≤ 2 := by
  cases fuel with
  | zero => exact h
  | succ fuel =>
    rw [render_apply, renderTry_apply]
    have hmod : (w.submissionNr + 1) % maxInflightSubmissions < 2 := Nat.mod_lt _ (by decide)
    split_ifs <;> first
      | exact h
      | exact ⟨by simpa [Outcome.world, renderEntered] using hmod,
          by simpa [Outcome.world, renderEntered] using h.2⟩

theorem performAll_slot (setup : Setup) (actions : List Action) (w : World)
    (h : w.submissionNr < 2 ∧ w.submissionFences.length ≤ 2) :
    (performAll setup actions w).world.submissionNr < 2
      ∧ (performAll setup actions w).world.submissionFences.length ≤ 2 := by
  induction actions generalizing w with
  | nil => exact h
  | cons a rest ih =>
    have hstep : (a.perform setup w).world.submissionNr < 2
        ∧ (a.perform setup w).world.submissionFences.length ≤ 2 := by
      cases a with
      | recreateSwapchain rep =>
        have := recreateSwapchain_slot setup rep w h
        simp only [Action.perform, bind_apply]
        cases hrun : recreateSwapchain setup rep w <;> rw [hrun] at this <;> exact this
      | render fuel reports => exact render_slot setup fuel reports w h
    simp only [performAll, bind_apply]
    cases hrun : a.perform setup w with
    | returned u w1 =>
      rw [hrun] at hstep
      exact ih w1 hstep
    | threw e w1 => rw [hrun] at hstep; exact hstep
    | stopped st w1 => rw [hrun] at hstep; exact hstep

theorem render_returned_slot (setup : Setup) (fuel : Nat) (reports : Nat → FrameReport)
    (w : World) (h : (render setup fuel reports w).value? = some ()) :
    (render setup fuel reports w).world.submissionNr = (w.submissionNr + 1) % 2 := by
  cases fuel with
  | zero => cases h
  | succ fuel =>
    rw [render_apply, renderTry_apply] at h ⊢
    split_ifs at h ⊢ <;> first
      | (simp [Outcome.value?] at h; done)
      | simp [Outcome.world, renderEntered, maxInflightSubmissions]

/-- C5: in every state the event pump can reach from the initial one by calls
of `recreateSwapchain` and `render` in any order, `submissionNr` is 0 or 1 and
`submissionFences` holds at most 2 fences; and a call of `render` that returns
(the frame was acquired, submitted and presented) leaves `submissionNr` at
`(submissionNr + 1) mod 2`. -/
theorem C5_frame_slot_rotates (setup : Setup) :
    (∀ actions : List Action,
      ((performAll setup actions World.initial).world.submissionNr = 0
        ∨ (performAll setup actions World.initial).world.submissionNr = 1)
      ∧ (performAll setup actions World.initial).world.submissionFences.length ≤ 2)
    ∧ (∀ (fuel : Nat) (reports : Nat → FrameReport) (w : World),
      (render setup fuel reports w).value? = some () →
        (render setup fuel reports w).world.submissionNr = (w.submissionNr + 1) % 2) := by
  refine ⟨fun actions => ?_, render_returned_slot setup⟩
  have h := performAll_slot setup actions World.initial ⟨by decide, by decide⟩
  exact ⟨by omega, h.2⟩

/-- One successful frame of C5 after the first recreation. -/
theorem C5_frame_slot_rotates_witness :
    (render exampleSetup 1 (exampleFrames .vkQueueSubmit VK_SUCCESS) exampleActive).value?
        = some ()
      ∧ (render exampleSetup 1 (exampleFrames .vkQueueSubmit VK_SUCCESS)
          exampleActive).world.submissionNr = (exampleActive.submissionNr + 1) % 2 :=
  ⟨by decide!,
    (C5_frame_slot_rotates exampleSetup).2 1 (exampleFrames .vkQueueSubmit VK_SUCCESS)
      exampleActive (by decide!)⟩

/-! ### The commands of one frame -/

theorem render_added (setup : Setup) (fuel : Nat) (reports : Nat → FrameReport) (w : World)
    (hsc : w.swapchain ≠ VK_NULL_HANDLE)
    (h1 : w.submissionNr < w.submissionFences.length)
    (h2 : w.submissionNr < w.imageReadySs.length)
    (h3 : (reports 0).imageIndex < w.commandBuffers.length)
    (h4 : (reports 0).imageIndex < w.renderDoneSs.length) :
    render setup (fuel + 1) reports w = .returned ()
      { w with
        unsafeSemaphore := false
        submissionNr := (w.submissionNr + 1) % maxInflightSubmissions
        trace := w.trace ++ Event.render :: frameEvents setup (reports 0) w } := by
  rw [render_apply, if_neg hsc, renderTry_apply]
  have e1 : (renderEntered w).submissionNr < (renderEntered w).submissionFences.length := h1
  have e2 : (renderEntered w).submissionNr < (renderEntered w).imageReadySs.length := h2
  have e3 : (reports 0).imageIndex < (renderEntered w).commandBuffers.length
      ∧ (reports 0).imageIndex < (renderEntered w).renderDoneSs.length := ⟨h3, h4⟩
  rw [if_pos e1, if_pos e2, if_pos e3]
  simp [renderEntered, frameEvents]

/-- C6: in a frame that runs with slot `s` = `submissionNr` and acquires image
`i`, `render` waits for and resets `submissionFences[s]`, acquires with
`imageReadySs[s]`, submits `commandBuffers[i]` waiting on `imageReadySs[s]` at
the color-attachment-output stage and signalling `renderDoneSs[i]` and the
fence `submissionFences[s]`, then presents image `i` waiting on
`renderDoneSs[i]`; it sends no other command. -/
theorem C6_submit_and_present_indices (setup : Setup) (fuel : Nat)
    (reports : Nat → FrameReport) (w : World) (s i : Nat)
    (hsc : w.swapchain ≠ VK_NULL_HANDLE)
    (hs : w.submissionNr = s) (hi : (reports 0).imageIndex = i)
    (_hacquired : (reports 0).status .vkAcquireNextImageKHR = VK_SUCCESS)
    (h1 : s < w.submissionFences.length) (h2 : s < w.imageReadySs.length)
    (h3 : i < w.commandBuffers.length) (h4 : i < w.renderDoneSs.length) :
    (render setup (fuel + 1) reports w).value? = some ()
      ∧ (render setup (fuel + 1) reports w).added w =
        [ Event.render,
          Event.vkWaitForFences w.submissionFences[s],
          Event.vkResetFences w.submissionFences[s],
          Event.vkAcquireNextImageKHR w.swapchain w.imageReadySs[s],
          Event.vkQueueSubmit setup.graphicsQueue [w.imageReadySs[s]]
            VK_PIPELINE_STAGE_COLOR_ATTACHMENT_OUTPUT_BIT [w.commandBuffers[i]]
            [w.renderDoneSs[i]] w.submissionFences[s],
          Event.vkQueuePresentKHR setup.presentQueue [w.renderDoneSs[i]] w.swapchain i ] := by
  subst hs hi
  rw [render_added setup fuel reports w hsc h1 h2 h3 h4]
  simp [Outcome.value?, Outcome.added, Outcome.world, frameEvents, List.getD,
    List.getElem?_eq_getElem, h1, h2, h3, h4]

/-- A frame of C6 after the first recreation: slot 0, image 0. -/
theorem C6_submit_and_present_indices_witness :
    (render exampleSetup 1 (exampleFrames .vkQueueSubmit VK_SUCCESS) exampleActive).value?
        = some ()
      ∧ (render exampleSetup 1 (exampleFrames .vkQueueSubmit VK_SUCCESS) exampleActive).added
          exampleActive =
        [ Event.render,
          Event.vkWaitForFences (exampleActive.submissionFences.get ⟨0, by decide!⟩),
          Event.vkResetFences (exampleActive.submissionFences.get ⟨0, by decide!⟩),
          Event.vkAcquireNextImageKHR exampleActive.swapchain
            (exampleActive.imageReadySs.get ⟨0, by decide!⟩),
          Event.vkQueueSubmit exampleSetup.graphicsQueue
            [exampleActive.imageReadySs.get ⟨0, by decide!⟩]
            VK_PIPELINE_STAGE_COLOR_ATTACHMENT_OUTPUT_BIT
            [exampleActive.commandBuffers.get ⟨0, by decide!⟩]
            [exampleActive.renderDoneSs.get ⟨0, by decide!⟩]
            (exampleActive.submissionFences.get ⟨0, by decide!⟩),
          Event.vkQueuePresentKHR exampleSetup.presentQueue
            [exampleActive.renderDoneSs.get ⟨0, by decide!⟩] exampleActive.swapchain 0 ] :=
  C6_submit_and_present_indices exampleSetup 0 (exampleFrames .vkQueueSubmit VK_SUCCESS)
    exampleActive 0 0 (by decide!) (by decide!) rfl rfl (by decide!) (by decide!) (by decide!)
    (by decide!)

/-- C7: evaluation at the failing inputs. In the first frame after a recreation
`vkAcquireNextImageKHR` returns `VK_SUBOPTIMAL_KHR`, or `vkQueuePresentKHR`
returns `VK_ERROR_OUT_OF_DATE_KHR`, and every later command would succeed:
`render` returns after one attempt and never calls `recreateSwapchain`. -/
theorem C7_recoverable_status_not_recovered :
    (render exampleSetup 2 (exampleFrames .vkAcquireNextImageKHR VK_SUBOPTIMAL_KHR)
        exampleActive).value? = some ()
      ∧ ((render exampleSetup 2 (exampleFrames .vkAcquireNextImageKHR VK_SUBOPTIMAL_KHR)
          exampleActive).added exampleActive).filter Event.isRecreateSwapchain = []
      ∧ ((render exampleSetup 2 (exampleFrames .vkAcquireNextImageKHR VK_SUBOPTIMAL_KHR)
          exampleActive).added exampleActive).filter Event.isRender = [Event.render]
      ∧ (render exampleSetup 2 (exampleFrames .vkQueuePresentKHR VK_ERROR_OUT_OF_DATE_KHR)
          exampleActive).value? = some ()
      ∧ ((render exampleSetup 2 (exampleFrames .vkQueuePresentKHR VK_ERROR_OUT_OF_DATE_KHR)
          exampleActive).added exampleActive).filter Event.isRecreateSwapchain = []
      ∧ ((render exampleSetup 2 (exampleFrames .vkQueuePresentKHR VK_ERROR_OUT_OF_DATE_KHR)
          exampleActive).added exampleActive).filter Event.isRender = [Event.render] := by
  decide!

theorem render_markers (setup : Setup) (fuel : Nat) (reports : Nat → FrameReport) (w : World) :
    ((render setup (fuel + 1) reports w).added w).filter Event.isRender = [Event.render]
      ∧ ((render setup (fuel + 1) reports w).added w).filter Event.isRecreateSwapchain = [] := by
  rw [render_apply, renderTry_apply]
  split_ifs <;>
    simp [Outcome.added, Outcome.world, renderEntered, frameEvents, List.filter, Event.isRender,
      Event.isRecreateSwapchain]

theorem render_fuel (setup : Setup) (fuel : Nat) (reports : Nat → FrameReport) (w : World) :
    render setup (fuel + 1) reports w = render setup 1 reports w := by
  rw [render_apply, render_apply]

theorem render_not_outOfFuel (setup : Setup) (fuel : Nat) (reports : Nat → FrameReport)
    (w v : World) : render setup (fuel + 1) reports w ≠ .stopped .outOfFuel v := by
  rw [render_apply, renderTry_apply]
  split_ifs <;> simp

/-- C8: whatever the platform answers, one call of `render` that may nest at
least once behaves as with a budget of one call (it never calls itself), does
not run out of nested calls, attempts at most two frames and calls
`recreateSwapchain` at most once. -/
theorem C8_render_retry_bounded (setup : Setup) (fuel : Nat) (reports : Nat → FrameReport)
    (w : World) :
    render setup (fuel + 1) reports w = render setup 1 reports w
      ∧ (∀ v, render setup (fuel + 1) reports w ≠ .stopped .outOfFuel v)
      ∧ (((render setup (fuel + 1) reports w).added w).filter Event.isRender).length ≤ 2
      ∧ (((render setup (fuel + 1) reports w).added w).filter
          Event.isRecreateSwapchain).length ≤ 1 := by
  refine ⟨render_fuel setup fuel reports w, render_not_outOfFuel setup fuel reports w, ?_, ?_⟩
  · rw [(render_markers setup fuel reports w).1]
    decide
  · rw [(render_markers setup fuel reports w).2]
    decide

/-- C9: evaluation at the failing inputs. In the first frame after a recreation
`vkAcquireNextImageKHR` returns `VK_SUBOPTIMAL_KHR`, or
`VK_ERROR_OUT_OF_DATE_KHR`, just after `render` has flagged the image-ready
semaphore of the slot as unsafe: `render` returns after this one attempt, having
sent no draining submission and called `recreateSwapchain` not once. -/
theorem C9_recoverable_acquire_not_drained :
    (render exampleSetup 2 (exampleFrames .vkAcquireNextImageKHR VK_SUBOPTIMAL_KHR)
        exampleActive).value? = some ()
      ∧ ((render exampleSetup 2 (exampleFrames .vkAcquireNextImageKHR VK_SUBOPTIMAL_KHR)
          exampleActive).added exampleActive).filter Event.isDrain = []
      ∧ ((render exampleSetup 2 (exampleFrames .vkAcquireNextImageKHR VK_SUBOPTIMAL_KHR)
          exampleActive).added exampleActive).filter Event.isRecreateSwapchain = []
      ∧ ((render exampleSetup 2 (exampleFrames .vkAcquireNextImageKHR VK_SUBOPTIMAL_KHR)
          exampleActive).added exampleActive).filter Event.isRender = [Event.render]
      ∧ (render exampleSetup 2 (exampleFrames .vkAcquireNextImageKHR VK_ERROR_OUT_OF_DATE_KHR)
          exampleActive).value? = some ()
      ∧ ((render exampleSetup 2 (exampleFrames .vkAcquireNextImageKHR VK_ERROR_OUT_OF_DATE_KHR)
          exampleActive).added exampleActive).filter Event.isDrain = []
      ∧ ((render exampleSetup 2 (exampleFrames .vkAcquireNextImageKHR VK_ERROR_OUT_OF_DATE_KHR)
          exampleActive).added exampleActive).filter Event.isRecreateSwapchain = []
      ∧ ((render exampleSetup 2 (exampleFrames .vkAcquireNextImageKHR VK_ERROR_OUT_OF_DATE_KHR)
          exampleActive).added exampleActive).filter Event.isRender = [Event.render] := by
  decide!

/-- C10: evaluation at the failing input. `RESULT_HANDLER` returns for every
status, and when `vkWaitForFences` returns `VK_ERROR_DEVICE_LOST` in the first
frame after a recreation `render` throws nothing, goes on to reset the fence,
acquire, submit and present, and returns. -/
theorem C10_fatal_status_not_raised :
    (∀ (errorCode : VkResult) (source : String) (w : World),
      RESULT_HANDLER errorCode source w = .returned () w)
      ∧ (render exampleSetup 1 (exampleFrames .vkWaitForFences VK_ERROR_DEVICE_LOST)
          exampleActive).value? = some ()
      ∧ (render exampleSetup 1 (exampleFrames .vkWaitForFences VK_ERROR_DEVICE_LOST)
          exampleActive).added exampleActive =
        [ Event.render,
          Event.vkWaitForFences 17,
          Event.vkResetFences 17,
          Event.vkAcquireNextImageKHR 1 12,
          Event.vkQueueSubmit 7 [12] VK_PIPELINE_STAGE_COLOR_ATTACHMENT_OUTPUT_BIT [9] [14] 17,
          Event.vkQueuePresentKHR 7 [14] 1 0 ] :=
  ⟨fun _ _ _ => rfl, by decide!, by decide!⟩

/-! ### The handler of `render` -/

theorem recreateSwapchain_head_no_drain (setup : Setup) (rep : SurfaceReport) (w : World) :
    ((recreateSwapchain setup rep w).added w).head? = some Event.recreateSwapchain
      ∧ ((recreateSwapchain setup rep w).added w).filter Event.isDrain = [] := by
  rw [recreateSwapchain_apply, creatingNew_apply]
  by_cases hc : swapchainCreatable (adjustedCapabilities rep).currentExtent
      (adjustedCapabilities rep) = true
  · rw [if_pos hc]
    cases selectedCompositeAlpha (adjustedCapabilities rep) with
    | none =>
      by_cases hold : w.swapchain = VK_NULL_HANDLE <;>
        simp [Outcome.added, Outcome.world, prepared, cleanedUp, hold, List.filter,
          Event.isDrain, filter_map_eq_nil]
    | some a =>
      cases selectedPresentMode rep.presentModes with
      | none =>
        by_cases hold : w.swapchain = VK_NULL_HANDLE <;>
          simp [Outcome.added, Outcome.world, prepared, cleanedUp, hold, List.filter,
            Event.isDrain, filter_map_eq_nil]
      | some m =>
        cases pipelineError setup setup.limits vertexBufferBinding with
        | some e =>
          by_cases hold : w.swapchain = VK_NULL_HANDLE <;>
            simp [Outcome.added, Outcome.world, prepared, cleanedUp, hold, List.filter,
              Event.isDrain, filter_map_eq_nil, framebuffersReady, filter_zipWith_eq_nil]
        | none =>
          by_cases hold : w.swapchain = VK_NULL_HANDLE <;>
            simp [Outcome.added, Outcome.world, prepared, cleanedUp, oldKilled, hold,
              List.filter, Event.isDrain, filter_map_eq_nil, framebuffersReady,
              generationReady, filter_zipWith_eq_nil, filter_flatMap_eq_nil,
              filter_acquireEvents_eq_nil, recordedEvents]
  · rw [if_neg hc]
    by_cases hold : w.swapchain = VK_NULL_HANDLE <;>
      simp [Outcome.added, Outcome.world, prepared, cleanedUp, oldKilled, hold, List.filter,
        Event.isDrain, filter_map_eq_nil]

theorem render_trace_no_drain (setup : Setup) (fuel : Nat) (reports : Nat → FrameReport)
    (w : World) :
    (render setup fuel reports w).world.trace = w.trace ++ (render setup fuel reports w).added w
      ∧ ((render setup fuel reports w).added w).filter Event.isDrain = [] := by
  cases fuel with
  | zero => simp [render, Outcome.added, Outcome.world]
  | succ fuel =>
    rw [render_apply, renderTry_apply]
    split_ifs <;>
      simp [Outcome.added, Outcome.world, renderEntered, frameEvents, List.filter, Event.isDrain]

theorem recover_segment (setup : Setup) (rep : SurfaceReport) (fuel : Nat)
    (reports : Nat → FrameReport) (v : World) :
    ∃ rest,
      ((recreateSwapchain setup rep v).andThen fun _ => render setup fuel reports).world.trace
          = v.trace ++ Event.recreateSwapchain :: rest
        ∧ rest.filter Event.isDrain = [] := by
  have htr := recreateSwapchain_trace setup rep v
  obtain ⟨hhead, hnd⟩ := recreateSwapchain_head_no_drain setup rep v
  cases hadd : (recreateSwapchain setup rep v).added v with
  | nil => rw [hadd] at hhead; cases hhead
  | cons e rest1 =>
    rw [hadd] at hhead hnd htr
    have he : e = Event.recreateSwapchain := by simpa using hhead
    subst he
    have hnd1 : rest1.filter Event.isDrain = [] := by
      simpa [List.filter, Event.isDrain] using hnd
    cases hrun : recreateSwapchain setup rep v with
    | returned b v1 =>
      rw [hrun] at htr
      obtain ⟨h2, h3⟩ := render_trace_no_drain setup fuel reports v1
      refine ⟨rest1 ++ (render setup fuel reports v1).added v1, ?_, ?_⟩
      · rw [andThen_returned, h2]
        simp only [Outcome.world] at htr
        rw [htr]
        simp
      · simp [List.filter_append, hnd1, h3]
    | threw ex v1 =>
      rw [hrun] at htr
      exact ⟨rest1, by simpa [Outcome.world] using htr, hnd1⟩
    | stopped st v1 =>
      rw [hrun] at htr
      exact ⟨rest1, by simpa [Outcome.world] using htr, hnd1⟩

theorem renderCatch_suboptimal (setup : Setup) (rep : FrameReport) (retry : M Unit)
    (source : String) (w : World) (hflagged : w.unsafeSemaphore = true)
    (hs : w.submissionNr < w.imageReadySs.length) :
    renderCatch setup rep retry (.VulkanResultException source VK_SUBOPTIMAL_KHR) w
      = (recreateSwapchain setup rep.surface
          { w with
            trace := w.trace ++ [Event.vkQueueSubmit setup.graphicsQueue
              [w.imageReadySs.getD w.submissionNr VK_NULL_HANDLE]
              VK_PIPELINE_STAGE_BOTTOM_OF_PIPE_BIT [] [] VK_NULL_HANDLE] }).andThen
          fun _ => retry := by
  simp [renderCatch, hflagged, at_apply_of_lt _ _ hs, cleanupUnsafeSemaphore]

theorem renderCatch_outOfDate (setup : Setup) (rep : FrameReport) (retry : M Unit)
    (source : String) (w : World) :
    renderCatch setup rep retry (.VulkanResultException source VK_ERROR_OUT_OF_DATE_KHR) w
      = (recreateSwapchain setup rep.surface w).andThen fun _ => retry := by
  have hne : VK_ERROR_OUT_OF_DATE_KHR ≠ VK_SUBOPTIMAL_KHR := by decide
  simp [renderCatch, hne]

/-- The handler of `render` taken by itself, which no run of `render` enters:
entered with the image-ready semaphore of the slot flagged unsafe, it sends for
`VK_SUBOPTIMAL_KHR` one draining submission that waits on
`imageReadySs[submissionNr]`, immediately before `recreateSwapchain` runs, and
no other one; for `VK_ERROR_OUT_OF_DATE_KHR` it runs `recreateSwapchain` at once
and sends no draining submission. -/
theorem renderCatch_drain_only_for_suboptimal (setup : Setup) (rep : FrameReport) (fuel : Nat)
    (reports : Nat → FrameReport) (source : String) (w : World)
    (hflagged : w.unsafeSemaphore = true) (hs : w.submissionNr < w.imageReadySs.length) :
    (∃ rest,
      (renderCatch setup rep (render setup fuel reports)
          (.VulkanResultException source VK_SUBOPTIMAL_KHR) w).added w
        = Event.vkQueueSubmit setup.graphicsQueue [w.imageReadySs[w.submissionNr]]
            VK_PIPELINE_STAGE_BOTTOM_OF_PIPE_BIT [] [] VK_NULL_HANDLE
          :: Event.recreateSwapchain :: rest
        ∧ rest.filter Event.isDrain = [])
    ∧ (∃ rest,
      (renderCatch setup rep (render setup fuel reports)
          (.VulkanResultException source VK_ERROR_OUT_OF_DATE_KHR) w).added w
        = Event.recreateSwapchain :: rest
        ∧ rest.filter Event.isDrain = []) := by
  constructor
  · rw [renderCatch_suboptimal setup rep _ source w hflagged hs]
    obtain ⟨rest, htr, hnd⟩ := recover_segment setup rep.surface fuel reports
      { w with
        trace := w.trace ++ [Event.vkQueueSubmit setup.graphicsQueue
          [w.imageReadySs.getD w.submissionNr VK_NULL_HANDLE]
          VK_PIPELINE_STAGE_BOTTOM_OF_PIPE_BIT [] [] VK_NULL_HANDLE] }
    refine ⟨rest, ?_, hnd⟩
    simp only [Outcome.added, htr]
    simp [List.getD, List.getElem?_eq_getElem hs]
  · rw [renderCatch_outOfDate]
    obtain ⟨rest, htr, hnd⟩ := recover_segment setup rep.surface fuel reports w
    exact ⟨rest, by simp [Outcome.added, htr], hnd⟩

/-! ### Hand-over between generations -/

theorem mem_writtenFrom (status : VkResult) (fresh count : Nat) (h : Handle)
    (hmem : h ∈ writtenFrom status fresh count) : h = VK_NULL_HANDLE ∨ fresh < h := by
  induction count generalizing fresh with
  | zero => simp [writtenFrom] at hmem
  | succ n ih =>
    simp only [writtenFrom, List.mem_cons] at hmem
    rcases hmem with h1 | h2
    · unfold written at h1
      split_ifs at h1
      · right; rw [h1]; exact Nat.lt_succ_self _
      · left; exact h1
    · rcases ih _ h2 with h3 | h3
      · left; exact h3
      · right; omega

@[simp]
theorem framebuffersReady_fresh (setup : Setup) (rep : SurfaceReport)
    (capabilities : VkSurfaceCapabilitiesKHR) (surfaceSize : VkExtent2D) (oldSwapchain : Handle)
    (a m : Nat) (w : World) :
    (framebuffersReady setup rep capabilities surfaceSize oldSwapchain a m w).fresh
      = w.fresh + 1 + imageCount rep + imageCount rep := rfl

/-- What a call of `recreateSwapchain` that returns leaves behind. -/
theorem recreateSwapchain_returned (setup : Setup) (rep : SurfaceReport) (w w1 : World) (b : Bool)
    (h : recreateSwapchain setup rep w = .returned b w1) :
    (¬ (adjustedCapabilities rep).extentInRange ∧ b = false ∧ w1 = oldKilled w (prepared w))
    ∨ ((adjustedCapabilities rep).extentInRange ∧ ∃ a m,
        w1 = oldKilled w (generationReady rep (adjustedCapabilities rep).currentExtent
          (framebuffersReady setup rep (adjustedCapabilities rep)
            (adjustedCapabilities rep).currentExtent w.swapchain a m (prepared w)))) := by
  rw [recreateSwapchain_apply, creatingNew_apply] at h
  split_ifs at h with hc
  · right
    refine ⟨(swapchainCreatable_iff _).1 hc, ?_⟩
    cases ha : selectedCompositeAlpha (adjustedCapabilities rep) with
    | none => rw [ha] at h; cases h
    | some a =>
      cases hm : selectedPresentMode rep.presentModes with
      | none => rw [ha, hm] at h; cases h
      | some m =>
        cases hp : pipelineError setup setup.limits vertexBufferBinding with
        | some e => rw [ha, hm, hp] at h; cases h
        | none =>
          rw [ha, hm, hp] at h
          simp only [andThen_returned] at h
          injection h with _ h2
          exact ⟨a, m, h2.symm⟩
  · left
    injection h with h1 h2
    exact ⟨(not_congr (swapchainCreatable_iff _)).1 hc, h1.symm, h2.symm⟩

/-- C11: when a call of `recreateSwapchain` that found an active swap chain
returns, every fence, image-ready semaphore and render-done semaphore held
before the call has been destroyed by it, and every handle then held in
`submissionFences`, `imageReadySs` and `renderDoneSs` was written by a creating
command of this call and is a handle the driver had not handed out before the
call (or null, when that creating command failed). -/
theorem C11_sync_objects_not_reused (setup : Setup) (rep : SurfaceReport) (w w1 : World)
    (b : Bool) (hactive : w.swapchain ≠ VK_NULL_HANDLE)
    (h : recreateSwapchain setup rep w = .returned b w1) :
    (∀ f ∈ w.submissionFences,
      Event.vkDestroyFence f ∈ (recreateSwapchain setup rep w).added w)
    ∧ (∀ s ∈ w.imageReadySs,
      Event.vkDestroySemaphore s ∈ (recreateSwapchain setup rep w).added w)
    ∧ (∀ s ∈ w.renderDoneSs,
      Event.vkDestroySemaphore s ∈ (recreateSwapchain setup rep w).added w)
    ∧ (∀ f ∈ w1.submissionFences,
      Event.vkCreateFence VK_FENCE_CREATE_SIGNALED_BIT f ∈ (recreateSwapchain setup rep w).added w
        ∧ (f = VK_NULL_HANDLE ∨ w.fresh < f))
    ∧ (∀ s ∈ w1.imageReadySs,
      Event.vkCreateSemaphore s ∈ (recreateSwapchain setup rep w).added w
        ∧ (s = VK_NULL_HANDLE ∨ w.fresh < s))
    ∧ (∀ s ∈ w1.renderDoneSs,
      Event.vkCreateSemaphore s ∈ (recreateSwapchain setup rep w).added w
        ∧ (s = VK_NULL_HANDLE ∨ w.fresh < s)) := by
  rw [h]
  rcases recreateSwapchain_returned setup rep w w1 b h with ⟨-, -, hw1⟩ | ⟨-, a, m, hw1⟩
  · subst hw1
    refine ⟨?_, ?_, ?_, ?_, ?_, ?_⟩ <;> intro x hx <;>
      simp [Outcome.added, Outcome.world, prepared, cleanedUp, oldKilled, hactive] at hx ⊢ <;>
      simp [hx]
  · subst hw1
    refine ⟨?_, ?_, ?_, ?_, ?_, ?_⟩ <;> intro x hx
    · simp [Outcome.added, Outcome.world, prepared, cleanedUp, oldKilled, hactive,
        generationReady, framebuffersReady, hx]
    · simp [Outcome.added, Outcome.world, prepared, cleanedUp, oldKilled, hactive,
        generationReady, framebuffersReady, hx]
    · simp [Outcome.added, Outcome.world, prepared, cleanedUp, oldKilled, hactive,
        generationReady, framebuffersReady, hx]
    all_goals
      simp only [oldKilled_submissionFences, generationReady_submissionFences,
        oldKilled_imageReadySs, generationReady_imageReadySs, oldKilled_renderDoneSs,
        generationReady_renderDoneSs, framebuffersReady_fresh, prepared_fresh,
        framebuffersReady_commandBuffers, prepared_commandBuffers] at hx
      have := mem_writtenFrom _ _ _ _ hx
      refine ⟨?_, this.imp id (fun h => by omega)⟩
      simp [Outcome.added, Outcome.world, prepared, cleanedUp, oldKilled, hactive,
        generationReady, framebuffersReady, hx]

theorem recreateSwapchain_swapchain_creations (setup : Setup) (rep : SurfaceReport) (w : World)
    (e : Event) (he : e ∈ ((recreateSwapchain setup rep w).added w).filter Event.isSwapchainCreation) :
    ∃ a m, e = Event.vkCreateSwapchainKHR
      (swapchainInfoOf setup (adjustedCapabilities rep) a m w.swapchain)
      (written (rep.status .vkCreateSwapchainKHR) w.fresh) := by
  rw [recreateSwapchain_apply, creatingNew_apply] at he
  by_cases hc : swapchainCreatable (adjustedCapabilities rep).currentExtent
      (adjustedCapabilities rep) = true
  · rw [if_pos hc] at he
    cases ha : selectedCompositeAlpha (adjustedCapabilities rep) with
    | none =>
      rw [ha] at he
      by_cases hold : w.swapchain = VK_NULL_HANDLE <;>
        simp [Outcome.added, Outcome.world, prepared, cleanedUp, hold, List.filter,
          Event.isSwapchainCreation, filter_map_eq_nil] at he
    | some a =>
      cases hm : selectedPresentMode rep.presentModes with
      | none =>
        rw [ha, hm] at he
        by_cases hold : w.swapchain = VK_NULL_HANDLE <;>
          simp [Outcome.added, Outcome.world, prepared, cleanedUp, hold, List.filter,
            Event.isSwapchainCreation, filter_map_eq_nil] at he
      | some m =>
        refine ⟨a, m, ?_⟩
        cases hp : pipelineError setup setup.limits vertexBufferBinding with
        | some e =>
          rw [ha, hm, hp] at he
          by_cases hold : w.swapchain = VK_NULL_HANDLE <;>
            simpa [Outcome.added, Outcome.world, prepared, cleanedUp, hold, List.filter,
              Event.isSwapchainCreation, filter_map_eq_nil, framebuffersReady,
              filter_zipWith_eq_nil] using he
        | none =>
          rw [ha, hm, hp] at he
          by_cases hold : w.swapchain = VK_NULL_HANDLE <;>
            simpa [Outcome.added, Outcome.world, prepared, cleanedUp, oldKilled, hold,
              List.filter, Event.isSwapchainCreation, filter_map_eq_nil, framebuffersReady,
              generationReady, filter_zipWith_eq_nil, filter_flatMap_eq_nil,
              filter_acquireEvents_eq_nil, recordedEvents] using he
  · rw [if_neg hc] at he
    by_cases hold : w.swapchain = VK_NULL_HANDLE <;>
      simp [Outcome.added, Outcome.world, prepared, cleanedUp, oldKilled, hold, List.filter,
        Event.isSwapchainCreation, filter_map_eq_nil] at he

theorem recreateSwapchain_not_returned (setup : Setup) (rep : SurfaceReport) (w : World)
    (h : (recreateSwapchain setup rep w).value? = none) :
    ((recreateSwapchain setup rep w).added w).filter Event.isSwapchainDestroy = []
    ∧ ((recreateSwapchain setup rep w).added w).filter Event.isSemaphoreDestroy
        = if w.swapchain ≠ VK_NULL_HANDLE then w.renderDoneSs.map Event.vkDestroySemaphore
          else [] := by
  rw [recreateSwapchain_apply, creatingNew_apply] at h ⊢
  by_cases hc : swapchainCreatable (adjustedCapabilities rep).currentExtent
      (adjustedCapabilities rep) = true
  · rw [if_pos hc] at h ⊢
    cases ha : selectedCompositeAlpha (adjustedCapabilities rep) with
    | none =>
      by_cases hold : w.swapchain = VK_NULL_HANDLE <;>
        simp [Outcome.added, Outcome.world, prepared, cleanedUp, hold, List.filter,
          Event.isSwapchainDestroy, Event.isSemaphoreDestroy, filter_map_eq_nil,
          filter_map_eq_self]
    | some a =>
      cases hm : selectedPresentMode rep.presentModes with
      | none =>
        by_cases hold : w.swapchain = VK_NULL_HANDLE <;>
          simp [Outcome.added, Outcome.world, prepared, cleanedUp, hold, List.filter,
            Event.isSwapchainDestroy, Event.isSemaphoreDestroy, filter_map_eq_nil,
            filter_map_eq_self]
      | some m =>
        cases hp : pipelineError setup setup.limits vertexBufferBinding with
        | some e =>
          by_cases hold : w.swapchain = VK_NULL_HANDLE <;>
            simp [Outcome.added, Outcome.world, prepared, cleanedUp, hold, List.filter,
              Event.isSwapchainDestroy, Event.isSemaphoreDestroy, filter_map_eq_nil,
              filter_map_eq_self, framebuffersReady, filter_zipWith_eq_nil]
        | none =>
          rw [ha, hm, hp] at h
          simp [Outcome.value?] at h
  · rw [if_neg hc] at h
    simp [Outcome.value?] at h

theorem recreateSwapchain_hand_over (setup : Setup) (rep : SurfaceReport) (w w1 : World)
    (b : Bool) (hactive : w.swapchain ≠ VK_NULL_HANDLE)
    (h : recreateSwapchain setup rep w = .returned b w1) :
    ∃ before,
      (recreateSwapchain setup rep w).added w
        = before ++ Event.vkDestroySwapchainKHR w.swapchain
            :: w.imageReadySs.map Event.vkDestroySemaphore
      ∧ before.filter Event.isSwapchainDestroy = []
      ∧ before.filter Event.isSemaphoreDestroy = w.renderDoneSs.map Event.vkDestroySemaphore
      ∧ ((adjustedCapabilities rep).extentInRange →
          ∃ info sc, Event.vkCreateSwapchainKHR info sc ∈ before
            ∧ info.oldSwapchain = w.swapchain) := by
  rw [h]
  rcases recreateSwapchain_returned setup rep w w1 b h with ⟨hn, -, hw1⟩ | ⟨-, a, m, hw1⟩
  · subst hw1
    refine ⟨(Outcome.returned () (prepared w)).added w, ?_, ?_, ?_, fun hr => absurd hr hn⟩ <;>
      simp [Outcome.added, Outcome.world, prepared, cleanedUp, oldKilled, hactive, List.filter,
        Event.isSwapchainDestroy, Event.isSemaphoreDestroy, filter_map_eq_nil,
        filter_map_eq_self]
  · subst hw1
    refine ⟨(Outcome.returned () (generationReady rep (adjustedCapabilities rep).currentExtent
          (framebuffersReady setup rep (adjustedCapabilities rep)
            (adjustedCapabilities rep).currentExtent w.swapchain a m (prepared w)))).added w,
      ?_, ?_, ?_, fun _ => ⟨swapchainInfoOf setup (adjustedCapabilities rep) a m w.swapchain,
        written (rep.status .vkCreateSwapchainKHR) w.fresh, ?_, rfl⟩⟩ <;>
      simp [Outcome.added, Outcome.world, prepared, cleanedUp, oldKilled, hactive, List.filter,
        Event.isSwapchainDestroy, Event.isSemaphoreDestroy, filter_map_eq_nil,
        filter_map_eq_self, framebuffersReady,
        generationReady, filter_zipWith_eq_nil, filter_flatMap_eq_nil,
        filter_acquireEvents_eq_nil, recordedEvents]

/-- A second recreation for C11, on a window resized to 640 x 480. -/
theorem C11_sync_objects_not_reused_witness :
    exampleActive.swapchain ≠ VK_NULL_HANDLE
    ∧ recreateSwapchain exampleSetup (exampleReport 640 480) exampleActive
        = .returned true exampleResized
    ∧ (∀ f ∈ exampleActive.submissionFences, Event.vkDestroyFence f
        ∈ (recreateSwapchain exampleSetup (exampleReport 640 480) exampleActive).added
          exampleActive)
    ∧ (∀ s ∈ exampleResized.imageReadySs, Event.vkCreateSemaphore s
          ∈ (recreateSwapchain exampleSetup (exampleReport 640 480) exampleActive).added
            exampleActive
        ∧ (s = VK_NULL_HANDLE ∨ exampleActive.fresh < s)) :=
  have h := C11_sync_objects_not_reused exampleSetup (exampleReport 640 480) exampleActive
    exampleResized true (by decide!) (by decide!)
  ⟨by decide!, by decide!, h.1, h.2.2.2.2.1⟩

/-- C12: in a call of `recreateSwapchain` that finds an active swap chain, every
swap-chain creation is given the old handle as `oldSwapchain`; when the call
returns, its commands end with the destruction of the old swap chain followed
by the destruction of the old image-ready semaphores, nothing before that
destroys a swap chain, the semaphores destroyed before it are the render-done
ones, and for a creatable extent the creation of the new swap chain is among
the commands before it; a call that throws destroys no swap chain and no
image-ready semaphore. -/
theorem C12_old_swapchain_handed_over (setup : Setup) (rep : SurfaceReport) (w : World)
    (hactive : w.swapchain ≠ VK_NULL_HANDLE) :
    (∀ info sc, Event.vkCreateSwapchainKHR info sc ∈ (recreateSwapchain setup rep w).added w →
      info.oldSwapchain = w.swapchain)
    ∧ (∀ b w1, recreateSwapchain setup rep w = .returned b w1 →
      ∃ before,
        (recreateSwapchain setup rep w).added w
          = before ++ Event.vkDestroySwapchainKHR w.swapchain
              :: w.imageReadySs.map Event.vkDestroySemaphore
        ∧ before.filter Event.isSwapchainDestroy = []
        ∧ before.filter Event.isSemaphoreDestroy = w.renderDoneSs.map Event.vkDestroySemaphore
        ∧ ((adjustedCapabilities rep).extentInRange →
            ∃ info sc, Event.vkCreateSwapchainKHR info sc ∈ before
              ∧ info.oldSwapchain = w.swapchain))
    ∧ ((recreateSwapchain setup rep w).value? = none →
      ((recreateSwapchain setup rep w).added w).filter Event.isSwapchainDestroy = []
      ∧ ((recreateSwapchain setup rep w).added w).filter Event.isSemaphoreDestroy
          = w.renderDoneSs.map Event.vkDestroySemaphore) := by
  refine ⟨?_, fun b w1 h => recreateSwapchain_hand_over setup rep w w1 b hactive h, ?_⟩
  · intro info sc hmem
    obtain ⟨a, m, he⟩ := recreateSwapchain_swapchain_creations setup rep w _
      (List.mem_filter.2 ⟨hmem, rfl⟩)
    injection he with h1 _
    rw [h1]
    rfl
  · intro h
    have := recreateSwapchain_not_returned setup rep w h
    rwa [if_pos hactive] at this

/-- A second recreation for C12, on a window resized to 640 x 480. -/
theorem C12_old_swapchain_handed_over_witness :
    exampleActive.swapchain ≠ VK_NULL_HANDLE
    ∧ recreateSwapchain exampleSetup (exampleReport 640 480) exampleActive
        = .returned true exampleResized
    ∧ ∃ before,
        (recreateSwapchain exampleSetup (exampleReport 640 480) exampleActive).added
            exampleActive
          = before ++ Event.vkDestroySwapchainKHR exampleActive.swapchain
              :: exampleActive.imageReadySs.map Event.vkDestroySemaphore
        ∧ before.filter Event.isSwapchainDestroy = []
        ∧ before.filter Event.isSemaphoreDestroy
            = exampleActive.renderDoneSs.map Event.vkDestroySemaphore
        ∧ ((adjustedCapabilities (exampleReport 640 480)).extentInRange →
            ∃ info sc, Event.vkCreateSwapchainKHR info sc ∈ before
              ∧ info.oldSwapchain = exampleActive.swapchain) :=
  ⟨by decide!, by decide!,
    (C12_old_swapchain_handed_over exampleSetup (exampleReport 640 480) exampleActive
      (by decide!)).2.1 true exampleResized (by decide!)⟩

/-! ### The extent of a generation -/

theorem adjustedCapabilities_currentExtent (rep : SurfaceReport) :
    (adjustedCapabilities rep).currentExtent = usedExtent rep := by
  unfold adjustedCapabilities usedExtent
  by_cases h : rep.capabilities.currentExtent.width = UINT32_MAX
      ∧ rep.capabilities.currentExtent.height = UINT32_MAX
  · have h2 : rep.capabilities.currentExtent = ⟨UINT32_MAX, UINT32_MAX⟩ := by
      cases hc : rep.capabilities.currentExtent
      rw [hc] at h
      simp only at h
      rw [h.1, h.2]
    rw [if_pos h, if_pos h2]
  · have h2 : ¬ rep.capabilities.currentExtent = ⟨UINT32_MAX, UINT32_MAX⟩ := by
      intro hc
      rw [hc] at h
      exact h ⟨rfl, rfl⟩
    rw [if_neg h, if_neg h2]

theorem swapchainCreatable_adjusted (rep : SurfaceReport) :
    swapchainCreatable (adjustedCapabilities rep).currentExtent (adjustedCapabilities rep)
      = swapchainCreatable (usedExtent rep) rep.capabilities := by
  rw [adjustedCapabilities_currentExtent]
  unfold adjustedCapabilities swapchainCreatable
  split_ifs <;> rfl

theorem all_map {α : Type} (p : Event → Bool) (f : α → Event) (h : ∀ x, p (f x) = true)
    (xs : List α) : (xs.map f).all p = true := by
  simp [List.all_eq_true, h]

theorem all_zipWith {α β : Type} (p : Event → Bool) (f : α → β → Event)
    (h : ∀ x y, p (f x y) = true) (xs : List α) (ys : List β) :
    (List.zipWith f xs ys).all p = true := by
  induction xs generalizing ys with
  | nil => simp
  | cons x xs ih =>
    cases ys with
    | nil => simp
    | cons y ys => simp [h, ih]

theorem all_flatMap {α : Type} (p : Event → Bool) (f : α → List Event)
    (h : ∀ x, (f x).all p = true) (xs : List α) : (xs.flatMap f).all p = true := by
  induction xs with
  | nil => rfl
  | cons x xs ih => simp only [List.flatMap_cons, List.all_append, h, ih, Bool.and_self]

theorem all_acquireEvents (p : Event → Bool)
    (h1 : ∀ n hs, p (Event.vkAllocateCommandBuffers n hs) = true)
    (h2 : ∀ hs, p (Event.vkFreeCommandBuffers hs) = true)
    (status : VkResult) (count : Nat) (commandBuffers : List Handle) (fresh : Nat) :
    (acquireEvents status count commandBuffers fresh).all p = true := by
  unfold acquireEvents
  split_ifs <;> simp [h1, h2]

theorem recreateSwapchain_one_extent (setup : Setup) (rep : SurfaceReport) (w : World) :
    ((recreateSwapchain setup rep w).added w).all
      (Event.usesExtent (adjustedCapabilities rep).currentExtent) = true := by
  rw [recreateSwapchain_apply, creatingNew_apply]
  by_cases hc : swapchainCreatable (adjustedCapabilities rep).currentExtent
      (adjustedCapabilities rep) = true
  · rw [if_pos hc]
    cases ha : selectedCompositeAlpha (adjustedCapabilities rep) with
    | none =>
      by_cases hold : w.swapchain = VK_NULL_HANDLE <;>
        simp [Outcome.added, Outcome.world, prepared, cleanedUp, hold, 
          Event.usesExtent, Event.extent?, all_map]
    | some a =>
      cases hm : selectedPresentMode rep.presentModes with
      | none =>
        by_cases hold : w.swapchain = VK_NULL_HANDLE <;>
          simp [Outcome.added, Outcome.world, prepared, cleanedUp, hold, 
            Event.usesExtent, Event.extent?, all_map]
      | some m =>
        cases hp : pipelineError setup setup.limits vertexBufferBinding with
        | some e =>
          by_cases hold : w.swapchain = VK_NULL_HANDLE <;>
            simp [Outcome.added, Outcome.world, prepared, cleanedUp, hold, 
              Event.usesExtent, Event.extent?, all_map, framebuffersReady,
              all_zipWith, swapchainInfoOf]
        | none =>
          by_cases hold : w.swapchain = VK_NULL_HANDLE <;>
            simp [Outcome.added, Outcome.world, prepared, cleanedUp, oldKilled, hold,
              Event.usesExtent, Event.extent?, all_map, framebuffersReady,
              generationReady, all_zipWith, all_flatMap,
              all_acquireEvents, recordedEvents, swapchainInfoOf]
  · rw [if_neg hc]
    by_cases hold : w.swapchain = VK_NULL_HANDLE <;>
      simp [Outcome.added, Outcome.world, prepared, cleanedUp, oldKilled, hold, 
        Event.usesExtent, Event.extent?, all_map]

theorem mem_zipWith_right {α β : Type} (f : α → β → Event) (xs : List α) (ys : List β)
    (hlen : xs.length = ys.length) (y : β) (hy : y ∈ ys) :
    ∃ x, f x y ∈ List.zipWith f xs ys := by
  induction xs generalizing ys with
  | nil =>
    cases ys with
    | nil => cases hy
    | cons y0 ys => simp at hlen
  | cons x xs ih =>
    cases ys with
    | nil => cases hy
    | cons y0 ys =>
      rcases List.mem_cons.1 hy with h | h
      · exact ⟨x, by simp [h]⟩
      · obtain ⟨x1, hx1⟩ := ih ys (by simpa using hlen) h
        exact ⟨x1, by simp [hx1]⟩

theorem recreateSwapchain_extent_created (setup : Setup) (rep : SurfaceReport) (w w1 : World)
    (h : recreateSwapchain setup rep w = .returned true w1) :
    (∃ info, Event.vkCreateSwapchainKHR info w1.swapchain
        ∈ (recreateSwapchain setup rep w).added w
      ∧ info.imageExtent = (adjustedCapabilities rep).currentExtent)
    ∧ Event.vkCreateGraphicsPipelines (adjustedCapabilities rep).currentExtent.width
        (adjustedCapabilities rep).currentExtent.height w1.pipeline
        ∈ (recreateSwapchain setup rep w).added w
    ∧ ∀ framebuffer ∈ w1.framebuffers, ∃ imageView,
        Event.vkCreateFramebuffer imageView (adjustedCapabilities rep).currentExtent.width
          (adjustedCapabilities rep).currentExtent.height framebuffer
          ∈ (recreateSwapchain setup rep w).added w := by
  obtain ⟨a, m, hw1⟩ := recreateSwapchain_returned_true setup rep w w1 h
  rw [h]
  subst hw1
  refine ⟨⟨swapchainInfoOf setup (adjustedCapabilities rep) a m w.swapchain, ?_, rfl⟩, ?_, ?_⟩
  · by_cases hold : w.swapchain = VK_NULL_HANDLE <;>
      simp [Outcome.added, Outcome.world, oldKilled, generationReady, framebuffersReady,
        prepared, cleanedUp, hold]
  · by_cases hold : w.swapchain = VK_NULL_HANDLE <;>
      simp [Outcome.added, Outcome.world, oldKilled, generationReady, framebuffersReady,
        prepared, cleanedUp, hold]
  · intro fb hfb
    have hfb2 : fb ∈ writtenFrom (rep.status .vkCreateFramebuffer)
        (w.fresh + 1 + imageCount rep) (imageCount rep) := by
      simpa [framebuffersReady] using hfb
    obtain ⟨view, hview⟩ := mem_zipWith_right
      (fun imageView => Event.vkCreateFramebuffer imageView
        (adjustedCapabilities rep).currentExtent.width
        (adjustedCapabilities rep).currentExtent.height)
      (writtenFrom (rep.status .vkCreateImageView) (w.fresh + 1) (imageCount rep))
      _ (by simp) fb hfb2
    refine ⟨view, ?_⟩
    by_cases hold : w.swapchain = VK_NULL_HANDLE <;>
      simp [Outcome.added, Outcome.world, oldKilled, generationReady, framebuffersReady,
        prepared, cleanedUp, hold, hview]

/-- C14: every command of a `recreateSwapchain` call that is given an extent
(the entry of `initSwapchain`, the swap-chain creation, each framebuffer, the
pipeline, each recorded render pass) is given the same one: the size of the
window when the platform reports the undefined extent, the reported extent
otherwise; the creatable test is made on this extent; and a call that returns
true has created the swap chain, the pipeline and every framebuffer with it. -/
theorem C14_one_extent_for_all (setup : Setup) (rep : SurfaceReport) (w : World) :
    (∀ e ∈ (recreateSwapchain setup rep w).added w, ∀ x, e.extent? = some x → x = usedExtent rep)
    ∧ (((recreateSwapchain setup rep w).added w).filter Event.isInitSwapchain ≠ []
        ↔ swapchainCreatable (usedExtent rep) rep.capabilities = true)
    ∧ (∀ w1, recreateSwapchain setup rep w = .returned true w1 →
        (∃ info, Event.vkCreateSwapchainKHR info w1.swapchain
            ∈ (recreateSwapchain setup rep w).added w
          ∧ info.imageExtent = usedExtent rep)
        ∧ Event.vkCreateGraphicsPipelines (usedExtent rep).width (usedExtent rep).height
            w1.pipeline ∈ (recreateSwapchain setup rep w).added w
        ∧ ∀ framebuffer ∈ w1.framebuffers, ∃ imageView,
            Event.vkCreateFramebuffer imageView (usedExtent rep).width (usedExtent rep).height
              framebuffer ∈ (recreateSwapchain setup rep w).added w) := by
  refine ⟨?_, ?_, ?_⟩
  · intro e he x hx
    have hall := recreateSwapchain_one_extent setup rep w
    rw [List.all_eq_true] at hall
    have := hall e he
    rw [adjustedCapabilities_currentExtent] at this
    simpa [Event.usesExtent, hx] using this
  · rw [recreateSwapchain_initSwapchain_calls, ← swapchainCreatable_adjusted,
      swapchainCreatable_iff]
    by_cases hr : (adjustedCapabilities rep).extentInRange <;> simp [hr]
  · intro w1 h
    have := recreateSwapchain_extent_created setup rep w w1 h
    rwa [adjustedCapabilities_currentExtent] at this

/-- The first recreation for C14, on a window of 800 x 800. -/
theorem C14_one_extent_for_all_witness :
    recreateSwapchain exampleSetup (exampleReport 800 800) World.initial
        = .returned true exampleActive
    ∧ (∃ info, Event.vkCreateSwapchainKHR info exampleActive.swapchain
          ∈ (recreateSwapchain exampleSetup (exampleReport 800 800) World.initial).added
            World.initial
        ∧ info.imageExtent = usedExtent (exampleReport 800 800))
    ∧ Event.vkCreateGraphicsPipelines (usedExtent (exampleReport 800 800)).width
        (usedExtent (exampleReport 800 800)).height exampleActive.pipeline
        ∈ (recreateSwapchain exampleSetup (exampleReport 800 800) World.initial).added
          World.initial
    ∧ ∀ framebuffer ∈ exampleActive.framebuffers, ∃ imageView,
        Event.vkCreateFramebuffer imageView (usedExtent (exampleReport 800 800)).width
          (usedExtent (exampleReport 800 800)).height framebuffer
          ∈ (recreateSwapchain exampleSetup (exampleReport 800 800) World.initial).added
            World.initial :=
  ⟨by decide!,
    (C14_one_extent_for_all exampleSetup (exampleReport 800 800) World.initial).2.2 exampleActive
      (by decide!)⟩

/-! ### Command buffers -/

theorem toUint32_of_le (n : Nat) (h : n ≤ UINT32_MAX) : toUint32 n = n := by
  unfold toUint32
  apply Nat.mod_eq_of_lt
  simp only [UINT32_MAX] at h
  omega

theorem resize_of_le (v : List Handle) (n : Nat) (h : v.length ≤ n) :
    resize v n = v ++ List.replicate (n - v.length) VK_NULL_HANDLE := by
  unfold resize
  rw [List.take_of_length_le h]

theorem resize_of_ge (v : List Handle) (n : Nat) (h : n ≤ v.length) :
    resize v n = v.take n := by
  unfold resize
  rw [Nat.sub_eq_zero_of_le h]
  simp

theorem writeAt_append (v r hs : List Handle) (h : hs.length = r.length) :
    writeAt (v ++ r) v.length hs = v ++ hs := by
  unfold writeAt
  rw [List.take_left', List.drop_eq_nil_of_le]
  · simp
  · simp [h]
  · rfl

theorem acquireCommandBuffers_result (rep : SurfaceReport) (count : Nat)
    (commandBuffers : List Handle) (w : World) (hlen : commandBuffers.length ≤ UINT32_MAX) :
    ∃ result w1, acquireCommandBuffers rep count commandBuffers w = .returned result w1
      ∧ result.length = count
      ∧ result.take (min commandBuffers.length count)
          = commandBuffers.take (min commandBuffers.length count)
      ∧ (acquireCommandBuffers rep count commandBuffers w).added w
          = (if commandBuffers.length < count then
              [Event.vkAllocateCommandBuffers (count - commandBuffers.length)
                (result.drop commandBuffers.length)]
            else if count < commandBuffers.length then
              [Event.vkFreeCommandBuffers (commandBuffers.drop count)]
            else [])
      ∧ (result.drop commandBuffers.length).length = count - commandBuffers.length
      ∧ (commandBuffers.drop count).length = commandBuffers.length - count := by
  have hu := toUint32_of_le _ hlen
  refine ⟨_, _, acquireCommandBuffers_apply rep count commandBuffers w, ?_⟩
  rw [acquireCommandBuffers_apply]
  unfold acquiredCommandBuffers acquireEvents
  rw [hu]
  by_cases h1 : count > commandBuffers.length
  · have hmin : min commandBuffers.length count = commandBuffers.length := by omega
    have hres : writeAt (resize commandBuffers count) commandBuffers.length
        (writtenFrom (rep.status .vkAllocateCommandBuffers) w.fresh
          (count - commandBuffers.length))
        = commandBuffers ++ writtenFrom (rep.status .vkAllocateCommandBuffers) w.fresh
          (count - commandBuffers.length) := by
      rw [resize_of_le _ _ (by omega), writeAt_append]
      simp
    rw [if_pos h1, if_pos h1, if_pos h1, hres, hmin]
    refine ⟨by simp; omega, by simp, ?_, by simp, by simp⟩
    simp [Outcome.added, Outcome.world]
  · have h1b : ¬ commandBuffers.length < count := h1
    rw [if_neg h1, if_neg h1, if_neg h1b]
    by_cases h2 : count < commandBuffers.length
    · have hmin : min commandBuffers.length count = count := by omega
      rw [if_pos h2, if_pos h2, if_pos h2, resize_of_ge _ _ (by omega), hmin]
      refine ⟨by simp; omega, by simp, ?_, by simp; omega, by simp⟩
      simp [Outcome.added, Outcome.world]
    · have hmin : min commandBuffers.length count = count := by omega
      have heq : commandBuffers.length = count := by omega
      rw [if_neg h2, if_neg h2, if_neg h2, hmin]
      refine ⟨heq, rfl, ?_, by simp; omega, by simp⟩
      simp [Outcome.added, Outcome.world]

theorem acquiredCommandBuffers_length_eq (status : VkResult) (count : Nat)
    (commandBuffers : List Handle) (fresh : Nat) (hlen : commandBuffers.length ≤ UINT32_MAX) :
    (acquiredCommandBuffers status count commandBuffers fresh).length = count := by
  unfold acquiredCommandBuffers
  rw [toUint32_of_le _ hlen]
  split_ifs with h1 h2
  · rw [resize_of_le _ _ (by omega), writeAt_append _ _ _ (by simp)]
    simp
    omega
  · rw [resize_of_ge _ _ (by omega)]
    simp
    omega
  · omega

theorem imageCount_le (rep : SurfaceReport) : imageCount rep ≤ UINT32_MAX := by
  simp [imageCount, List.length_take]

theorem recreateSwapchain_commandBuffers_bound (setup : Setup) (rep : SurfaceReport) (w : World)
    (h : w.commandBuffers.length ≤ UINT32_MAX) :
    (recreateSwapchain setup rep w).world.commandBuffers.length ≤ UINT32_MAX := by
  rw [recreateSwapchain_apply, creatingNew_apply]
  split_ifs
  · cases selectedCompositeAlpha (adjustedCapabilities rep) with
    | none => simpa [Outcome.world] using h
    | some a =>
      cases selectedPresentMode rep.presentModes with
      | none => simpa [Outcome.world] using h
      | some m =>
        cases pipelineError setup setup.limits vertexBufferBinding with
        | some e => simpa [Outcome.world] using h
        | none =>
          simp only [andThen_returned, Outcome.world, oldKilled_commandBuffers,
            generationReady_commandBuffers, framebuffersReady_commandBuffers,
            prepared_commandBuffers]
          rw [acquiredCommandBuffers_length_eq _ _ _ _ h]
          exact imageCount_le rep
  · simpa [Outcome.world] using h

theorem render_commandBuffers (setup : Setup) (fuel : Nat) (reports : Nat → FrameReport)
    (w : World) :
    (render setup fuel reports w).world.commandBuffers = w.commandBuffers := by
  cases fuel with
  | zero => rfl
  | succ fuel =>
    rw [render_apply, renderTry_apply]
    split_ifs <;> rfl

theorem performAll_commandBuffers_bound (setup : Setup) (actions : List Action) (w : World)
    (h : w.commandBuffers.length ≤ UINT32_MAX) :
    (performAll setup actions w).world.commandBuffers.length ≤ UINT32_MAX := by
  induction actions generalizing w with
  | nil => exact h
  | cons a rest ih =>
    have hstep : (a.perform setup w).world.commandBuffers.length ≤ UINT32_MAX := by
      cases a with
      | recreateSwapchain rep =>
        have := recreateSwapchain_commandBuffers_bound setup rep w h
        simp only [Action.perform, bind_apply]
        cases hrun : recreateSwapchain setup rep w <;> rw [hrun] at this <;> exact this
      | render fuel reports =>
        simp only [Action.perform]
        rw [render_commandBuffers]
        exact h
    simp only [performAll, bind_apply]
    cases hrun : a.perform setup w with
    | returned u w1 =>
      rw [hrun] at hstep
      exact ih w1 hstep
    | threw e w1 => rw [hrun] at hstep; exact hstep
    | stopped st w1 => rw [hrun] at hstep; exact hstep

theorem recreateSwapchain_commandBuffers_length (setup : Setup) (rep : SurfaceReport)
    (w w1 : World) (hlen : w.commandBuffers.length ≤ UINT32_MAX)
    (h : recreateSwapchain setup rep w = .returned true w1) :
    w1.commandBuffers.length = imageCount rep := by
  obtain ⟨a, m, hw1⟩ := recreateSwapchain_returned_true setup rep w w1 h
  rw [hw1]
  simp only [oldKilled_commandBuffers, generationReady_commandBuffers,
    framebuffersReady_commandBuffers, prepared_commandBuffers]
  exact acquiredCommandBuffers_length_eq _ _ _ _ hlen

/-- C15: after a call of `recreateSwapchain` that returns true, made in any
state the event pump can reach from the initial one (or in any state whose
`commandBuffers` has a size that fits the `uint32_t` it is cast to),
`commandBuffers` holds one command buffer per swap-chain image; and
`acquireCommandBuffers` returns, leaves the vector with `count` handles, keeps
its first `min(old length, count)` handles, sends one allocation of
`count - old length` buffers (the new tail of the vector) when it grows, one
release of the `old length - count` buffers behind position `count` when it
shrinks, and nothing when the length is already `count`. -/
theorem C15_one_command_buffer_per_image (setup : Setup) :
    (∀ (actions : List Action) (rep : SurfaceReport) (w1 : World),
      recreateSwapchain setup rep (performAll setup actions World.initial).world
          = .returned true w1 →
        w1.commandBuffers.length = imageCount rep)
    ∧ (∀ (rep : SurfaceReport) (w w1 : World), w.commandBuffers.length ≤ UINT32_MAX →
        recreateSwapchain setup rep w = .returned true w1 →
        w1.commandBuffers.length = imageCount rep)
    ∧ (∀ (rep : SurfaceReport) (count : Nat) (commandBuffers : List Handle) (w : World),
      commandBuffers.length ≤ UINT32_MAX →
      ∃ result w1, acquireCommandBuffers rep count commandBuffers w = .returned result w1
        ∧ result.length = count
        ∧ result.take (min commandBuffers.length count)
            = commandBuffers.take (min commandBuffers.length count)
        ∧ (acquireCommandBuffers rep count commandBuffers w).added w
            = (if commandBuffers.length < count then
                [Event.vkAllocateCommandBuffers (count - commandBuffers.length)
                  (result.drop commandBuffers.length)]
              else if count < commandBuffers.length then
                [Event.vkFreeCommandBuffers (commandBuffers.drop count)]
              else [])
        ∧ (result.drop commandBuffers.length).length = count - commandBuffers.length
        ∧ (commandBuffers.drop count).length = commandBuffers.length - count) :=
  ⟨fun actions rep w1 h =>
      recreateSwapchain_commandBuffers_length setup rep _ w1
        (performAll_commandBuffers_bound setup actions World.initial (by decide)) h,
    fun rep w w1 hlen h => recreateSwapchain_commandBuffers_length setup rep w w1 hlen h,
    fun rep count commandBuffers w hlen =>
      acquireCommandBuffers_result rep count commandBuffers w hlen⟩

/-- A shrinking and a growing call of `acquireCommandBuffers` for C15. -/
theorem C15_one_command_buffer_per_image_witness :
    ([9, 10, 11] : List Handle).length ≤ UINT32_MAX
    ∧ (∃ result w1,
        acquireCommandBuffers (exampleReport 800 800) 2 [9, 10, 11] exampleActive
          = .returned result w1
        ∧ result.length = 2
        ∧ result.take (min ([9, 10, 11] : List Handle).length 2)
            = ([9, 10, 11] : List Handle).take (min ([9, 10, 11] : List Handle).length 2)
        ∧ (acquireCommandBuffers (exampleReport 800 800) 2 [9, 10, 11] exampleActive).added
              exampleActive
            = (if ([9, 10, 11] : List Handle).length < 2 then
                [Event.vkAllocateCommandBuffers (2 - ([9, 10, 11] : List Handle).length)
                  (result.drop ([9, 10, 11] : List Handle).length)]
              else if 2 < ([9, 10, 11] : List Handle).length then
                [Event.vkFreeCommandBuffers (([9, 10, 11] : List Handle).drop 2)]
              else [])
        ∧ (result.drop ([9, 10, 11] : List Handle).length).length
            = 2 - ([9, 10, 11] : List Handle).length
        ∧ (([9, 10, 11] : List Handle).drop 2).length = ([9, 10, 11] : List Handle).length - 2)
    ∧ exampleResized.commandBuffers.length = imageCount (exampleReport 640 480) :=
  ⟨by decide,
    (C15_one_command_buffer_per_image exampleSetup).2.2 (exampleReport 800 800) 2 [9, 10, 11]
      exampleActive (by decide),
    (C15_one_command_buffer_per_image exampleSetup).2.1 (exampleReport 640 480) exampleActive
      exampleResized (by decide!) (by decide!)⟩

/-! ### Layers -/

theorem foldl_push_eq_filter {α : Type} (p : α → Bool) (xs init : List α) :
    xs.foldl (fun acc x => if p x then acc ++ [x] else acc) init = init ++ xs.filter p := by
  induction xs generalizing init with
  | nil => simp
  | cons x xs ih =>
    simp only [List.foldl_cons, ih, List.filter_cons]
    by_cases h : p x <;> simp [h]

theorem isLayerSupported_iff (layer : String) (supportedLayers : List VkLayerProperties) :
    isLayerSupported layer supportedLayers = true
      ↔ ∃ prop ∈ supportedLayers, prop.layerName = layer := by
  simp only [isLayerSupported, List.any_eq_true, beq_iff_eq]
  constructor
  · rintro ⟨prop, hmem, h⟩
    exact ⟨prop, hmem, h.symm⟩
  · rintro ⟨prop, hmem, h⟩
    exact ⟨prop, hmem, h.symm⟩

theorem checkInstanceLayerSupport_eq_filter (requestedLayers : List String)
    (supportedLayers : List VkLayerProperties) :
    checkInstanceLayerSupport requestedLayers supportedLayers
      = requestedLayers.filter fun layer => isLayerSupported layer supportedLayers := by
  unfold checkInstanceLayerSupport
  rw [foldl_push_eq_filter]
  simp

/-- C19: `checkInstanceLayerSupport` is a total function, and for every list of
requested layers and every list of supported layers its value is the list of
the requested layers whose name is the name of some supported layer, in the
order requested and each as often as it was requested. -/
theorem C19_unsupported_layers_dropped (requestedLayers : List String)
    (supportedLayers : List VkLayerProperties) :
    checkInstanceLayerSupport requestedLayers supportedLayers
        = requestedLayers.filter
            (fun layer => decide (∃ prop ∈ supportedLayers, prop.layerName = layer))
    ∧ (∀ layer, layer ∈ checkInstanceLayerSupport requestedLayers supportedLayers
        ↔ layer ∈ requestedLayers ∧ ∃ prop ∈ supportedLayers, prop.layerName = layer)
    ∧ (∀ layer, (checkInstanceLayerSupport requestedLayers supportedLayers).count layer
        = if ∃ prop ∈ supportedLayers, prop.layerName = layer then requestedLayers.count layer
          else 0)
    ∧ (checkInstanceLayerSupport requestedLayers supportedLayers).Sublist requestedLayers := by
  have hfilter : checkInstanceLayerSupport requestedLayers supportedLayers
      = requestedLayers.filter
          (fun layer => decide (∃ prop ∈ supportedLayers, prop.layerName = layer)) := by
    rw [checkInstanceLayerSupport_eq_filter]
    apply List.filter_congr
    intro layer _
    rw [Bool.eq_iff_iff, isLayerSupported_iff]
    simp
  refine ⟨hfilter, ?_, ?_, ?_⟩
  · intro layer
    rw [hfilter, List.mem_filter]
    simp
  · intro layer
    by_cases h : ∃ prop ∈ supportedLayers, prop.layerName = layer
    · rw [if_pos h, hfilter, List.count_filter (by simpa using h)]
    · rw [if_neg h, List.count_eq_zero, hfilter, List.mem_filter]
      rintro ⟨-, h2⟩
      exact h (by simpa using h2)
  · rw [hfilter]
    exact List.filter_sublist _

/-! ### The registry of dispatch tables -/

theorem Registry.ext_fields (r s : Registry)
    (h1 : r.instanceExtensionsMap = s.instanceExtensionsMap)
    (h2 : r.instanceDispatchTable = s.instanceDispatchTable)
    (h3 : r.deviceExtensionsMap = s.deviceExtensionsMap)
    (h4 : r.deviceDispatchTable = s.deviceDispatchTable) : r = s := by
  cases r
  cases s
  simp only at h1 h2 h3 h4
  rw [h1, h2, h3, h4]

/-- C17: in the registry modelled from the specification, unloading the table
of an instance `a` (of a device `a`) leaves the extension list and every
dispatch-table entry of any other instance (device) `b` as they were and does
not touch the tables of the other kind of owner; and unloading an owner that
has no table leaves the whole registry as it was. -/
theorem C17_unload_leaves_other_owners (r : Registry) (a b : Handle) (hab : a ≠ b) :
    ((r.unloadInstanceExtensionsCommands a).instanceExtensionsMap b = r.instanceExtensionsMap b
      ∧ (∀ c, (r.unloadInstanceExtensionsCommands a).instanceDispatchTable c b
          = r.instanceDispatchTable c b)
      ∧ (r.unloadInstanceExtensionsCommands a).deviceExtensionsMap = r.deviceExtensionsMap
      ∧ (r.unloadInstanceExtensionsCommands a).deviceDispatchTable = r.deviceDispatchTable)
    ∧ ((r.unloadDeviceExtensionsCommands a).deviceExtensionsMap b = r.deviceExtensionsMap b
      ∧ (∀ c, (r.unloadDeviceExtensionsCommands a).deviceDispatchTable c b
          = r.deviceDispatchTable c b)
      ∧ (r.unloadDeviceExtensionsCommands a).instanceExtensionsMap = r.instanceExtensionsMap
      ∧ (r.unloadDeviceExtensionsCommands a).instanceDispatchTable = r.instanceDispatchTable)
    ∧ (r.instanceNeverLoaded a → r.unloadInstanceExtensionsCommands a = r)
    ∧ (r.deviceNeverLoaded a → r.unloadDeviceExtensionsCommands a = r) := by
  have hba : ¬ b = a := fun h => hab h.symm
  refine ⟨⟨?_, ?_, rfl, rfl⟩, ⟨?_, ?_, rfl, rfl⟩, ?_, ?_⟩
  · simp [Registry.unloadInstanceExtensionsCommands, hba]
  · intro c
    simp [Registry.unloadInstanceExtensionsCommands, hba]
  · simp [Registry.unloadDeviceExtensionsCommands, hba]
  · intro c
    simp [Registry.unloadDeviceExtensionsCommands, hba]
  · rintro ⟨h1, h2⟩
    refine Registry.ext_fields _ _ ?_ ?_ rfl rfl
    · funext owner
      by_cases h : owner = a <;> simp [Registry.unloadInstanceExtensionsCommands, h, h1]
    · funext c owner
      by_cases h : owner = a <;> simp [Registry.unloadInstanceExtensionsCommands, h, h2]
  · rintro ⟨h1, h2⟩
    refine Registry.ext_fields _ _ rfl rfl ?_ ?_
    · funext owner
      by_cases h : owner = a <;> simp [Registry.unloadDeviceExtensionsCommands, h, h1]
    · funext c owner
      by_cases h : owner = a <;> simp [Registry.unloadDeviceExtensionsCommands, h, h2]

/-- The instance 1 is loaded and the instance 2, which never was, is unloaded. -/
theorem C17_unload_leaves_other_owners_witness :
    (2 : Handle) ≠ 1
    ∧ exampleRegistry.instanceDispatchTable "vkSubmitDebugUtilsMessageEXT" 1 = some 4096
    ∧ (exampleRegistry.unloadInstanceExtensionsCommands 2).instanceDispatchTable
        "vkSubmitDebugUtilsMessageEXT" 1 = some 4096
    ∧ exampleRegistry.instanceNeverLoaded 2
    ∧ exampleRegistry.unloadInstanceExtensionsCommands 2 = exampleRegistry :=
  have h := C17_unload_leaves_other_owners exampleRegistry 2 1 (by decide)
  have hn : exampleRegistry.instanceNeverLoaded 2 := ⟨by decide!, fun c => by
    simp [exampleRegistry, Registry.loadInstanceExtensionsCommands, Registry.empty]⟩
  ⟨by decide, by decide!, by rw [h.1.2.1]; decide!, hn, h.2.2.1 hn⟩

/-! ### Instance, device and the debug extension -/

theorem isExtensionSupported_iff (extension : String) (supported : List VkExtensionProperties) :
    isExtensionSupported extension supported = true ↔ Supports supported extension := by
  simp only [isExtensionSupported, Supports, List.any_eq_true, beq_iff_eq]
  constructor
  · rintro ⟨prop, hmem, h⟩
    exact ⟨prop, hmem, h.symm⟩
  · rintro ⟨prop, hmem, h⟩
    exact ⟨prop, hmem, h.symm⟩

theorem selectDebugExtension_utils (supported : List VkExtensionProperties)
    (requested : List String) (w : World)
    (h : Supports supported VK_EXT_DEBUG_UTILS_EXTENSION_NAME) :
    selectDebugExtension supported requested w
      = .returned (.debugUtils, requested ++ [VK_EXT_DEBUG_UTILS_EXTENSION_NAME]) w := by
  unfold selectDebugExtension
  rw [if_pos ((isExtensionSupported_iff _ _).2 h)]
  rfl

theorem selectDebugExtension_report (supported : List VkExtensionProperties)
    (requested : List String) (w : World)
    (h1 : ¬ Supports supported VK_EXT_DEBUG_UTILS_EXTENSION_NAME)
    (h2 : Supports supported VK_EXT_DEBUG_REPORT_EXTENSION_NAME) :
    selectDebugExtension supported requested w
      = .returned (.debugReport, requested ++ [VK_EXT_DEBUG_REPORT_EXTENSION_NAME]) w := by
  unfold selectDebugExtension
  rw [if_neg (fun h => h1 ((isExtensionSupported_iff _ _).1 h)),
    if_pos ((isExtensionSupported_iff _ _).2 h2)]
  rfl

theorem selectDebugExtension_neither (supported : List VkExtensionProperties)
    (requested : List String) (w : World)
    (h1 : ¬ Supports supported VK_EXT_DEBUG_UTILS_EXTENSION_NAME)
    (h2 : ¬ Supports supported VK_EXT_DEBUG_REPORT_EXTENSION_NAME) :
    selectDebugExtension supported requested w
      = .threw (.cString ("VULKAN_VALIDATION is enabled but neither VK_EXT_debug_utils "
          ++ "nor VK_EXT_debug_report extension is supported!")) w := by
  unfold selectDebugExtension
  rw [if_neg (fun h => h1 ((isExtensionSupported_iff _ _).1 h)),
    if_neg (fun h => h2 ((isExtensionSupported_iff _ _).1 h))]
  rfl

theorem construct_threw_of_neither (st : Startup) (w : World) (hv : st.validation = true)
    (h1 : ¬ Supports (getSupportedInstanceExtensions st (requestedLayersOf st))
      VK_EXT_DEBUG_UTILS_EXTENSION_NAME)
    (h2 : ¬ Supports (getSupportedInstanceExtensions st (requestedLayersOf st))
      VK_EXT_DEBUG_REPORT_EXTENSION_NAME) :
    ∃ message, VulkanManager.construct st w = .threw (.cString message) w := by
  unfold VulkanManager.construct
  simp only [hv, if_true, bind_apply, ite_apply]
  by_cases hl : isLayerSupported "VK_LAYER_KHRONOS_validation" st.supportedLayers = true
  · have hsel := selectDebugExtension_neither _ (baseInstanceExtensions st) w h1 h2
    simp only [requestedLayersOf, hv, if_true, baseInstanceExtensions, List.cons_append,
      List.nil_append, List.singleton_append] at hsel
    simp [hl, VulkanConfig.useAssistantLayer, VulkanConfig.fpsCounter, hsel]
  · simp [hl]

theorem enables_iff (extensions : List String) (name : String) :
    enables extensions name = true ↔ name ∈ extensions := by
  simp [enables]

theorem initInstance_apply (st : Startup) (layers extensions : List String) (w : World) :
    initInstance st layers extensions w =
      if st.validation = true ∧ enables extensions VK_EXT_DEBUG_UTILS_EXTENSION_NAME = false
          ∧ enables extensions VK_EXT_DEBUG_REPORT_EXTENSION_NAME = false then
        .threw (.cString ("VULKAN_VALIDATION is enabled but neither VK_EXT_debug_utils "
          ++ "nor VK_EXT_debug_report extension is being enabled!")) w
      else
        .returned (written (st.status .vkCreateInstance) w.fresh)
          { w with
            fresh := w.fresh + 1
            trace := w.trace ++
              [ Event.vkCreateInstance (debugpNextOf st extensions) (toUint32 layers.length) layers
                  (toUint32 extensions.length) extensions
                  (written (st.status .vkCreateInstance) w.fresh),
                Event.loadInstanceExtensionsCommands
                  (written (st.status .vkCreateInstance) w.fresh) extensions ] } := by
  unfold initInstance debugpNextOf enables
  by_cases hv : st.validation = true
  · cases h1 : extensions.any (fun e => e == VK_EXT_DEBUG_UTILS_EXTENSION_NAME) <;>
      cases h2 : extensions.any (fun e => e == VK_EXT_DEBUG_REPORT_EXTENSION_NAME) <;>
      simp only [hv, h1, h2, if_true, bind_apply, Bool.not_false, Bool.not_true, Bool.and_self,
        Bool.and_false, Bool.false_and, throwException_apply, andThen_threw, pure_apply,
        andThen_returned, newHandle_apply, emit_apply, RESULT_HANDLER_apply, and_self,
        Bool.false_eq_true, if_false, and_false, and_true, false_and, Bool.true_eq_false] <;>
      simp
  · have hv2 : st.validation = false := by simpa using hv
    simp [hv2]

theorem killInstance_apply (vkInstance : Handle) (w : World) :
    killInstance vkInstance w = .returned ()
      { w with
        trace := w.trace ++ [Event.unloadInstanceExtensionsCommands vkInstance,
          Event.vkDestroyInstance vkInstance] } := by
  simp [killInstance]

theorem initDevice_apply (st : Startup) (physDevice : PhysicalDevice) (g p : Nat)
    (layers extensions : List String) (w : World) :
    initDevice st physDevice g p layers extensions w =
      .returned (written (st.status .vkCreateDevice) w.fresh)
        { w with
          fresh := w.fresh + 1
          trace := w.trace ++
            [ Event.vkCreateDevice physDevice.handle (if p ≠ g then [g, p] else [g])
                (toUint32 layers.length) layers (toUint32 extensions.length) extensions
                (written (st.status .vkCreateDevice) w.fresh),
              Event.loadDeviceExtensionsCommands (written (st.status .vkCreateDevice) w.fresh)
                extensions ] } := by
  simp [initDevice]

theorem killDevice_apply (device : Handle) (w : World) :
    killDevice device w = .returned ()
      { w with
        trace := w.trace ++ [Event.unloadDeviceExtensionsCommands device,
          Event.vkDestroyDevice device] } := by
  simp [killDevice]

theorem enables_append_singleton (base : List String) (name : String) :
    enables (base ++ [name]) name = true := by
  simp [enables]

theorem construct_instance_request (st : Startup) (w : World) (hv : st.validation = true)
    (pNext : Option DebugObjectType) (n m : Nat) (layers exts : List String) (h : Handle)
    (hmem : Event.vkCreateInstance pNext n layers m exts h
      ∈ (VulkanManager.construct st w).added w) :
    (Supports (getSupportedInstanceExtensions st (requestedLayersOf st))
        VK_EXT_DEBUG_UTILS_EXTENSION_NAME
      ∧ exts = baseInstanceExtensions st ++ [VK_EXT_DEBUG_UTILS_EXTENSION_NAME])
    ∨ (¬ Supports (getSupportedInstanceExtensions st (requestedLayersOf st))
        VK_EXT_DEBUG_UTILS_EXTENSION_NAME
      ∧ Supports (getSupportedInstanceExtensions st (requestedLayersOf st))
        VK_EXT_DEBUG_REPORT_EXTENSION_NAME
      ∧ exts = baseInstanceExtensions st ++ [VK_EXT_DEBUG_REPORT_EXTENSION_NAME]) := by
  by_cases hl : isLayerSupported "VK_LAYER_KHRONOS_validation" st.supportedLayers = true
  · by_cases h1 : Supports (getSupportedInstanceExtensions st (requestedLayersOf st))
        VK_EXT_DEBUG_UTILS_EXTENSION_NAME
    · left
      refine ⟨h1, ?_⟩
      have hsel := selectDebugExtension_utils _ (baseInstanceExtensions st) w h1
      have hen := enables_append_singleton (baseInstanceExtensions st)
        VK_EXT_DEBUG_UTILS_EXTENSION_NAME
      simp only [requestedLayersOf, hv, if_true, baseInstanceExtensions, List.cons_append,
        List.nil_append, List.singleton_append] at hsel hen ⊢
      unfold VulkanManager.construct at hmem
      simp [hv, hl, VulkanConfig.useAssistantLayer, VulkanConfig.fpsCounter, hsel,
        initInstance_apply, hen, initDebug, create, Outcome.added, Outcome.world] at hmem
      exact hmem.2.2.2.2.1
    · by_cases h2 : Supports (getSupportedInstanceExtensions st (requestedLayersOf st))
          VK_EXT_DEBUG_REPORT_EXTENSION_NAME
      · right
        refine ⟨h1, h2, ?_⟩
        have hsel := selectDebugExtension_report _ (baseInstanceExtensions st) w h1 h2
        have hen := enables_append_singleton (baseInstanceExtensions st)
          VK_EXT_DEBUG_REPORT_EXTENSION_NAME
        simp only [requestedLayersOf, hv, if_true, baseInstanceExtensions, List.cons_append,
          List.nil_append, List.singleton_append] at hsel hen ⊢
        unfold VulkanManager.construct at hmem
        simp [hv, hl, VulkanConfig.useAssistantLayer, VulkanConfig.fpsCounter, hsel,
          initInstance_apply, hen, initDebug, create, Outcome.added, Outcome.world] at hmem
        exact hmem.2.2.2.2.1
      · obtain ⟨message, hthrew⟩ := construct_threw_of_neither st w hv h1 h2
        rw [hthrew] at hmem
        simp [Outcome.added, Outcome.world] at hmem
  · unfold VulkanManager.construct at hmem
    simp [hv, hl, Outcome.added, Outcome.world] at hmem

/-! ### The handlers of `helloTriangle` -/

section quiet
variable {α β : Type}

theorem quiet_pure (a : α) : Quiet (pure a : M α) := ⟨fun _ => rfl⟩

theorem quiet_throw (e : Exception) : Quiet (throwException e : M α) := ⟨fun _ => rfl⟩

theorem quiet_bind {m : M α} {f : α → M β} (hm : Quiet m) (hf : ∀ a, Quiet (f a)) :
    Quiet (m >>= f) := by
  constructor
  intro w
  have h1 := hm.filter_eq w
  rw [bind_apply]
  cases hrun : m w with
  | returned a w1 =>
    rw [hrun] at h1
    rw [andThen_returned, (hf a).filter_eq w1]
    exact h1
  | threw e w1 => rw [hrun] at h1; exact h1
  | stopped s w1 => rw [hrun] at h1; exact h1

theorem quiet_emit (e : Event) (h : e.isRender = false) : Quiet (emit e) := by
  constructor
  intro w
  simp [Outcome.world, List.filter_append, List.filter, h]

theorem quiet_modifyWorld (f : World → World) (h : ∀ w, (f w).trace = w.trace) :
    Quiet (modifyWorld f) := by
  constructor
  intro w
  simp [Outcome.world, h]

theorem quiet_newHandle (status : VkResult) : Quiet (newHandle status) := ⟨fun _ => rfl⟩

theorem quiet_RESULT_HANDLER (errorCode : VkResult) (source : String) :
    Quiet (RESULT_HANDLER errorCode source) := ⟨fun _ => rfl⟩

theorem quiet_ite {c : Prop} [Decidable c] {m n : M α} (hm : Quiet m) (hn : Quiet n) :
    Quiet (if c then m else n) := by
  split_ifs
  · exact hm
  · exact hn

end quiet

theorem quiet_create (st : Startup) (command : Command) (name : String) (arguments : List Nat) :
    Quiet (create st command name arguments) := by
  unfold create
  exact quiet_bind (quiet_newHandle _) fun _ =>
    quiet_bind (quiet_emit _ rfl) fun _ => quiet_bind (quiet_RESULT_HANDLER _ _) fun _ =>
      quiet_pure _

theorem quiet_initInstance (st : Startup) (layers extensions : List String) :
    Quiet (initInstance st layers extensions) := by
  unfold initInstance
  repeat' first
    | exact quiet_pure _
    | exact quiet_throw _
    | exact quiet_newHandle _
    | exact quiet_RESULT_HANDLER _ _
    | exact quiet_emit _ rfl
    | apply quiet_ite
    | apply quiet_bind
    | intro _

theorem quiet_initDebug (st : Startup) (vkInstance : Handle) (tag : DebugObjectType) :
    Quiet (initDebug st vkInstance tag) := by
  unfold initDebug
  cases tag <;>
  repeat' first
    | exact quiet_pure _
    | exact quiet_throw _
    | exact quiet_create _ _ _ _
    | exact quiet_emit _ rfl
    | apply quiet_ite
    | apply quiet_bind
    | intro _

theorem quiet_selectDebugExtension (supported : List VkExtensionProperties)
    (requested : List String) : Quiet (selectDebugExtension supported requested) := by
  unfold selectDebugExtension
  repeat' first
    | exact quiet_pure _
    | exact quiet_throw _
    | apply quiet_ite

theorem quiet_construct (st : Startup) : Quiet (VulkanManager.construct st) := by
  unfold VulkanManager.construct
  repeat' first
    | exact quiet_pure _
    | exact quiet_throw _
    | exact quiet_initInstance _ _ _
    | exact quiet_initDebug _ _ _
    | exact quiet_selectDebugExtension _ _
    | exact quiet_emit _ rfl
    | apply quiet_ite
    | apply quiet_bind
    | intro _
    | split

theorem quiet_getPhysicalDevice (st : Startup) (vkInstance surface : Handle) :
    Quiet (getPhysicalDevice st vkInstance surface) := by
  unfold getPhysicalDevice
  dsimp only
  repeat' first
    | exact quiet_pure _
    | exact quiet_throw _
    | exact quiet_emit _ rfl
    | apply quiet_ite
    | apply quiet_bind
    | intro _
    | split

theorem quiet_getQueueFamilies (physDevice : PhysicalDevice) :
    Quiet (getQueueFamilies physDevice) := by
  unfold getQueueFamilies
  repeat' first
    | exact quiet_pure _
    | exact quiet_throw _
    | apply quiet_ite

theorem quiet_initDevice (st : Startup) (physDevice : PhysicalDevice) (g p : Nat)
    (layers extensions : List String) : Quiet (initDevice st physDevice g p layers extensions) := by
  unfold initDevice
  repeat' first
    | exact quiet_pure _
    | exact quiet_newHandle _
    | exact quiet_RESULT_HANDLER _ _
    | exact quiet_emit _ rfl
    | apply quiet_bind
    | intro _

theorem quiet_getSurfaceFormat (physicalDevice : PhysicalDevice) :
    Quiet (getSurfaceFormat physicalDevice) := by
  unfold getSurfaceFormat
  dsimp only
  repeat' first
    | exact quiet_pure _
    | exact quiet_throw _
    | apply quiet_ite
    | apply quiet_bind
    | intro _
    | split

theorem quiet_initMemory (st : Startup) (device : Handle) (physicalDevice : PhysicalDevice)
    (resource : Handle) (priority : List Nat) :
    Quiet (initMemory st device physicalDevice resource priority) := by
  unfold initMemory
  repeat' first
    | exact quiet_pure _
    | exact quiet_throw _
    | exact quiet_create _ _ _ _
    | exact quiet_RESULT_HANDLER _ _
    | exact quiet_emit _ rfl
    | apply quiet_ite
    | apply quiet_bind
    | intro _

theorem quiet_setMemoryData (st : Startup) (device memory : Handle) (size : Nat) :
    Quiet (setMemoryData st device memory size) := by
  unfold setMemoryData
  repeat' first
    | exact quiet_pure _
    | exact quiet_RESULT_HANDLER _ _
    | exact quiet_emit _ rfl
    | apply quiet_bind
    | intro _

theorem quiet_initialise (st : Startup) : Quiet (initialise st) := by
  unfold initialise
  repeat' first
    | with_reducible apply quiet_bind
    | intro _
    | with_reducible exact quiet_pure _
    | with_reducible exact quiet_modifyWorld _ (fun _ => rfl)
    | with_reducible exact quiet_construct _
    | with_reducible exact quiet_getPhysicalDevice _ _ _
    | with_reducible exact quiet_getQueueFamilies _
    | with_reducible exact quiet_initDevice _ _ _ _ _ _
    | with_reducible exact quiet_getSurfaceFormat _
    | with_reducible exact quiet_initMemory _ _ _ _ _
    | with_reducible exact quiet_setMemoryData _ _ _ _
    | exact quiet_emit _ rfl
    | exact quiet_create _ _ _ _

theorem helloTriangle_of_threw (st : Startup) (actions : List Action) (exitCode : Int)
    (w v : World) (e : Exception) (h : helloTriangleBody st actions exitCode w = .threw e v) :
    helloTriangle st actions exitCode w = .returned EXIT_FAILURE v := by
  unfold helloTriangle
  rw [tryCatch_apply, h]
  cases e <;> rfl

theorem helloTriangle_of_returned (st : Startup) (actions : List Action) (exitCode : Int)
    (w v : World) (x : Int) (h : helloTriangleBody st actions exitCode w = .returned x v) :
    helloTriangle st actions exitCode w = .returned x v := by
  unfold helloTriangle
  rw [tryCatch_apply, h]
  rfl

theorem helloTriangle_never_throws (st : Startup) (actions : List Action) (exitCode : Int)
    (w v : World) (e : Exception) : helloTriangle st actions exitCode w ≠ .threw e v := by
  cases hb : helloTriangleBody st actions exitCode w with
  | returned x v1 => rw [helloTriangle_of_returned _ _ _ _ _ _ hb]; intro h; cases h
  | threw e1 v1 => rw [helloTriangle_of_threw _ _ _ _ _ _ hb]; intro h; cases h
  | stopped s v1 =>
    unfold helloTriangle
    rw [tryCatch_apply, hb]
    intro h
    cases h

theorem helloTriangleBody_of_initialise_threw (st : Startup) (actions : List Action)
    (exitCode : Int) (w v : World) (e : Exception) (h : initialise st w = .threw e v) :
    helloTriangleBody st actions exitCode w = .threw e v := by
  unfold helloTriangleBody
  rw [bind_apply, h]
  rfl

theorem bind_returned {α β : Type} {m : M α} {f : α → M β} {w v : World} {b : β}
    (h : (m >>= f) w = .returned b v) : ∃ a w1, m w = .returned a w1 ∧ f a w1 = .returned b v := by
  rw [bind_apply] at h
  cases hm : m w with
  | returned a w1 => rw [hm] at h; exact ⟨a, w1, rfl, h⟩
  | threw e w1 => rw [hm] at h; cases h
  | stopped s w1 => rw [hm] at h; cases h

theorem messageLoop_returned (setup : Setup) (actions : List Action) (exitCode : Int)
    (w v : World) (x : Int) (h : messageLoop setup actions exitCode w = .returned x v) :
    x = exitCode := by
  obtain ⟨_, w1, _, h2⟩ := bind_returned h
  injection h2 with hx _
  exact hx.symm

theorem helloTriangleBody_returned (st : Startup) (actions : List Action) (exitCode : Int)
    (w v : World) (x : Int) (h : helloTriangleBody st actions exitCode w = .returned x v) :
    x = exitCode := by
  obtain ⟨loc, w1, _, h1⟩ := bind_returned h
  obtain ⟨_, w2, _, h2⟩ := bind_returned h1
  obtain ⟨exitStatus, w3, h3, h4⟩ := bind_returned h2
  obtain ⟨_, w4, _, h5⟩ := bind_returned h4
  injection h5 with hx _
  rw [← hx]
  exact messageLoop_returned _ _ _ _ _ _ h3

/-- C20: whatever exception the `try` block of `helloTriangle` raises (a
`VulkanResultException`, a C string, a `std::string`, a `std::exception`, or
anything else), `helloTriangle` returns `EXIT_FAILURE`; when the block returns,
`helloTriangle` returns its value, which is the exit status of `messageLoop`;
`helloTriangle` itself never throws; and when the initialisation raises an
exception the run returns `EXIT_FAILURE` without a single call of `render`. -/
theorem C20_every_error_is_exit_failure (st : Startup) (actions : List Action) (exitCode : Int)
    (w : World) :
    (∀ e v, helloTriangleBody st actions exitCode w = .threw e v →
      helloTriangle st actions exitCode w = .returned EXIT_FAILURE v)
    ∧ (∀ x v, helloTriangleBody st actions exitCode w = .returned x v →
      helloTriangle st actions exitCode w = .returned x v ∧ x = exitCode)
    ∧ (∀ e v, helloTriangle st actions exitCode w ≠ .threw e v)
    ∧ (∀ e v, initialise st w = .threw e v →
      helloTriangle st actions exitCode w = .returned EXIT_FAILURE v
        ∧ v.trace.filter Event.isRender = w.trace.filter Event.isRender) := by
  refine ⟨fun e v h => helloTriangle_of_threw st actions exitCode w v e h,
    fun x v h => ⟨helloTriangle_of_returned st actions exitCode w v x h,
      helloTriangleBody_returned st actions exitCode w v x h⟩,
    fun e v => helloTriangle_never_throws st actions exitCode w v e, ?_⟩
  intro e v h
  refine ⟨helloTriangle_of_threw st actions exitCode w v e
    (helloTriangleBody_of_initialise_threw st actions exitCode w v e h), ?_⟩
  have := (quiet_initialise st).filter_eq w
  rw [h] at this
  exact this

/-- A start-up of C20 on a platform without the validation layer, and a run
that ends with the exit status 5. -/
theorem C20_every_error_is_exit_failure_witness :
    (∃ message, initialise exampleNoLayer World.initial
        = .threw (.cString message) World.initial)
    ∧ helloTriangle exampleNoLayer exampleMinimised 0 World.initial
        = .returned EXIT_FAILURE World.initial
    ∧ (helloTriangle exampleStartup [] 5 World.initial).value? = some 5 :=
  have h : initialise exampleNoLayer World.initial
      = .threw (.cString ("VULKAN_VALIDATION is enabled but "
          ++ "VK_LAYER_KHRONOS_validation layers are not supported!")) World.initial := by
    decide!
  ⟨⟨_, h⟩,
    ((C20_every_error_is_exit_failure exampleNoLayer exampleMinimised 0 World.initial).2.2.2
      _ _ h).1,
    by decide!⟩

/-! ### The debug extension and the owners of tables -/

/-- C16: the block that selects the debug extension returns `debug_utils`, and
adds it to the request, whenever it is supported; it returns `debug_report`,
and adds it to the request, when `debug_utils` is not supported and
`debug_report` is; it adds nothing else; otherwise it throws. With
`VULKAN_VALIDATION` set, every instance the start-up creates is created with
the extensions requested before plus the one selected, `initInstance` throws
before it creates anything when its list names neither extension, and when
neither extension is supported `helloTriangle` returns `EXIT_FAILURE` without
having sent any command, so no instance has been created. -/
theorem C16_debug_extension_negotiation (st : Startup) (actions : List Action) (exitCode : Int)
    (supported : List VkExtensionProperties) (requested : List String) (w : World) :
    (Supports supported VK_EXT_DEBUG_UTILS_EXTENSION_NAME →
      selectDebugExtension supported requested w
        = .returned (.debugUtils, requested ++ [VK_EXT_DEBUG_UTILS_EXTENSION_NAME]) w)
    ∧ (¬ Supports supported VK_EXT_DEBUG_UTILS_EXTENSION_NAME →
      Supports supported VK_EXT_DEBUG_REPORT_EXTENSION_NAME →
      selectDebugExtension supported requested w
        = .returned (.debugReport, requested ++ [VK_EXT_DEBUG_REPORT_EXTENSION_NAME]) w)
    ∧ (¬ Supports supported VK_EXT_DEBUG_UTILS_EXTENSION_NAME →
      ¬ Supports supported VK_EXT_DEBUG_REPORT_EXTENSION_NAME →
      ∃ message, selectDebugExtension supported requested w = .threw (.cString message) w)
    ∧ (st.validation = true →
      ∀ pNext n layers m exts h,
        Event.vkCreateInstance pNext n layers m exts h
            ∈ (VulkanManager.construct st w).added w →
          (Supports (getSupportedInstanceExtensions st (requestedLayersOf st))
              VK_EXT_DEBUG_UTILS_EXTENSION_NAME
            ∧ exts = baseInstanceExtensions st ++ [VK_EXT_DEBUG_UTILS_EXTENSION_NAME])
          ∨ (¬ Supports (getSupportedInstanceExtensions st (requestedLayersOf st))
              VK_EXT_DEBUG_UTILS_EXTENSION_NAME
            ∧ Supports (getSupportedInstanceExtensions st (requestedLayersOf st))
              VK_EXT_DEBUG_REPORT_EXTENSION_NAME
            ∧ exts = baseInstanceExtensions st ++ [VK_EXT_DEBUG_REPORT_EXTENSION_NAME]))
    ∧ (st.validation = true →
      VK_EXT_DEBUG_UTILS_EXTENSION_NAME ∉ requested →
      VK_EXT_DEBUG_REPORT_EXTENSION_NAME ∉ requested →
      ∀ layers, ∃ message, initInstance st layers requested w = .threw (.cString message) w)
    ∧ (st.validation = true →
      ¬ Supports (getSupportedInstanceExtensions st (requestedLayersOf st))
        VK_EXT_DEBUG_UTILS_EXTENSION_NAME →
      ¬ Supports (getSupportedInstanceExtensions st (requestedLayersOf st))
        VK_EXT_DEBUG_REPORT_EXTENSION_NAME →
      helloTriangle st actions exitCode w = .returned EXIT_FAILURE w) := by
  refine ⟨selectDebugExtension_utils supported requested w,
    selectDebugExtension_report supported requested w,
    fun h1 h2 => ⟨_, selectDebugExtension_neither supported requested w h1 h2⟩,
    fun hv pNext n layers m exts h hmem =>
      construct_instance_request st w hv pNext n m layers exts h hmem, ?_, ?_⟩
  · intro hv h1 h2 layers
    have e1 : enables requested VK_EXT_DEBUG_UTILS_EXTENSION_NAME = false := by
      rw [← Bool.not_eq_true, enables_iff]
      exact h1
    have e2 : enables requested VK_EXT_DEBUG_REPORT_EXTENSION_NAME = false := by
      rw [← Bool.not_eq_true, enables_iff]
      exact h2
    rw [initInstance_apply, if_pos ⟨hv, e1, e2⟩]
    exact ⟨_, rfl⟩
  · intro hv h1 h2
    obtain ⟨message, hthrew⟩ := construct_threw_of_neither st w hv h1 h2
    apply helloTriangle_of_threw
    apply helloTriangleBody_of_initialise_threw
    unfold initialise
    rw [bind_apply, hthrew]
    rfl

/-- A platform with neither debug extension, and one with both, for C16. -/
theorem C16_debug_extension_negotiation_witness :
    exampleNoDebug.validation = true
    ∧ ¬ Supports (getSupportedInstanceExtensions exampleNoDebug (requestedLayersOf exampleNoDebug))
        VK_EXT_DEBUG_UTILS_EXTENSION_NAME
    ∧ ¬ Supports (getSupportedInstanceExtensions exampleNoDebug (requestedLayersOf exampleNoDebug))
        VK_EXT_DEBUG_REPORT_EXTENSION_NAME
    ∧ helloTriangle exampleNoDebug exampleMinimised 0 World.initial
        = .returned EXIT_FAILURE World.initial
    ∧ Supports exampleStartup.instanceExtensions VK_EXT_DEBUG_UTILS_EXTENSION_NAME
    ∧ selectDebugExtension exampleStartup.instanceExtensions
          (baseInstanceExtensions exampleStartup) World.initial
        = .returned (.debugUtils,
            baseInstanceExtensions exampleStartup ++ [VK_EXT_DEBUG_UTILS_EXTENSION_NAME])
          World.initial :=
  ⟨rfl, by decide!, by decide!,
    (C16_debug_extension_negotiation exampleNoDebug exampleMinimised 0 [] []
      World.initial).2.2.2.2.2 rfl (by decide!) (by decide!),
    by decide!,
    (C16_debug_extension_negotiation exampleStartup [] 0 exampleStartup.instanceExtensions
      (baseInstanceExtensions exampleStartup) World.initial).1 (by decide!)⟩

/-- C18: `initInstance` either throws before it creates anything or sends
exactly `vkCreateInstance` followed at once by `loadInstanceExtensionsCommands`
for the handle just written and with the extension list given to the creation;
`initDevice` sends exactly `vkCreateDevice` followed at once by
`loadDeviceExtensionsCommands` for the handle just written and with the
extension list given to the creation; `killInstance` and `killDevice` send
exactly the unload for the owner and then its destruction. -/
theorem C18_tables_follow_owners (st : Startup) (layers extensions : List String) (w : World) :
    ((∃ message, initInstance st layers extensions w = .threw (.cString message) w)
      ∨ ∃ vkInstance w1, initInstance st layers extensions w = .returned vkInstance w1
          ∧ (initInstance st layers extensions w).added w
            = [ Event.vkCreateInstance (debugpNextOf st extensions) (toUint32 layers.length)
                  layers (toUint32 extensions.length) extensions vkInstance,
                Event.loadInstanceExtensionsCommands vkInstance extensions ])
    ∧ (∀ (physDevice : PhysicalDevice) (g p : Nat),
        ∃ device w1, initDevice st physDevice g p layers extensions w = .returned device w1
          ∧ (initDevice st physDevice g p layers extensions w).added w
            = [ Event.vkCreateDevice physDevice.handle (if p ≠ g then [g, p] else [g])
                  (toUint32 layers.length) layers (toUint32 extensions.length) extensions device,
                Event.loadDeviceExtensionsCommands device extensions ])
    ∧ (∀ vkInstance : Handle, ∃ w1, killInstance vkInstance w = .returned () w1
        ∧ (killInstance vkInstance w).added w
          = [Event.unloadInstanceExtensionsCommands vkInstance, Event.vkDestroyInstance vkInstance])
    ∧ (∀ device : Handle, ∃ w1, killDevice device w = .returned () w1
        ∧ (killDevice device w).added w
          = [Event.unloadDeviceExtensionsCommands device, Event.vkDestroyDevice device])
    ∧ (extensions.length ≤ UINT32_MAX → toUint32 extensions.length = extensions.length) := by
  refine ⟨?_, ?_, ?_, ?_, toUint32_of_le _⟩
  · rw [initInstance_apply]
    split_ifs
    · exact Or.inl ⟨_, rfl⟩
    · exact Or.inr ⟨_, _, rfl, by simp [Outcome.added, Outcome.world]⟩
  · intro physDevice g p
    rw [initDevice_apply]
    exact ⟨_, _, rfl, by simp [Outcome.added, Outcome.world]⟩
  · intro vkInstance
    rw [killInstance_apply]
    exact ⟨_, rfl, by simp [Outcome.added, Outcome.world]⟩
  · intro device
    rw [killDevice_apply]
    exact ⟨_, rfl, by simp [Outcome.added, Outcome.world]⟩

/-- An extension list of C18 whose size fits 32 bits. -/
theorem C18_tables_follow_owners_witness :
    [VK_KHR_SWAPCHAIN_EXTENSION_NAME].length ≤ UINT32_MAX
      ∧ toUint32 [VK_KHR_SWAPCHAIN_EXTENSION_NAME].length
        = [VK_KHR_SWAPCHAIN_EXTENSION_NAME].length :=
  ⟨by decide,
    (C18_tables_follow_owners exampleStartup [] [VK_KHR_SWAPCHAIN_EXTENSION_NAME]
      World.initial).2.2.2.2 (by decide)⟩

/-! ### Shutdown -/

/-- C13: a run in which the window is opened at 800 x 800, minimised (extent
0 x 0) and closed returns the exit status 0, creates one pipeline, the handle
18, and passes this handle to `vkDestroyPipeline` twice: once in the
recreation for the minimised window, once more in the shutdown cleanup. -/
theorem C13_pipeline_destroyed_twice :
    (helloTriangle exampleStartup exampleMinimised 0 World.initial).value? = some 0
    ∧ (helloTriangle exampleStartup exampleMinimised 0 World.initial).world.trace.filter
        Event.isPipelineCreation = [Event.vkCreateGraphicsPipelines 800 800 18]
    ∧ (helloTriangle exampleStartup exampleMinimised 0 World.initial).world.trace.count
        (Event.vkDestroyPipeline 18) = 2 := by
  decide!

/-! ### The image count of a swap chain -/

/-- The image count in the create-info of every swap chain `initSwapchain` creates. -/
theorem initSwapchain_requested (setup : Setup) (rep : SurfaceReport)
    (c : VkSurfaceCapabilitiesKHR) (oldSwapchain : Handle) (w : World)
    (info : VkSwapchainCreateInfoKHR) (swapchain : Handle)
    (h : Event.vkCreateSwapchainKHR info swapchain
      ∈ (initSwapchain setup rep c oldSwapchain w).added w) :
    info.minImageCount =
      if c.maxImageCount ≠ 0 then min (toUint32 (c.minImageCount + 1)) c.maxImageCount
      else toUint32 (c.minImageCount + 1) := by
  rw [initSwapchain_apply] at h
  cases ha : selectedCompositeAlpha c with
  | none => simp [ha, Outcome.added, Outcome.world] at h
  | some a =>
    cases hm : selectedPresentMode rep.presentModes with
    | none => simp [ha, hm, Outcome.added, Outcome.world] at h
    | some m =>
      simp [ha, hm, Outcome.added, Outcome.world] at h
      rw [h.1]
      rfl

/-- C25 (amended): for capabilities with `minImageCount` below `UINT32_MAX` and
with `maxImageCount = 0` or `minImageCount ≤ maxImageCount`, the image count
`initSwapchain` requests is at least `minImageCount`; when `maxImageCount` is
nonzero it is at most `maxImageCount`, and it equals `minImageCount + 1`
whenever that does not exceed the nonzero `maxImageCount`. -/
theorem C25_image_count_within_limits (setup : Setup) (rep : SurfaceReport)
    (c : VkSurfaceCapabilitiesKHR) (oldSwapchain : Handle) (w : World)
    (info : VkSwapchainCreateInfoKHR) (swapchain : Handle)
    (hmin : c.minImageCount < UINT32_MAX)
    (hrange : c.maxImageCount = 0 ∨ c.minImageCount ≤ c.maxImageCount)
    (h : Event.vkCreateSwapchainKHR info swapchain
      ∈ (initSwapchain setup rep c oldSwapchain w).added w) :
    c.minImageCount ≤ info.minImageCount
      ∧ (c.maxImageCount ≠ 0 → info.minImageCount ≤ c.maxImageCount)
      ∧ (c.maxImageCount ≠ 0 → c.minImageCount + 1 ≤ c.maxImageCount →
          info.minImageCount = c.minImageCount + 1) := by
  rw [initSwapchain_requested setup rep c oldSwapchain w info swapchain h]
  have h32 : toUint32 (c.minImageCount + 1) = c.minImageCount + 1 :=
    toUint32_of_le _ (by unfold UINT32_MAX at *; omega)
  rw [h32]
  by_cases hz : c.maxImageCount = 0
  · simp [hz]
  · simp only [ne_eq, hz, not_false_eq_true, if_true, true_implies]
    have := hrange.resolve_left hz
    refine ⟨by omega, by omega, fun h1 => by omega⟩

/-- On the example platform (`minImageCount = 2`, `maxImageCount = 8`) the swap
chain is created with three images. -/
theorem C25_image_count_within_limits_witness :
    Event.vkCreateSwapchainKHR
        (swapchainInfoOf exampleSetup (exampleReport 800 800).capabilities 1 2 VK_NULL_HANDLE) 1
      ∈ (initSwapchain exampleSetup (exampleReport 800 800) (exampleReport 800 800).capabilities
          VK_NULL_HANDLE World.initial).added World.initial
    ∧ (swapchainInfoOf exampleSetup (exampleReport 800 800).capabilities 1 2
        VK_NULL_HANDLE).minImageCount = 3 :=
  ⟨by decide!,
   (C25_image_count_within_limits exampleSetup (exampleReport 800 800)
      (exampleReport 800 800).capabilities VK_NULL_HANDLE World.initial _ 1
      (by decide!) (by decide!) (by decide!)).2.2 (by decide!) (by decide!)⟩

/-- C25 fails as stated. For the 32-bit capabilities with
`minImageCount = UINT32_MAX` and `maxImageCount = 0` the sum `minImageCount + 1`
wraps to 0 in `uint32_t`: `initSwapchain` requests 0 images, fewer than
`minImageCount`. -/
theorem C25_image_count_wraps :
    exampleWrapped.minImageCount ≤ UINT32_MAX
      ∧ exampleWrapped.maxImageCount = 0
      ∧ ∃ info swapchain,
        Event.vkCreateSwapchainKHR info swapchain
          ∈ (initSwapchain exampleSetup (exampleReport 800 800) exampleWrapped
              VK_NULL_HANDLE World.initial).added World.initial
        ∧ info.minImageCount = 0
        ∧ ¬ exampleWrapped.minImageCount ≤ info.minImageCount :=
  ⟨by decide!, by decide!,
    swapchainInfoOf exampleSetup exampleWrapped 1 2 VK_NULL_HANDLE, 1,
    by decide!, by decide!, by decide!⟩

/-! ### The surface format -/

/-- The loop of `getSurfaceFormat`: the first entry with the first preferred
format if there is one; otherwise the first component is unchanged and the
second is an entry with the second preferred format if there is one. -/
theorem chooseFormats_spec (formats : List VkSurfaceFormatKHR)
    (chosenFormat1 chosenFormat2 : VkSurfaceFormatKHR) :
    (∀ f, formats.find? (fun f => f.format == VK_FORMAT_B8G8R8A8_UNORM) = some f →
        (chooseFormats formats (chosenFormat1, chosenFormat2)).1 = f)
      ∧ (formats.find? (fun f => f.format == VK_FORMAT_B8G8R8A8_UNORM) = none →
        (chooseFormats formats (chosenFormat1, chosenFormat2)).1 = chosenFormat1
          ∧ ((∃ f ∈ formats, f.format = VK_FORMAT_B8G8R8A8_SRGB) →
            (chooseFormats formats (chosenFormat1, chosenFormat2)).2 ∈ formats
              ∧ (chooseFormats formats (chosenFormat1, chosenFormat2)).2.format
                = VK_FORMAT_B8G8R8A8_SRGB)
          ∧ ((∀ f ∈ formats, f.format ≠ VK_FORMAT_B8G8R8A8_SRGB) →
            (chooseFormats formats (chosenFormat1, chosenFormat2)).2 = chosenFormat2)) := by
  induction formats generalizing chosenFormat1 chosenFormat2 with
  | nil => simp [chooseFormats]
  | cons f rest ih =>
    by_cases h1 : f.format = VK_FORMAT_B8G8R8A8_UNORM
    · simp [chooseFormats, h1, List.find?]
    · by_cases h2 : f.format = VK_FORMAT_B8G8R8A8_SRGB
      · have ih2 := ih chosenFormat1 f
        rw [List.find?_cons_of_neg _ (by simpa using h1)]
        have hc : chooseFormats (f :: rest) (chosenFormat1, chosenFormat2)
            = chooseFormats rest (chosenFormat1, f) := by
          rw [chooseFormats, if_neg h1, if_pos h2]
        rw [hc]
        refine ⟨ih2.1, fun hnone => ?_⟩
        obtain ⟨e1, e2, e3⟩ := ih2.2 hnone
        refine ⟨e1, fun _ => ?_, fun hall => ?_⟩
        · by_cases hex : ∃ g ∈ rest, g.format = VK_FORMAT_B8G8R8A8_SRGB
          · exact ⟨List.mem_cons_of_mem _ (e2 hex).1, (e2 hex).2⟩
          · have : ∀ g ∈ rest, g.format ≠ VK_FORMAT_B8G8R8A8_SRGB := by
              intro g hg hgf; exact hex ⟨g, hg, hgf⟩
            rw [e3 this]
            exact ⟨List.mem_cons_self _ _, h2⟩
        · exact absurd h2 (hall f (List.mem_cons_self _ _))
      · have ih2 := ih chosenFormat1 chosenFormat2
        rw [List.find?_cons_of_neg _ (by simpa using h1)]
        have hc : chooseFormats (f :: rest) (chosenFormat1, chosenFormat2)
            = chooseFormats rest (chosenFormat1, chosenFormat2) := by
          rw [chooseFormats, if_neg h1, if_neg h2]
        rw [hc]
        refine ⟨ih2.1, fun hnone => ?_⟩
        obtain ⟨e1, e2, e3⟩ := ih2.2 hnone
        refine ⟨e1, fun hex => ?_, fun hall => ?_⟩
        · obtain ⟨g, hg, hgf⟩ := hex
          rcases List.mem_cons.1 hg with rfl | hg
          · exact absurd hgf h2
          · exact ⟨List.mem_cons_of_mem _ (e2 ⟨g, hg, hgf⟩).1, (e2 ⟨g, hg, hgf⟩).2⟩
        · exact e3 fun g hg => hall g (List.mem_cons_of_mem _ hg)

theorem getSurfaceFormat_apply (physicalDevice : PhysicalDevice) (w : World) :
    getSurfaceFormat physicalDevice w =
      match physicalDevice.surfaceFormats with
      | [] => .threw (.cString "No surface formats offered by Vulkan!") w
      | first :: others => .returned (selectedSurfaceFormat first others) w := by
  unfold getSurfaceFormat selectedSurfaceFormat
  cases physicalDevice.surfaceFormats with
  | nil => simp
  | cons first others =>
    dsimp only
    split_ifs <;> simp

theorem selectedSurfaceFormat_undefined (only : VkSurfaceFormatKHR)
    (h : only.format = VK_FORMAT_UNDEFINED) :
    selectedSurfaceFormat only [] = { only with format := VK_FORMAT_B8G8R8A8_UNORM } := by
  unfold selectedSurfaceFormat
  simp [h, chooseFormats, VK_FORMAT_B8G8R8A8_UNORM]

theorem selectedSurfaceFormat_offered (first : VkSurfaceFormatKHR)
    (others : List VkSurfaceFormatKHR)
    (h : ¬ (others = [] ∧ first.format = VK_FORMAT_UNDEFINED)) :
    selectedSurfaceFormat first others ∈ first :: others
      ∧ (∀ f, (first :: others).find? (fun f => f.format == VK_FORMAT_B8G8R8A8_UNORM) = some f →
          selectedSurfaceFormat first others = f)
      ∧ ((first :: others).find? (fun f => f.format == VK_FORMAT_B8G8R8A8_UNORM) = none →
          (∃ f ∈ first :: others, f.format = VK_FORMAT_B8G8R8A8_SRGB) →
          (selectedSurfaceFormat first others).format = VK_FORMAT_B8G8R8A8_SRGB)
      ∧ ((first :: others).find? (fun f => f.format == VK_FORMAT_B8G8R8A8_UNORM) = none →
          (∀ f ∈ first :: others, f.format ≠ VK_FORMAT_B8G8R8A8_SRGB) →
          selectedSurfaceFormat first others = first) := by
  have hsel : selectedSurfaceFormat first others =
      if (chooseFormats (first :: others) (⟨VK_FORMAT_UNDEFINED, 0⟩, ⟨VK_FORMAT_UNDEFINED, 0⟩)).1.format
          ≠ 0 then
        (chooseFormats (first :: others) (⟨VK_FORMAT_UNDEFINED, 0⟩, ⟨VK_FORMAT_UNDEFINED, 0⟩)).1
      else if (chooseFormats (first :: others)
          (⟨VK_FORMAT_UNDEFINED, 0⟩, ⟨VK_FORMAT_UNDEFINED, 0⟩)).2.format ≠ 0 then
        (chooseFormats (first :: others) (⟨VK_FORMAT_UNDEFINED, 0⟩, ⟨VK_FORMAT_UNDEFINED, 0⟩)).2
      else first := by
    unfold selectedSurfaceFormat
    have h0 : ¬ (others.length = 0 ∧ first.format = VK_FORMAT_UNDEFINED) := by
      rwa [List.length_eq_zero]
    simp only [if_neg h0, List.headD_cons]
  obtain ⟨s1, s2⟩ := chooseFormats_spec (first :: others) ⟨VK_FORMAT_UNDEFINED, 0⟩
    ⟨VK_FORMAT_UNDEFINED, 0⟩
  cases hfind : (first :: others).find? (fun f => f.format == VK_FORMAT_B8G8R8A8_UNORM) with
  | some f =>
    have hf := s1 f hfind
    have hfmt : f.format = VK_FORMAT_B8G8R8A8_UNORM := by
      simpa using List.find?_some hfind
    have hsel2 : selectedSurfaceFormat first others = f := by
      rw [hsel, hf, if_pos]
      rw [hfmt]; decide
    refine ⟨?_, ?_, ?_, ?_⟩
    · rw [hsel2]; exact List.mem_of_find?_eq_some hfind
    · intro g hg; rw [hsel2]; exact Option.some.inj hg
    · intro h; cases h
    · intro h; cases h
  | none =>
    obtain ⟨e1, e2, e3⟩ := s2 hfind
    have hsel1 : selectedSurfaceFormat first others =
        if (chooseFormats (first :: others)
            (⟨VK_FORMAT_UNDEFINED, 0⟩, ⟨VK_FORMAT_UNDEFINED, 0⟩)).2.format ≠ 0 then
          (chooseFormats (first :: others) (⟨VK_FORMAT_UNDEFINED, 0⟩, ⟨VK_FORMAT_UNDEFINED, 0⟩)).2
        else first := by
      rw [hsel, e1, if_neg]
      simp [VK_FORMAT_UNDEFINED]
    by_cases hex : ∃ f ∈ first :: others, f.format = VK_FORMAT_B8G8R8A8_SRGB
    · have hsel2 : selectedSurfaceFormat first others =
          (chooseFormats (first :: others)
            (⟨VK_FORMAT_UNDEFINED, 0⟩, ⟨VK_FORMAT_UNDEFINED, 0⟩)).2 := by
        rw [hsel1, if_pos]
        rw [(e2 hex).2]; decide
      refine ⟨?_, ?_, ?_, ?_⟩
      · rw [hsel2]; exact (e2 hex).1
      · intro g hg; cases hg
      · intro _ _; rw [hsel2]; exact (e2 hex).2
      · intro _ hall
        obtain ⟨f, hf, hff⟩ := hex
        exact absurd hff (hall f hf)
    · have hall : ∀ f ∈ first :: others, f.format ≠ VK_FORMAT_B8G8R8A8_SRGB := by
        intro f hf hff; exact hex ⟨f, hf, hff⟩
      have hsel2 : selectedSurfaceFormat first others = first := by
        rw [hsel1, e3 hall, if_neg]
        simp [VK_FORMAT_UNDEFINED]
      refine ⟨?_, ?_, ?_, ?_⟩
      · rw [hsel2]; exact List.mem_cons_self _ _
      · intro g hg; cases hg
      · intro _ hex2; exact absurd hex2 hex
      · intro _ _; exact hsel2

/-- C26 (amended): `getSurfaceFormat` throws exactly when the platform offers no
format and returns otherwise, without touching the state. If the only offered
entry has the format `VK_FORMAT_UNDEFINED`, the result is that entry with the
format replaced by `VK_FORMAT_B8G8R8A8_UNORM`. In every other case the result is
one of the offered entries: the first one whose format is
`VK_FORMAT_B8G8R8A8_UNORM` if there is one, else one whose format is
`VK_FORMAT_B8G8R8A8_SRGB` if there is one, else the first offered entry. -/
theorem C26_getSurfaceFormat_preference (physicalDevice : PhysicalDevice) (w : World) :
    ((∃ e w1, getSurfaceFormat physicalDevice w = .threw e w1)
        ↔ physicalDevice.surfaceFormats = [])
      ∧ (physicalDevice.surfaceFormats ≠ [] →
          ∃ chosen, getSurfaceFormat physicalDevice w = .returned chosen w)
      ∧ (∀ only, physicalDevice.surfaceFormats = [only] → only.format = VK_FORMAT_UNDEFINED →
          getSurfaceFormat physicalDevice w
            = .returned { only with format := VK_FORMAT_B8G8R8A8_UNORM } w)
      ∧ (∀ chosen w1, getSurfaceFormat physicalDevice w = .returned chosen w1 →
          (¬ ∃ only, physicalDevice.surfaceFormats = [only] ∧ only.format = VK_FORMAT_UNDEFINED) →
          chosen ∈ physicalDevice.surfaceFormats
            ∧ (∀ f, physicalDevice.surfaceFormats.find?
                  (fun f => f.format == VK_FORMAT_B8G8R8A8_UNORM) = some f → chosen = f)
            ∧ (physicalDevice.surfaceFormats.find?
                  (fun f => f.format == VK_FORMAT_B8G8R8A8_UNORM) = none →
                (∃ f ∈ physicalDevice.surfaceFormats, f.format = VK_FORMAT_B8G8R8A8_SRGB) →
                chosen.format = VK_FORMAT_B8G8R8A8_SRGB)
            ∧ (physicalDevice.surfaceFormats.find?
                  (fun f => f.format == VK_FORMAT_B8G8R8A8_UNORM) = none →
                (∀ f ∈ physicalDevice.surfaceFormats, f.format ≠ VK_FORMAT_B8G8R8A8_SRGB) →
                physicalDevice.surfaceFormats.head? = some chosen)) := by
  rw [getSurfaceFormat_apply]
  cases hf : physicalDevice.surfaceFormats with
  | nil => simp
  | cons first others =>
    refine ⟨by simp, fun _ => ⟨_, rfl⟩, ?_, ?_⟩
    · intro only honly hfmt
      obtain ⟨rfl, rfl⟩ := List.cons.inj honly
      simp only [selectedSurfaceFormat_undefined first hfmt]
    · intro chosen w1 hret hnot
      simp only [Outcome.returned.injEq] at hret
      obtain ⟨rfl, -⟩ := hret
      have hno : ¬ (others = [] ∧ first.format = VK_FORMAT_UNDEFINED) := by
        rintro ⟨rfl, h0⟩
        exact hnot ⟨first, rfl, h0⟩
      obtain ⟨m1, m2, m3, m4⟩ := selectedSurfaceFormat_offered first others hno
      refine ⟨m1, m2, m3, fun h1 h2 => ?_⟩
      rw [m4 h1 h2]
      rfl

/-- C26 fails as stated. When the platform offers the single entry
`VK_FORMAT_UNDEFINED`, `getSurfaceFormat` returns an entry with the format
`VK_FORMAT_B8G8R8A8_UNORM`, which is not one of the offered entries. -/
theorem C26_replaced_entry_not_offered :
    exampleUndefinedFormat.surfaceFormats = [⟨VK_FORMAT_UNDEFINED, 0⟩]
      ∧ getSurfaceFormat exampleUndefinedFormat World.initial
        = .returned ⟨VK_FORMAT_B8G8R8A8_UNORM, 0⟩ World.initial
      ∧ (⟨VK_FORMAT_B8G8R8A8_UNORM, 0⟩ : VkSurfaceFormatKHR)
        ∉ exampleUndefinedFormat.surfaceFormats := by
  decide!

/-! ### The queue families -/

/-- The search returns the lowest family for which the predicate holds, or
`VK_QUEUE_FAMILY_IGNORED` when there is none. -/
theorem findQueueFamilyFrom_spec (predicate : VkQueueFamilyProperties → Nat → Bool)
    (qfps : List VkQueueFamilyProperties) (qf : Nat) :
    ((∀ i, holdsFrom predicate qf qfps i = false)
        ∧ findQueueFamilyFrom predicate qf qfps = VK_QUEUE_FAMILY_IGNORED)
      ∨ ∃ i, i < qfps.length ∧ findQueueFamilyFrom predicate qf qfps = qf + i
          ∧ holdsFrom predicate qf qfps i = true
          ∧ ∀ j, holdsFrom predicate qf qfps j = true → i ≤ j := by
  induction qfps generalizing qf with
  | nil => exact Or.inl ⟨fun i => by simp [holdsFrom], rfl⟩
  | cons props rest ih =>
    by_cases hp : predicate props qf = true
    · refine Or.inr ⟨0, by simp, by simp [findQueueFamilyFrom, hp], by simp [holdsFrom, hp],
        fun j _ => Nat.zero_le j⟩
    · have hstep : ∀ k, holdsFrom predicate qf (props :: rest) (k + 1)
          = holdsFrom predicate (qf + 1) rest k := by
        intro k
        simp only [holdsFrom, List.getElem?_cons_succ]
        rw [show qf + (k + 1) = qf + 1 + k by omega]
      have h0 : holdsFrom predicate qf (props :: rest) 0 = false := by
        simpa [holdsFrom] using hp
      have hr : findQueueFamilyFrom predicate qf (props :: rest)
          = findQueueFamilyFrom predicate (qf + 1) rest := by
        rw [findQueueFamilyFrom, if_neg hp]
      rcases ih (qf + 1) with ⟨hall, hnone⟩ | ⟨i, hi, hfound, hholds, hmin⟩
      · refine Or.inl ⟨fun i => ?_, by rw [hr, hnone]⟩
        cases i with
        | zero => exact h0
        | succ k => rw [hstep]; exact hall k
      · refine Or.inr ⟨i + 1, by simpa using hi, by rw [hr, hfound]; omega,
          by rw [hstep]; exact hholds, fun j hj => ?_⟩
        cases j with
        | zero => rw [h0] at hj; cases hj
        | succ k =>
          rw [hstep] at hj
          have := hmin k hj
          omega

theorem findQueueFamilyThat_spec (predicate : VkQueueFamilyProperties → Nat → Bool)
    (qfps : List VkQueueFamilyProperties) (hlen : qfps.length ≤ UINT32_MAX) :
    ((∀ i, holdsFrom predicate 0 qfps i = false)
        ∧ findQueueFamilyThat qfps predicate = VK_QUEUE_FAMILY_IGNORED)
      ∨ (findQueueFamilyThat qfps predicate ≠ VK_QUEUE_FAMILY_IGNORED
          ∧ holdsFrom predicate 0 qfps (findQueueFamilyThat qfps predicate) = true
          ∧ ∀ j, holdsFrom predicate 0 qfps j = true → findQueueFamilyThat qfps predicate ≤ j) := by
  unfold findQueueFamilyThat
  rcases findQueueFamilyFrom_spec predicate qfps 0 with h | ⟨i, hi, hfound, hholds, hmin⟩
  · exact Or.inl h
  · rw [Nat.zero_add] at hfound
    rw [hfound]
    refine Or.inr ⟨?_, hholds, hmin⟩
    unfold VK_QUEUE_FAMILY_IGNORED
    unfold UINT32_MAX at hlen
    omega

theorem getQueueFamilies_apply (physDevice : PhysicalDevice) (w : World) :
    getQueueFamilies physDevice w =
      let qfps := getQueueFamilyProperties physDevice
      let isGraphics := fun (props : VkQueueFamilyProperties) (_ : Nat) =>
        decide (props.queueFlags &&& VK_QUEUE_GRAPHICS_BIT ≠ 0)
      let isPresent := fun (_ : VkQueueFamilyProperties) (queueFamily : Nat) =>
        isPresentationSupported physDevice queueFamily
      let fused := findQueueFamilyThat qfps fun props queueFamily =>
        isGraphics props queueFamily && isPresent props queueFamily
      let families :=
        if fused = VK_QUEUE_FAMILY_IGNORED then
          (findQueueFamilyThat qfps isGraphics, findQueueFamilyThat qfps isPresent)
        else (fused, fused)
      if families.1 = VK_QUEUE_FAMILY_IGNORED then
        .threw (.cString "Cannot find a graphics queue family!") w
      else if families.2 = VK_QUEUE_FAMILY_IGNORED then
        .threw (.cString "Cannot find a presentation queue family!") w
      else .returned families w := by
  unfold getQueueFamilies
  simp only [VulkanConfig.forceSeparatePresentQueue, Bool.false_eq_true, if_false, or_self,
    bind_apply, ite_apply]
  split_ifs <;> simp

theorem holdsFrom_isGraphics (physDevice : PhysicalDevice) (i : Nat) :
    holdsFrom (fun props _ => decide (props.queueFlags &&& VK_QUEUE_GRAPHICS_BIT ≠ 0)) 0
        (getQueueFamilyProperties physDevice) i
      = hasGraphics physDevice i := by
  unfold holdsFrom hasGraphics
  rfl

theorem holdsFrom_isPresent (physDevice : PhysicalDevice) (i : Nat) :
    holdsFrom (fun _ queueFamily => isPresentationSupported physDevice queueFamily) 0
        (getQueueFamilyProperties physDevice) i
      = presents physDevice i := by
  unfold holdsFrom presents isPresentationSupported
  by_cases hi : i < (getQueueFamilyProperties physDevice).length
  · rw [List.getElem?_eq_getElem hi]
    by_cases h : physDevice.surfaceSupport i = VK_TRUE <;> simp [hi, h]
  · rw [List.getElem?_eq_none (by omega)]
    simp [hi]

theorem holdsFrom_isFused (physDevice : PhysicalDevice) (i : Nat) :
    holdsFrom (fun props queueFamily =>
        decide (props.queueFlags &&& VK_QUEUE_GRAPHICS_BIT ≠ 0)
          && isPresentationSupported physDevice queueFamily) 0
        (getQueueFamilyProperties physDevice) i
      = (hasGraphics physDevice i && presents physDevice i) := by
  rw [← holdsFrom_isGraphics, ← holdsFrom_isPresent]
  unfold holdsFrom
  cases (getQueueFamilyProperties physDevice)[i]? <;> rfl

theorem getQueueFamilyProperties_length (physDevice : PhysicalDevice) :
    (getQueueFamilyProperties physDevice).length ≤ UINT32_MAX := by
  unfold getQueueFamilyProperties
  rw [List.length_take]
  exact Nat.min_le_left _ _

/-- C27: with `forceSeparatePresentQueue = false`, `getQueueFamilies` throws
exactly when the device has no graphics family or no presenting family, and
returns a pair otherwise, without touching the state. In a returned pair
`(g, p)` family `g` has the graphics bit, family `p` presents to the surface and
neither is `VK_QUEUE_FAMILY_IGNORED`; if some family has both properties then
`g = p` has both and is the lowest such family; if no family has both then `g`
is the lowest graphics family and `p` the lowest presenting family. -/
theorem C27_getQueueFamilies_choice (physDevice : PhysicalDevice) (w : World) :
    VulkanConfig.forceSeparatePresentQueue = false
      ∧ ((∃ e w1, getQueueFamilies physDevice w = .threw e w1)
          ↔ (∀ i, hasGraphics physDevice i = false) ∨ (∀ i, presents physDevice i = false))
      ∧ ((∃ e, getQueueFamilies physDevice w = .threw e w)
          ∨ ∃ families, getQueueFamilies physDevice w = .returned families w)
      ∧ ∀ g p w1, getQueueFamilies physDevice w = .returned (g, p) w1 →
          hasGraphics physDevice g = true ∧ presents physDevice p = true
            ∧ g ≠ VK_QUEUE_FAMILY_IGNORED ∧ p ≠ VK_QUEUE_FAMILY_IGNORED
            ∧ (∀ i, hasGraphics physDevice i = true → presents physDevice i = true →
                g = p ∧ presents physDevice g = true ∧ g ≤ i)
            ∧ ((∀ i, ¬ (hasGraphics physDevice i = true ∧ presents physDevice i = true)) →
                (∀ i, hasGraphics physDevice i = true → g ≤ i)
                  ∧ ∀ i, presents physDevice i = true → p ≤ i) := by
  have hlen := getQueueFamilyProperties_length physDevice
  have hG := findQueueFamilyThat_spec
    (fun props _ => decide (props.queueFlags &&& VK_QUEUE_GRAPHICS_BIT ≠ 0))
    (getQueueFamilyProperties physDevice) hlen
  have hP := findQueueFamilyThat_spec
    (fun _ queueFamily => isPresentationSupported physDevice queueFamily)
    (getQueueFamilyProperties physDevice) hlen
  have hF := findQueueFamilyThat_spec
    (fun props queueFamily =>
        decide (props.queueFlags &&& VK_QUEUE_GRAPHICS_BIT ≠ 0)
          && isPresentationSupported physDevice queueFamily)
    (getQueueFamilyProperties physDevice) hlen
  simp only [holdsFrom_isGraphics] at hG
  simp only [holdsFrom_isPresent] at hP
  simp only [holdsFrom_isFused, Bool.and_eq_true, Bool.and_eq_false_iff] at hF
  rw [getQueueFamilies_apply]
  dsimp only
  refine ⟨rfl, ?_⟩
  rcases hF with ⟨hnoF, hF0⟩ | ⟨hF1, hFh, hFmin⟩
  · rw [if_pos hF0]
    dsimp only
    rcases hG with ⟨hnoG, hG0⟩ | ⟨hG1, hGh, hGmin⟩
    · rw [if_pos hG0]
      refine ⟨by simp [hnoG], Or.inl ⟨_, rfl⟩, fun g p w1 h => by cases h⟩
    · rw [if_neg hG1]
      rcases hP with ⟨hnoP, hP0⟩ | ⟨hP1, hPh, hPmin⟩
      · rw [if_pos hP0]
        refine ⟨by simp [hnoP], Or.inl ⟨_, rfl⟩, fun g p w1 h => by cases h⟩
      · rw [if_neg hP1]
        refine ⟨?_, Or.inr ⟨_, rfl⟩, ?_⟩
        · simp only [reduceCtorEq, exists_false, false_iff, not_or, not_forall]
          exact ⟨⟨_, by rw [hGh]; simp⟩, ⟨_, by rw [hPh]; simp⟩⟩
        · intro g p w1 h
          simp only [Outcome.returned.injEq, Prod.mk.injEq] at h
          obtain ⟨⟨rfl, rfl⟩, -⟩ := h
          refine ⟨hGh, hPh, hG1, hP1, fun i hi1 hi2 => ?_, fun _ => ⟨hGmin, hPmin⟩⟩
          rcases hnoF i with h | h
          · rw [hi1] at h; cases h
          · rw [hi2] at h; cases h
  · rw [if_neg hF1]
    dsimp only
    rw [if_neg hF1, if_neg hF1]
    refine ⟨?_, Or.inr ⟨_, rfl⟩, ?_⟩
    · simp only [reduceCtorEq, exists_false, false_iff, not_or, not_forall]
      exact ⟨⟨_, by rw [hFh.1]; simp⟩, ⟨_, by rw [hFh.2]; simp⟩⟩
    · intro g p w1 h
      simp only [Outcome.returned.injEq, Prod.mk.injEq] at h
      obtain ⟨⟨rfl, rfl⟩, -⟩ := h
      refine ⟨hFh.1, hFh.2, hF1, hF1, fun i hi1 hi2 => ⟨rfl, hFh.2, hFmin i ⟨hi1, hi2⟩⟩,
        fun hno => absurd hFh (hno _)⟩

/-! ### The memory type -/

theorem and_two_pow_eq (n i : Nat) : n &&& 2 ^ i = if n.testBit i then 2 ^ i else 0 := by
  apply Nat.eq_of_testBit_eq
  intro j
  by_cases hb : n.testBit i = true
  · by_cases hj : i = j
    · subst hj; simp [hb]
    · simp [hb, Nat.testBit_two_pow, hj]
  · by_cases hj : i = j
    · subst hj; simp [hb]
    · simp [hb, Nat.testBit_two_pow, hj]

theorem and_two_pow_ne_zero (n i : Nat) : n &&& 2 ^ i ≠ 0 ↔ n.testBit i = true := by
  rw [and_two_pow_eq]
  have := Nat.two_pow_pos i
  split_ifs with h
  · simp only [h, iff_true]; omega
  · simp [h]

theorem compatible_iff (memoryTypeBits : Nat) (memoryTypes : Nat → Nat) (i d : Nat) :
    compatible memoryTypeBits memoryTypes i d = true
      ↔ i < 32 ∧ memoryTypeBits &&& indexToBit i ≠ 0 ∧ memoryTypes i &&& d = d := by
  unfold compatible indexToBit
  rw [Nat.one_shiftLeft, and_two_pow_ne_zero]
  simp [and_assoc]

theorem findMemoryTypeFor_found (memoryTypeBits : Nat) (memoryTypes : Nat → Nat)
    (memoryType d count : Nat) (h : memoryType ≠ UINT32_MAX) :
    findMemoryTypeFor memoryTypeBits memoryTypes memoryType d count = memoryType := by
  unfold findMemoryTypeFor
  induction count with
  | zero => rfl
  | succ n ih => rw [List.range_succ, List.foldl_append, ih]; simp [h]

theorem findMemoryTypeFor_spec (memoryTypeBits : Nat) (memoryTypes : Nat → Nat)
    (d count : Nat) (hcount : count ≤ 32) :
    ((∀ i, i < count → compatible memoryTypeBits memoryTypes i d = false)
        ∧ findMemoryTypeFor memoryTypeBits memoryTypes UINT32_MAX d count = UINT32_MAX)
      ∨ (findMemoryTypeFor memoryTypeBits memoryTypes UINT32_MAX d count < count
        ∧ compatible memoryTypeBits memoryTypes
            (findMemoryTypeFor memoryTypeBits memoryTypes UINT32_MAX d count) d = true
        ∧ ∀ j, j < findMemoryTypeFor memoryTypeBits memoryTypes UINT32_MAX d count →
            compatible memoryTypeBits memoryTypes j d = false) := by
  induction count with
  | zero => exact Or.inl ⟨fun i hi => absurd hi (Nat.not_lt_zero i), rfl⟩
  | succ n ih =>
    have hstep : findMemoryTypeFor memoryTypeBits memoryTypes UINT32_MAX d (n + 1)
        = if findMemoryTypeFor memoryTypeBits memoryTypes UINT32_MAX d n = UINT32_MAX
            ∧ memoryTypeBits &&& indexToBit n ≠ 0 ∧ memoryTypes n &&& d = d then n
          else findMemoryTypeFor memoryTypeBits memoryTypes UINT32_MAX d n := by
      unfold findMemoryTypeFor
      rw [List.range_succ, List.foldl_append]
      rfl
    rcases ih (by omega) with ⟨hnone, hmax⟩ | ⟨hlt, hc, hmin⟩
    · by_cases hn : compatible memoryTypeBits memoryTypes n d = true
      · have hn2 := (compatible_iff _ _ _ _).1 hn
        rw [hstep, if_pos ⟨hmax, hn2.2⟩]
        exact Or.inr ⟨Nat.lt_succ_self n, hn, hnone⟩
      · have hn2 : ¬ (memoryTypeBits &&& indexToBit n ≠ 0 ∧ memoryTypes n &&& d = d) :=
          fun hc => hn ((compatible_iff _ _ _ _).2 ⟨by omega, hc⟩)
        rw [hstep, if_neg (fun hc => hn2 hc.2), hmax]
        refine Or.inl ⟨fun i hi => ?_, rfl⟩
        rcases Nat.lt_succ_iff_lt_or_eq.1 hi with hi | rfl
        · exact hnone i hi
        · simpa using hn
    · have hne : findMemoryTypeFor memoryTypeBits memoryTypes UINT32_MAX d n ≠ UINT32_MAX := by
        intro h; rw [h] at hlt; unfold UINT32_MAX at hlt; omega
      rw [hstep, if_neg (fun hc => hne hc.1)]
      exact Or.inr ⟨by omega, hc, hmin⟩

theorem foldl_findMemoryTypeFor_found (memoryTypeBits : Nat) (memoryTypes : Nat → Nat)
    (memoryTypePriority : List Nat) (memoryType : Nat) (h : memoryType ≠ UINT32_MAX) :
    memoryTypePriority.foldl
        (fun memoryType d => findMemoryTypeFor memoryTypeBits memoryTypes memoryType d 32)
        memoryType
      = memoryType := by
  induction memoryTypePriority with
  | nil => rfl
  | cons d rest ih => rw [List.foldl_cons, findMemoryTypeFor_found _ _ _ _ _ h, ih]

theorem findMemoryType_eq (memoryTypeBits : Nat) (memoryTypes : Nat → Nat)
    (memoryTypePriority : List Nat) :
    findMemoryType memoryTypeBits memoryTypes memoryTypePriority
      = memoryTypePriority.foldl
        (fun memoryType d => findMemoryTypeFor memoryTypeBits memoryTypes memoryType d 32)
        UINT32_MAX := rfl

theorem findMemoryType_spec (memoryTypeBits : Nat) (memoryTypes : Nat → Nat)
    (memoryTypePriority : List Nat) :
    ((∀ d ∈ memoryTypePriority, ∀ i, compatible memoryTypeBits memoryTypes i d = false)
        ∧ findMemoryType memoryTypeBits memoryTypes memoryTypePriority = UINT32_MAX)
      ∨ ∃ pre d post, memoryTypePriority = pre ++ d :: post
        ∧ (∀ e ∈ pre, ∀ i, compatible memoryTypeBits memoryTypes i e = false)
        ∧ findMemoryType memoryTypeBits memoryTypes memoryTypePriority < 32
        ∧ compatible memoryTypeBits memoryTypes
            (findMemoryType memoryTypeBits memoryTypes memoryTypePriority) d = true
        ∧ ∀ j, compatible memoryTypeBits memoryTypes j d = true →
            findMemoryType memoryTypeBits memoryTypes memoryTypePriority ≤ j := by
  induction memoryTypePriority with
  | nil => exact Or.inl ⟨fun d hd => absurd hd (List.not_mem_nil d), rfl⟩
  | cons d rest ih =>
    rw [findMemoryType_eq, List.foldl_cons]
    rcases findMemoryTypeFor_spec memoryTypeBits memoryTypes d 32 (le_refl 32) with
      ⟨hnone, hmax⟩ | ⟨hlt, hc, hmin⟩
    · have hnone2 : ∀ i, compatible memoryTypeBits memoryTypes i d = false := by
        intro i
        by_cases hi : i < 32
        · exact hnone i hi
        · simp [compatible, hi]
      rw [hmax, ← findMemoryType_eq]
      rcases ih with ⟨hall, hr⟩ | ⟨pre, e, post, hsplit, hpre, hr⟩
      · refine Or.inl ⟨fun e he => ?_, hr⟩
        rcases List.mem_cons.1 he with rfl | he
        · exact hnone2
        · exact hall e he
      · refine Or.inr ⟨d :: pre, e, post, by rw [hsplit]; rfl, fun e he => ?_, hr⟩
        rcases List.mem_cons.1 he with rfl | he
        · exact hnone2
        · exact hpre e he
    · have hne : findMemoryTypeFor memoryTypeBits memoryTypes UINT32_MAX d 32 ≠ UINT32_MAX := by
        intro h; rw [h] at hlt; unfold UINT32_MAX at hlt; omega
      rw [foldl_findMemoryTypeFor_found _ _ _ _ hne]
      refine Or.inr ⟨[], d, rest, rfl, fun e he => absurd he (List.not_mem_nil e), hlt, hc,
        fun j hj => ?_⟩
      by_contra hlt2
      have := hmin j (by omega)
      rw [hj] at this
      cases this

theorem initMemory_apply (st : Startup) (device : Handle) (physicalDevice : PhysicalDevice)
    (resource : Handle) (memoryTypePriority : List Nat) (w : World) :
    initMemory st device physicalDevice resource memoryTypePriority w =
      if findMemoryType st.memoryRequirements.memoryTypeBits physicalDevice.memoryTypes
          memoryTypePriority = UINT32_MAX then
        .threw (.cString "Can't find compatible mappable memory for the resource") w
      else
        .returned (written (st.status .vkAllocateMemory) w.fresh)
          { w with
            fresh := w.fresh + 1
            trace := w.trace ++
              [Event.call "vkAllocateMemory"
                [device, st.memoryRequirements.size,
                  findMemoryType st.memoryRequirements.memoryTypeBits
                    physicalDevice.memoryTypes memoryTypePriority,
                  written (st.status .vkAllocateMemory) w.fresh],
               Event.call "vkBindBufferMemory"
                [device, resource, written (st.status .vkAllocateMemory) w.fresh, 0]] } := by
  unfold initMemory create
  simp only [bind_apply, ite_apply]
  split_ifs <;> simp [written]

/-- C28: `initMemory` throws exactly when no entry of `memoryTypePriority` has a
compatible index. When `d` is the first entry that has a compatible index, the
call returns and the memory type index passed to `vkAllocateMemory` is the
lowest index compatible with `d`. -/
theorem C28_initMemory_priority (st : Startup) (device : Handle)
    (physicalDevice : PhysicalDevice) (resource : Handle) (memoryTypePriority : List Nat)
    (w : World) :
    ((∃ e w1, initMemory st device physicalDevice resource memoryTypePriority w = .threw e w1)
        ↔ ∀ d ∈ memoryTypePriority, ∀ i,
            compatible st.memoryRequirements.memoryTypeBits physicalDevice.memoryTypes i d = false)
      ∧ ∀ pre d post, memoryTypePriority = pre ++ d :: post →
          (∀ e ∈ pre, ∀ i,
            compatible st.memoryRequirements.memoryTypeBits physicalDevice.memoryTypes i e = false) →
          (∃ i, compatible st.memoryRequirements.memoryTypeBits physicalDevice.memoryTypes i d
            = true) →
          ∃ chosen memory w1,
            compatible st.memoryRequirements.memoryTypeBits physicalDevice.memoryTypes chosen d
                = true
              ∧ (∀ j, compatible st.memoryRequirements.memoryTypeBits physicalDevice.memoryTypes
                    j d = true → chosen ≤ j)
              ∧ initMemory st device physicalDevice resource memoryTypePriority w
                = .returned memory w1
              ∧ w1.trace = w.trace ++
                  [Event.call "vkAllocateMemory"
                    [device, st.memoryRequirements.size, chosen, memory],
                   Event.call "vkBindBufferMemory" [device, resource, memory, 0]] := by
  rw [initMemory_apply]
  rcases findMemoryType_spec st.memoryRequirements.memoryTypeBits physicalDevice.memoryTypes
      memoryTypePriority with ⟨hall, hmax⟩ | ⟨pre0, d0, post0, hsplit0, hpre0, hlt, hc, hmin⟩
  · rw [if_pos hmax]
    refine ⟨⟨fun _ => hall, fun _ => ⟨_, _, rfl⟩⟩, ?_⟩
    intro pre d post hsplit _ ⟨i, hi⟩
    have := hall d (by rw [hsplit]; simp) i
    rw [hi] at this
    cases this
  · have hne : findMemoryType st.memoryRequirements.memoryTypeBits physicalDevice.memoryTypes
        memoryTypePriority ≠ UINT32_MAX := by
      intro h; rw [h] at hlt; unfold UINT32_MAX at hlt; omega
    rw [if_neg hne]
    constructor
    · simp only [reduceCtorEq, exists_false, false_iff, not_forall]
      exact ⟨d0, by rw [hsplit0]; simp, _, by rw [hc]; simp⟩
    · intro pre d post hsplit hpre ⟨i, hi⟩
      have hsame : pre = pre0 ∧ d = d0 := by
        rw [hsplit0] at hsplit
        rcases List.append_eq_append_iff.1 hsplit with ⟨a, h1, h2⟩ | ⟨c, h1, h2⟩
        · cases a with
          | nil => simp at h1 h2; exact ⟨h1, h2.1.symm⟩
          | cons x rest =>
            simp only [List.cons_append, List.cons.injEq] at h2
            have := hpre d0 (by rw [h1, h2.1]; simp)
              (findMemoryType st.memoryRequirements.memoryTypeBits physicalDevice.memoryTypes
                memoryTypePriority)
            rw [hc] at this; cases this
        · cases c with
          | nil => simp at h1 h2; exact ⟨h1.symm, h2.1⟩
          | cons x rest =>
            simp only [List.cons_append, List.cons.injEq] at h2
            have := hpre0 d (by rw [h1, h2.1]; simp) i
            rw [hi] at this; cases this
      obtain ⟨-, rfl⟩ := hsame
      exact ⟨_, _, _, hc, hmin, rfl, rfl⟩

/-! ### The limits of the vertex input -/

/-- The checks of `initPipeline`: it throws exactly when the binding number
exceeds the number of bindings, the stride exceeds its limit, the device has no
binding at all, the colour location 1 is not below the number of attributes, or
the colour offset exceeds its limit; otherwise it returns a pipeline. -/
theorem initPipeline_threw_iff (setup : Setup) (rep : SurfaceReport)
    (limits : VkPhysicalDeviceLimits) (binding width height : Nat) (w : World) :
    (∃ e w1, initPipeline setup rep limits binding width height w = .threw e w1)
      ↔ (binding > limits.maxVertexInputBindings
        ∨ setup.vertexBufferStride > limits.maxVertexInputBindingStride
        ∨ limits.maxVertexInputBindings < 1
        ∨ limits.maxVertexInputAttributes ≤ 1
        ∨ setup.colorOffset > limits.maxVertexInputAttributeOffset) := by
  rw [initPipeline_apply]
  unfold pipelineError
  split_ifs <;> simp <;> omega

/-- C29: evaluation at the failing input. With `vertexBufferBinding = 1` and
`maxVertexInputBindings = 1` the binding number is not less than the limit, yet
`initPipeline` throws nothing and creates the pipeline: its first check is
`vertexBufferBinding > limits.maxVertexInputBindings`. -/
theorem C29_binding_equal_to_limit_accepted :
    ¬ (1 < (⟨1, 2048, 16, 2047⟩ : VkPhysicalDeviceLimits).maxVertexInputBindings)
      ∧ initPipeline exampleSetup (exampleReport 800 800) ⟨1, 2048, 16, 2047⟩ 1 800 800
          World.initial
        = .returned 1
          { World.initial with
            fresh := 1
            trace := [Event.vkCreateGraphicsPipelines 800 800 1] } := by
  decide!

/-! ### `translateFlags` -/

theorem hasFlag_two_pow (n i : Nat) : hasFlag n (2 ^ i) = n.testBit i := by
  unfold hasFlag
  rw [and_two_pow_eq]
  have := Nat.two_pow_pos i
  cases h : n.testBit i
  · simp; omega
  · simp

theorem two_pow_eq_iff (k i : Nat) : 2 ^ k = 2 ^ i ↔ k = i :=
  ⟨fun h => Nat.pow_right_injective (le_refl 2) h, fun h => by rw [h]⟩

theorem translateFlags_testBit (debugSeverity debugType k : Nat) :
    (translateFlags debugSeverity debugType).testBit k
      = translateFlagsReference debugSeverity debugType k := by
  have e12 : debugSeverity &&& 4096 ≠ 0 ↔ debugSeverity.testBit 12 = true :=
    and_two_pow_ne_zero debugSeverity 12
  have e8 : debugSeverity &&& 256 ≠ 0 ↔ debugSeverity.testBit 8 = true :=
    and_two_pow_ne_zero debugSeverity 8
  have e4 : debugSeverity &&& 16 ≠ 0 ↔ debugSeverity.testBit 4 = true :=
    and_two_pow_ne_zero debugSeverity 4
  have e0 : debugSeverity &&& 1 ≠ 0 ↔ debugSeverity.testBit 0 = true :=
    and_two_pow_ne_zero debugSeverity 0
  have t0 : debugType &&& 1 ≠ 0 ↔ debugType.testBit 0 = true :=
    and_two_pow_ne_zero debugType 0
  have t1 : debugType &&& 2 ≠ 0 ↔ debugType.testBit 1 = true :=
    and_two_pow_ne_zero debugType 1
  have t2 : debugType &&& 4 ≠ 0 ↔ debugType.testBit 2 = true :=
    and_two_pow_ne_zero debugType 2
  have f12 : hasFlag debugSeverity 4096 = debugSeverity.testBit 12 :=
    hasFlag_two_pow debugSeverity 12
  have f8 : hasFlag debugSeverity 256 = debugSeverity.testBit 8 := hasFlag_two_pow debugSeverity 8
  have f4 : hasFlag debugSeverity 16 = debugSeverity.testBit 4 := hasFlag_two_pow debugSeverity 4
  have f0 : hasFlag debugSeverity 1 = debugSeverity.testBit 0 := hasFlag_two_pow debugSeverity 0
  have g0 : hasFlag debugType 1 = debugType.testBit 0 := hasFlag_two_pow debugType 0
  have g1 : hasFlag debugType 2 = debugType.testBit 1 := hasFlag_two_pow debugType 1
  have g2 : hasFlag debugType 4 = debugType.testBit 2 := hasFlag_two_pow debugType 2
  have b0 : Nat.testBit 1 k = decide (0 = k) := @Nat.testBit_two_pow 0 k
  have b1 : Nat.testBit 2 k = decide (1 = k) := @Nat.testBit_two_pow 1 k
  have b2 : Nat.testBit 4 k = decide (2 = k) := @Nat.testBit_two_pow 2 k
  have b3 : Nat.testBit 8 k = decide (3 = k) := @Nat.testBit_two_pow 3 k
  have b4 : Nat.testBit 16 k = decide (4 = k) := @Nat.testBit_two_pow 4 k
  have p0 : 2 ^ k = 1 ↔ k = 0 := two_pow_eq_iff k 0
  have p1 : 2 ^ k = 2 ↔ k = 1 := two_pow_eq_iff k 1
  have p2 : 2 ^ k = 4 ↔ k = 2 := two_pow_eq_iff k 2
  have p3 : 2 ^ k = 8 ↔ k = 3 := two_pow_eq_iff k 3
  have p4 : 2 ^ k = 16 ↔ k = 4 := two_pow_eq_iff k 4
  unfold translateFlags translateFlagsReference
    VK_DEBUG_UTILS_MESSAGE_SEVERITY_VERBOSE_BIT_EXT VK_DEBUG_UTILS_MESSAGE_SEVERITY_INFO_BIT_EXT
    VK_DEBUG_UTILS_MESSAGE_SEVERITY_WARNING_BIT_EXT VK_DEBUG_UTILS_MESSAGE_SEVERITY_ERROR_BIT_EXT
    VK_DEBUG_UTILS_MESSAGE_TYPE_GENERAL_BIT_EXT VK_DEBUG_UTILS_MESSAGE_TYPE_VALIDATION_BIT_EXT
    VK_DEBUG_UTILS_MESSAGE_TYPE_PERFORMANCE_BIT_EXT VK_DEBUG_REPORT_INFORMATION_BIT_EXT
    VK_DEBUG_REPORT_WARNING_BIT_EXT VK_DEBUG_REPORT_PERFORMANCE_WARNING_BIT_EXT
    VK_DEBUG_REPORT_ERROR_BIT_EXT VK_DEBUG_REPORT_DEBUG_BIT_EXT
  simp only [e12, e8, e4, e0, t0, t1, t2, f12, f8, f4, f0, g0, g1, g2, p0, p1, p2, p3, p4]
  clear e12 e8 e4 e0 t0 t1 t2 f12 f8 f4 f0 g0 g1 g2 p0 p1 p2 p3 p4
  cases debugSeverity.testBit 12 <;> cases debugSeverity.testBit 8
    <;> cases debugSeverity.testBit 4 <;> cases debugSeverity.testBit 0
    <;> cases debugType.testBit 0 <;> cases debugType.testBit 1 <;> cases debugType.testBit 2
    <;> simp only [Bool.false_eq_true, or_false, false_or, or_true, true_or, and_true, true_and,
      and_false, false_and, if_true, if_false, not_true_eq_false, not_false_eq_true,
      Nat.testBit_or, Nat.zero_testBit, b0, b1, b2, b3, b4, Bool.false_or, and_self,
      Bool.and_true, Bool.and_false, Bool.true_eq_false]
    <;> (try rw [Bool.eq_iff_iff])
    <;> (try simp)
    <;> (try omega)

/-- C30: for every severity mask and type mask, `translateFlags` returns 0 unless
the type mask has the GENERAL or the VALIDATION bit, and in every case
the result has the bit `2 ^ k` exactly when the reference of the specification
says so: ERROR for severity ERROR, WARNING for severity WARNING,
PERFORMANCE_WARNING for severity WARNING with type PERFORMANCE, INFORMATION for
severity INFO, DEBUG for severity VERBOSE, and no other bit. -/
theorem C30_translateFlags_reference (debugSeverity debugType : Nat) :
    (hasFlag debugType VK_DEBUG_UTILS_MESSAGE_TYPE_GENERAL_BIT_EXT = true
      ∨ hasFlag debugType VK_DEBUG_UTILS_MESSAGE_TYPE_VALIDATION_BIT_EXT = true
      ∨ translateFlags debugSeverity debugType = 0)
    ∧ ∀ k, hasFlag (translateFlags debugSeverity debugType) (2 ^ k)
        = translateFlagsReference debugSeverity debugType k := by
  refine ⟨?_, fun k => ?_⟩
  · by_cases h : hasFlag debugType VK_DEBUG_UTILS_MESSAGE_TYPE_GENERAL_BIT_EXT = false
        ∧ hasFlag debugType VK_DEBUG_UTILS_MESSAGE_TYPE_VALIDATION_BIT_EXT = false
    swap
    · simp only [not_and_or, Bool.not_eq_false] at h
      exact h.elim Or.inl (fun h2 => Or.inr (Or.inl h2))
    refine Or.inr (Or.inr ?_)
    apply Nat.eq_of_testBit_eq
    intro k
    rw [translateFlags_testBit, Nat.zero_testBit]
    unfold translateFlagsReference
    rw [if_pos h]
  · rw [hasFlag_two_pow, translateFlags_testBit]

/-! ### The order of the teardown -/

theorem prepared_trace_active (w : World) (h : w.swapchain ≠ VK_NULL_HANDLE) :
    (prepared w).trace
      = w.trace ++ ([Event.recreateSwapchain, Event.vkGetPhysicalDeviceSurfaceCapabilitiesKHR]
          ++ teardownEvents w) := by
  simp [prepared, cleanedUp, h, teardownEvents]

theorem recreateSwapchain_starts_prepared (setup : Setup) (rep : SurfaceReport) (w : World) :
    (prepared w).trace <+: (recreateSwapchain setup rep w).world.trace := by
  rw [recreateSwapchain_apply, creatingNew_apply]
  by_cases hc : swapchainCreatable (adjustedCapabilities rep).currentExtent
      (adjustedCapabilities rep) = true
  · rw [if_pos hc]
    cases selectedCompositeAlpha (adjustedCapabilities rep) with
    | none => exact List.prefix_append _ _
    | some a =>
      cases selectedPresentMode rep.presentModes with
      | none => exact List.prefix_append _ _
      | some m =>
        cases pipelineError setup setup.limits vertexBufferBinding with
        | some e =>
          simp only [Outcome.andThen, Outcome.world, framebuffersReady, List.append_assoc]
          exact List.prefix_append _ _
        | none =>
          by_cases hold : w.swapchain = VK_NULL_HANDLE
          · simp only [Outcome.andThen, Outcome.world, framebuffersReady, generationReady,
              oldKilled, hold, ne_eq, not_true_eq_false, if_false, List.append_assoc]
            exact List.prefix_append _ _
          · simp only [Outcome.andThen, Outcome.world, framebuffersReady, generationReady,
              oldKilled, hold, ne_eq, not_false_eq_true, if_true, List.append_assoc]
            exact List.prefix_append _ _
  · rw [if_neg hc]
    by_cases hold : w.swapchain = VK_NULL_HANDLE
    · simp only [Outcome.world, oldKilled, hold, ne_eq, not_true_eq_false, if_false]
      exact List.prefix_refl _
    · simp only [Outcome.world, oldKilled, hold, ne_eq, not_false_eq_true, if_true]
      exact List.prefix_append _ _

theorem recreateSwapchain_no_teardown (setup : Setup) (rep : SurfaceReport) (w : World)
    (h : w.swapchain = VK_NULL_HANDLE) :
    ((recreateSwapchain setup rep w).added w).filter Event.isTeardown = [] := by
  rw [recreateSwapchain_apply, creatingNew_apply]
  by_cases hc : swapchainCreatable (adjustedCapabilities rep).currentExtent
      (adjustedCapabilities rep) = true
  · rw [if_pos hc]
    cases selectedCompositeAlpha (adjustedCapabilities rep) with
    | none =>
      simp [Outcome.added, Outcome.world, prepared, cleanedUp, h, List.filter,
        Event.isTeardown, filter_map_eq_nil]
    | some a =>
      cases selectedPresentMode rep.presentModes with
      | none =>
        simp [Outcome.added, Outcome.world, prepared, cleanedUp, h, List.filter,
          Event.isTeardown, filter_map_eq_nil]
      | some m =>
        cases pipelineError setup setup.limits vertexBufferBinding with
        | some e =>
          simp [Outcome.added, Outcome.world, prepared, cleanedUp, h, List.filter,
            Event.isTeardown, filter_map_eq_nil, framebuffersReady, filter_zipWith_eq_nil]
        | none =>
          simp [Outcome.added, Outcome.world, prepared, cleanedUp, oldKilled, h,
            List.filter, Event.isTeardown, filter_map_eq_nil, framebuffersReady,
            generationReady, filter_zipWith_eq_nil, filter_flatMap_eq_nil,
            filter_acquireEvents_eq_nil, recordedEvents]
  · rw [if_neg hc]
    simp [Outcome.added, Outcome.world, prepared, cleanedUp, oldKilled, h, List.filter,
      Event.isTeardown, filter_map_eq_nil]

/-- C21: a call of `recreateSwapchain` that finds an active swap chain starts
with its marker and the query of the surface capabilities and then sends, in
this order and with nothing in between, the idle-wait, the destruction of the
fences, of the render-done semaphores, the reset of the command pool, the
destruction of the pipeline, of the framebuffers and of the image views; when
no new generation is built, the call leaves the command buffers as they were. A call that finds no swap chain sends no
idle-wait, no reset and no destroy command at all. -/
theorem C21_teardown_order (setup : Setup) (rep : SurfaceReport) (w : World) :
    (w.swapchain ≠ VK_NULL_HANDLE →
        ([Event.recreateSwapchain, Event.vkGetPhysicalDeviceSurfaceCapabilitiesKHR]
            ++ [Event.vkDeviceWaitIdle]
            ++ w.submissionFences.map Event.vkDestroyFence
            ++ w.renderDoneSs.map Event.vkDestroySemaphore
            ++ [Event.vkResetCommandPool]
            ++ [Event.vkDestroyPipeline w.pipeline]
            ++ w.framebuffers.map Event.vkDestroyFramebuffer
            ++ w.swapchainImageViews.map Event.vkDestroyImageView)
          <+: (recreateSwapchain setup rep w).added w
        ∧ (¬ (adjustedCapabilities rep).extentInRange →
          (recreateSwapchain setup rep w).world.commandBuffers = w.commandBuffers))
      ∧ (w.swapchain = VK_NULL_HANDLE →
        ((recreateSwapchain setup rep w).added w).filter Event.isTeardown = []) := by
  refine ⟨fun h => ⟨?_, fun hr => ?_⟩, recreateSwapchain_no_teardown setup rep w⟩
  swap
  · rw [recreateSwapchain_of_not_inRange setup rep w hr]
    simp [Outcome.world, oldKilled, h, prepared, cleanedUp]
  obtain ⟨rest, hrest⟩ := recreateSwapchain_starts_prepared setup rep w
  rw [prepared_trace_active w h, List.append_assoc] at hrest
  rw [added_of_trace_eq _ w _ hrest.symm]
  exact ⟨rest, by simp only [teardownEvents, List.append_assoc]⟩

/-! ### The indices of a frame -/

theorem recreateSwapchain_true_swapchain (setup : Setup) (rep : SurfaceReport) (w w1 : World)
    (h : recreateSwapchain setup rep w = .returned true w1) :
    w1.swapchain ≠ VK_NULL_HANDLE := by
  rw [recreateSwapchain_apply] at h
  split_ifs at h with hc
  · cases hcn : creatingNew setup rep (adjustedCapabilities rep)
        (adjustedCapabilities rep).currentExtent w.swapchain (prepared w) with
    | returned a v =>
      rw [hcn] at h
      simp only [Outcome.andThen, Outcome.returned.injEq, decide_eq_true_eq] at h
      rw [← h.2, oldKilled_swapchain]
      exact h.1
    | threw e v => rw [hcn] at h; cases h
    | stopped s v => rw [hcn] at h; cases h
  · cases h

theorem recreateSwapchain_frameReady (setup : Setup) (rep : SurfaceReport) (w w1 : World)
    (hlen : w.commandBuffers.length ≤ UINT32_MAX)
    (h : recreateSwapchain setup rep w = .returned true w1) :
    FrameReady (imageCount rep) w1 := by
  have hsc := recreateSwapchain_true_swapchain setup rep w w1 h
  have hcb := recreateSwapchain_commandBuffers_length setup rep w w1 hlen h
  obtain ⟨a, m, rfl⟩ := recreateSwapchain_returned_true setup rep w w1 h
  refine ⟨hsc, ?_, ?_, ?_, ?_, hcb, ?_⟩ <;>
    simp [writtenFrom_length, maxInflightSubmissions]

theorem render_frameReady (setup : Setup) (fuel : Nat) (reports : Nat → FrameReport)
    (n : Nat) (w w1 : World) (hw : FrameReady n w)
    (h : render setup fuel reports w = .returned () w1) : FrameReady n w1 := by
  cases fuel with
  | zero => simp [render, stop_apply] at h
  | succ fuel =>
    rw [render_apply, if_neg hw.swapchain_live, renderTry_apply] at h
    have hmax : maxInflightSubmissions = 2 := rfl
    split_ifs at h with h1 h2 h3
    simp only [Outcome.returned.injEq, true_and] at h
    subst h
    have h4 := hw.fences
    have h5 := hw.imageReady
    refine ⟨hw.swapchain_live, ?_, ?_, hw.fences, hw.imageReady, hw.commandBuffers, hw.renderDone⟩
    · show (_ + 1) % maxInflightSubmissions < w.submissionFences.length
      rw [h4]; exact Nat.mod_lt _ (by decide)
    · show (_ + 1) % maxInflightSubmissions < w.imageReadySs.length
      rw [h5]; exact Nat.mod_lt _ (by decide)

theorem frames_frameReady (setup : Setup) (frames : List (Nat × (Nat → FrameReport)))
    (n : Nat) (w w1 : World) (hw : FrameReady n w)
    (h : performAll setup (frames.map fun f => Action.render f.1 f.2) w = .returned () w1) :
    FrameReady n w1 := by
  induction frames generalizing w with
  | nil =>
    simp only [List.map_nil, performAll, pure_apply, Outcome.returned.injEq, true_and] at h
    rw [← h]; exact hw
  | cons f rest ih =>
    simp only [List.map_cons, performAll] at h
    obtain ⟨_, v, hf, hrest⟩ := bind_returned h
    exact ih v (render_frameReady setup f.1 f.2 n w v hw hf) hrest

theorem render_returns_of_frameReady (setup : Setup) (fuel : Nat) (reports : Nat → FrameReport)
    (n : Nat) (w : World) (hw : FrameReady n w) (hindex : (reports 0).imageIndex < n) :
    ∃ w1, render setup (fuel + 1) reports w = .returned () w1 := by
  rw [render_apply, if_neg hw.swapchain_live, renderTry_apply]
  have h1 : (renderEntered w).submissionNr < (renderEntered w).submissionFences.length :=
    hw.slot_fence
  have h2 : (renderEntered w).submissionNr < (renderEntered w).imageReadySs.length :=
    hw.slot_semaphore
  have h3 : (reports 0).imageIndex < (renderEntered w).commandBuffers.length
      ∧ (reports 0).imageIndex < (renderEntered w).renderDoneSs.length :=
    ⟨by rw [show (renderEntered w).commandBuffers = w.commandBuffers from rfl, hw.commandBuffers]
        exact hindex,
     by rw [show (renderEntered w).renderDoneSs = w.renderDoneSs from rfl, hw.renderDone]
        exact hindex⟩
  rw [if_pos h1, if_pos h2, if_pos h3]
  exact ⟨_, rfl⟩

theorem render_indices_in_bounds (setup : Setup) (rep : SurfaceReport) (w w1 : World)
    (frames : List (Nat × (Nat → FrameReport))) (w2 : World)
    (hlen : w.commandBuffers.length ≤ UINT32_MAX)
    (hrecreated : recreateSwapchain setup rep w = .returned true w1)
    (hframes : performAll setup (frames.map fun f => Action.render f.1 f.2) w1
      = .returned () w2) :
    w2.submissionNr < w2.submissionFences.length
      ∧ w2.submissionNr < w2.imageReadySs.length
      ∧ (∀ imageIndex, imageIndex < imageCount rep →
          imageIndex < w2.commandBuffers.length ∧ imageIndex < w2.renderDoneSs.length)
      ∧ ∀ fuel reports, (reports 0).imageIndex < imageCount rep →
          ∃ w3, render setup (fuel + 1) reports w2 = .returned () w3 := by
  have hready := frames_frameReady setup frames (imageCount rep) w1 w2
    (recreateSwapchain_frameReady setup rep w w1 hlen hrecreated) hframes
  refine ⟨hready.slot_fence, hready.slot_semaphore, fun i hi => ?_, fun fuel reports hi =>
    render_returns_of_frameReady setup fuel reports _ w2 hready hi⟩
  rw [hready.commandBuffers, hready.renderDone]
  exact ⟨hi, hi⟩

/-- C23: let `recreateSwapchain` return true in a state the event pump can reach
from the initial one, and let any number of frames complete after it. Then
`submissionNr` is less than the lengths of `submissionFences` and of
`imageReadySs`, every image index below the number of swap-chain images is less
than the lengths of `commandBuffers` and of `renderDoneSs`, and the next call of
`render` that acquires such an image runs to its end: no vector access of
`render` is out of range. -/
theorem C23_render_indices_in_bounds (setup : Setup) (actions : List Action)
    (rep : SurfaceReport) (w1 : World) (frames : List (Nat × (Nat → FrameReport)))
    (w2 : World)
    (hrecreated : recreateSwapchain setup rep (performAll setup actions World.initial).world
      = .returned true w1)
    (hframes : performAll setup (frames.map fun f => Action.render f.1 f.2) w1
      = .returned () w2) :
    w2.submissionNr < w2.submissionFences.length
      ∧ w2.submissionNr < w2.imageReadySs.length
      ∧ (∀ imageIndex, imageIndex < imageCount rep →
          imageIndex < w2.commandBuffers.length ∧ imageIndex < w2.renderDoneSs.length)
      ∧ ∀ fuel reports, (reports 0).imageIndex < imageCount rep →
          ∃ w3, render setup (fuel + 1) reports w2 = .returned () w3 :=
  render_indices_in_bounds setup rep _ w1 frames w2
    (performAll_commandBuffers_bound setup actions World.initial (by decide)) hrecreated hframes

/-- Two frames after the first recreation on the example platform. -/
theorem C23_render_indices_in_bounds_witness :
    exampleTwoFrames.submissionNr < exampleTwoFrames.submissionFences.length
      ∧ exampleTwoFrames.submissionNr < exampleTwoFrames.imageReadySs.length
      ∧ (∀ imageIndex, imageIndex < imageCount (exampleReport 800 800) →
          imageIndex < exampleTwoFrames.commandBuffers.length
            ∧ imageIndex < exampleTwoFrames.renderDoneSs.length)
      ∧ ∀ fuel reports, (reports 0).imageIndex < imageCount (exampleReport 800 800) →
          ∃ w3, render exampleSetup (fuel + 1) reports exampleTwoFrames = .returned () w3 :=
  C23_render_indices_in_bounds exampleSetup [] (exampleReport 800 800) exampleActive
    [(1, exampleFrames .vkQueueSubmit VK_SUCCESS), (1, exampleFrames .vkQueueSubmit VK_SUCCESS)]
    exampleTwoFrames (by decide!) (by decide!)

/-! ### The assertion of `render` -/

theorem render_live (setup : Setup) (fuel : Nat) (reports : Nat → FrameReport) (w : World)
    (hlive : w.swapchain ≠ VK_NULL_HANDLE) :
    (∀ v, render setup (fuel + 1) reports w ≠ .stopped .assertionFailed v)
      ∧ (render setup (fuel + 1) reports w).world.swapchain = w.swapchain := by
  rw [render_apply, if_neg hlive, renderTry_apply]
  split_ifs <;> exact ⟨fun v h => (by cases h), rfl⟩

/-- The handler of `render` taken by itself does not test what
`recreateSwapchain` returned: entered for `VK_ERROR_OUT_OF_DATE_KHR` while the
window is minimised, it leaves no swap chain and its nested call of `render`
stops at the assertion. -/
theorem renderCatch_minimised_assertion :
    ∃ v, renderCatch exampleSetup exampleMinimisedFrame
        (render exampleSetup 1 (exampleFrames .vkQueueSubmit VK_SUCCESS))
        (.VulkanResultException "vkAcquireNextImageKHR" VK_ERROR_OUT_OF_DATE_KHR)
        exampleActive = .stopped .assertionFailed v
      ∧ v.swapchain = VK_NULL_HANDLE := by
  refine ⟨(renderCatch exampleSetup exampleMinimisedFrame
        (render exampleSetup 1 (exampleFrames .vkQueueSubmit VK_SUCCESS))
        (.VulkanResultException "vkAcquireNextImageKHR" VK_ERROR_OUT_OF_DATE_KHR)
        exampleActive).world, ?_, ?_⟩ <;> decide!

/-- C24: a call of `render` made while a swap chain is live does not stop at the
assertion of its entry and makes no nested call: the trace gets exactly one
`render` marker, the one of this call, and no `recreateSwapchain` marker, and
the swap chain is still live afterwards. So every call of `render` is one made
by the event pump, and it starts with `swapchain` different from
`VK_NULL_HANDLE` whenever the pump calls it only in such states. -/
theorem C24_render_entry_assertion (setup : Setup) (fuel : Nat) (reports : Nat → FrameReport)
    (w : World) (hlive : w.swapchain ≠ VK_NULL_HANDLE) :
    (∀ v, render setup (fuel + 1) reports w ≠ .stopped .assertionFailed v)
      ∧ ((render setup (fuel + 1) reports w).added w).filter Event.isRender = [Event.render]
      ∧ ((render setup (fuel + 1) reports w).added w).filter Event.isRecreateSwapchain = []
      ∧ (render setup (fuel + 1) reports w).world.swapchain ≠ VK_NULL_HANDLE :=
  ⟨(render_live setup fuel reports w hlive).1, (render_markers setup fuel reports w).1,
    (render_markers setup fuel reports w).2,
    by rw [(render_live setup fuel reports w hlive).2]; exact hlive⟩

/-- A frame in the state after the first recreation, with
`vkAcquireNextImageKHR` returning `VK_ERROR_OUT_OF_DATE_KHR`. -/
theorem C24_render_entry_assertion_witness :
    exampleActive.swapchain ≠ VK_NULL_HANDLE
      ∧ (∀ v, render exampleSetup 2 (exampleFrames .vkAcquireNextImageKHR VK_ERROR_OUT_OF_DATE_KHR)
          exampleActive ≠ .stopped .assertionFailed v)
      ∧ ((render exampleSetup 2 (exampleFrames .vkAcquireNextImageKHR VK_ERROR_OUT_OF_DATE_KHR)
          exampleActive).added exampleActive).filter Event.isRender = [Event.render]
      ∧ ((render exampleSetup 2 (exampleFrames .vkAcquireNextImageKHR VK_ERROR_OUT_OF_DATE_KHR)
          exampleActive).added exampleActive).filter Event.isRecreateSwapchain = []
      ∧ (render exampleSetup 2 (exampleFrames .vkAcquireNextImageKHR VK_ERROR_OUT_OF_DATE_KHR)
          exampleActive).world.swapchain ≠ VK_NULL_HANDLE :=
  ⟨by decide!,
    C24_render_entry_assertion exampleSetup 1
      (exampleFrames .vkAcquireNextImageKHR VK_ERROR_OUT_OF_DATE_KHR) exampleActive (by decide!)⟩

/-! ### The surface state of a recreation -/

/-- What `reportedSurfaceFormat` stands for: the value of `getSurfaceFormat` on
a device that offers the formats of the report. -/
theorem getSurfaceFormat_reported (physicalDevice : PhysicalDevice) (rep : SurfaceReport)
    (w : World) (h : physicalDevice.surfaceFormats = rep.surfaceFormats) :
    (getSurfaceFormat physicalDevice w).value? = reportedSurfaceFormat rep := by
  rw [getSurfaceFormat_apply, h]
  unfold reportedSurfaceFormat
  cases rep.surfaceFormats <;> rfl

theorem adjustedCapabilities_eq (rep : SurfaceReport) :
    adjustedCapabilities rep = { rep.capabilities with currentExtent := usedExtent rep } := by
  rw [← adjustedCapabilities_currentExtent]
  unfold adjustedCapabilities
  split_ifs <;> rfl

theorem recreateSwapchain_surface_state (setup : Setup) (rep : SurfaceReport) (w : World)
    (e : Event) (he : e ∈ (recreateSwapchain setup rep w).added w) :
    (∀ capabilities oldSwapchain, e = Event.initSwapchain capabilities oldSwapchain →
        capabilities = { rep.capabilities with currentExtent := usedExtent rep })
      ∧ ∀ info swapchain, e = Event.vkCreateSwapchainKHR info swapchain →
          info.imageExtent = usedExtent rep
            ∧ info.preTransform = rep.capabilities.currentTransform
            ∧ info.minImageCount
              = (if rep.capabilities.maxImageCount ≠ 0 then
                  min (toUint32 (rep.capabilities.minImageCount + 1))
                    rep.capabilities.maxImageCount
                else toUint32 (rep.capabilities.minImageCount + 1))
            ∧ info.imageFormat = setup.surfaceFormat.format
            ∧ info.imageColorSpace = setup.surfaceFormat.colorSpace := by
  constructor
  · intro capabilities oldSwapchain hc
    have hmem : e ∈ ((recreateSwapchain setup rep w).added w).filter Event.isInitSwapchain := by
      rw [List.mem_filter]; exact ⟨he, by rw [hc]; rfl⟩
    rw [recreateSwapchain_initSwapchain_calls] at hmem
    split_ifs at hmem
    · rw [List.mem_singleton, hc] at hmem
      rw [← adjustedCapabilities_eq]
      exact (Event.initSwapchain.inj hmem).1
    · cases hmem
  · intro info swapchain hc
    have hmem : e ∈ ((recreateSwapchain setup rep w).added w).filter
        Event.isSwapchainCreation := by
      rw [List.mem_filter]; exact ⟨he, by rw [hc]; rfl⟩
    obtain ⟨a, m, hinfo⟩ := recreateSwapchain_swapchain_creations setup rep w e hmem
    rw [hc] at hinfo
    obtain ⟨rfl, -⟩ := Event.vkCreateSwapchainKHR.inj hinfo
    rw [adjustedCapabilities_eq]
    exact ⟨rfl, rfl, rfl, rfl, rfl⟩

/-- C22 (amended): in every call of `recreateSwapchain` the capabilities handed
to `initSwapchain` are the ones the platform reports during the call, with the
extent negotiated from what it reports during the call; the swap chain is
created with that extent, the reported transform and an image count computed
from the reported capabilities. The surface format and colour space of the swap
chain are the ones selected once during the initialisation. -/
theorem C22_surface_state_per_call (setup : Setup) (rep : SurfaceReport) (w : World)
    (e : Event) (he : e ∈ (recreateSwapchain setup rep w).added w) :
    (∀ capabilities oldSwapchain, e = Event.initSwapchain capabilities oldSwapchain →
        capabilities = { rep.capabilities with currentExtent := usedExtent rep })
      ∧ ∀ info swapchain, e = Event.vkCreateSwapchainKHR info swapchain →
          info.imageExtent = usedExtent rep
            ∧ info.preTransform = rep.capabilities.currentTransform
            ∧ info.minImageCount
              = (if rep.capabilities.maxImageCount ≠ 0 then
                  min (toUint32 (rep.capabilities.minImageCount + 1))
                    rep.capabilities.maxImageCount
                else toUint32 (rep.capabilities.minImageCount + 1))
            ∧ info.imageFormat = setup.surfaceFormat.format
            ∧ info.imageColorSpace = setup.surfaceFormat.colorSpace :=
  recreateSwapchain_surface_state setup rep w e he

/-- The swap chain of a 640 x 480 window created in the state after the first
recreation. -/
theorem C22_surface_state_per_call_witness :
    Event.vkCreateSwapchainKHR
        (swapchainInfoOf exampleSetup (exampleReport 640 480).capabilities 1 2
          exampleActive.swapchain) 19
      ∈ (recreateSwapchain exampleSetup (exampleReport 640 480) exampleActive).added exampleActive
    ∧ (swapchainInfoOf exampleSetup (exampleReport 640 480).capabilities 1 2
          exampleActive.swapchain).imageExtent = usedExtent (exampleReport 640 480)
    ∧ (swapchainInfoOf exampleSetup (exampleReport 640 480).capabilities 1 2
          exampleActive.swapchain).imageFormat = exampleSetup.surfaceFormat.format :=
  ⟨by decide!,
    ((C22_surface_state_per_call exampleSetup (exampleReport 640 480) exampleActive _
      (by decide!)).2 _ 19 rfl).1,
    ((C22_surface_state_per_call exampleSetup (exampleReport 640 480) exampleActive _
      (by decide!)).2 _ 19 rfl).2.2.2.1⟩

/-- C22 fails as stated. The format was selected during the initialisation
(`VK_FORMAT_B8G8R8A8_UNORM`, from the device of the example platform); during
the call the platform offers
`VK_FORMAT_B8G8R8A8_SRGB` only, which is what `getSurfaceFormat` would select
then, and `recreateSwapchain` creates the swap chain with
`VK_FORMAT_B8G8R8A8_UNORM`. -/
theorem C22_surface_format_from_initialisation :
    (∀ physicalDevice ∈ exampleStartup.physicalDevices,
        (getSurfaceFormat physicalDevice World.initial).value? = some exampleSetup.surfaceFormat)
      ∧ reportedSurfaceFormat exampleReformatted = some ⟨VK_FORMAT_B8G8R8A8_SRGB, 0⟩
      ∧ ∃ info swapchain,
        Event.vkCreateSwapchainKHR info swapchain
          ∈ (recreateSwapchain exampleSetup exampleReformatted World.initial).added World.initial
        ∧ info.imageFormat = VK_FORMAT_B8G8R8A8_UNORM
        ∧ some info.imageFormat
          ≠ (reportedSurfaceFormat exampleReformatted).map fun f => f.format :=
  ⟨by decide!, by decide!,
    swapchainInfoOf exampleSetup exampleReformatted.capabilities 1 2 VK_NULL_HANDLE, 1,
    by decide!, by decide!, by decide!⟩

end HelloVoxel
